import Mathlib

/-! Pehlahath: authentication handlers, proximity search, resource handlers.

A shallow embedding of the Express request handlers
`backend/controllers/auth/LoginController.js` (`loginUser`),
`backend/controllers/auth/RegisterController.js` (`registerUser`) and
`backend/controllers/resourceController.js`, of the `User` schema of
`backend/config/models/userModel.js`, and of `calculateDistance` and
`fetchSpecificCenters` of `frontend1/src/pages/EmergencyContacts.jsx`.

A handler is a function from the collaborators' behaviour during the call
(`Env`), the user collection before the call (`Store`) and the request body to
an `Outcome`: the collection after the call, the HTTP response, and the list
of effects (collaborator calls and log lines) in the order they happened.
The search is a function from its collaborators (`SearchEnv`) and the location
to a `SearchOutcome`: the requests sent and the state setters called.
-/

namespace Pehlahath

/-! ## Values of a parsed JSON request body -/

/-- A field of `req.body` as the handler sees it after destructuring. A field
that is absent is `undefined`. Numbers are kept as integers: the handlers only
test them for truthiness and for equality with a role string. Objects and
arrays are kept by their JSON text. -/
inductive JsVal where
  | undefined
  | null
  | bool (b : Bool)
  | num (n : Int)
  | str (s : String)
  | obj (json : String)
  deriving DecidableEq, Repr

/-- JavaScript truthiness, the test behind `!x`. -/
def JsVal.truthy : JsVal → Bool
  | .undefined => false
  | .null => false
  | .bool b => b
  | .num n => n != 0
  | .str s => s != ""
  | .obj _ => true

/-- A field that is missing (`undefined` or `null`) or the empty string. -/
def JsVal.missingOrEmpty (v : JsVal) : Prop :=
  v = .undefined ∨ v = .null ∨ v = .str ""

/-! ## The user collection -/

/-- A document of the `User` model: the four `String` paths of the schema and
the `_id` that the driver adds. -/
structure User where
  _id : String
  name : String
  email : String
  password : String
  role : String
  deriving DecidableEq, Repr

/-- The `users` collection, in insertion order. -/
abbrev Store := List User

/-- A thrown JavaScript error. -/
structure JsError where
  message : String
  deriving DecidableEq, Repr

/-- The fields given to `new UserSchema({ name, email, password, role })`. -/
structure NewUser where
  name : JsVal
  email : JsVal
  password : JsVal
  role : JsVal
  deriving DecidableEq, Repr

/-! ## Session tokens -/

/-- The payload of a session token: the four claims given to `jwt.sign` and
the two timestamps (in seconds) the signer adds. -/
structure TokenPayload where
  id : String
  email : String
  name : String
  role : String
  iat : Nat
  exp : Nat
  deriving DecidableEq, Repr

/-- A signed session token. -/
structure SessionToken where
  payload : TokenPayload
  signature : String
  deriving DecidableEq, Repr

/-- The object literal passed to `jwt.sign` as its payload. -/
structure Claims where
  id : String
  email : String
  name : String
  role : String
  deriving DecidableEq, Repr

/-! ## Collaborators -/

/-- What the collaborators of a handler do during one call: the process
environment, the clock, the bcrypt and HMAC primitives, and the failures of the
database driver. -/
structure Env where
  /-- Value of `process.env.JWT_SECRET`; `none` when the variable is unset. -/
  JWT_SECRET : Option String
  /-- Clock reading, in seconds, when the token is signed. -/
  now : Nat
  /-- Keyed signature over a token payload. -/
  hmac : String → TokenPayload → String
  /-- Function `bcrypt.genSalt(rounds)`. -/
  genSalt : Nat → Except JsError String
  /-- Function `bcrypt.hash(data, salt)`. -/
  hash : JsVal → String → Except JsError String
  /-- Function `bcrypt.compare(data, encrypted)`. -/
  compare : JsVal → String → Except JsError Bool
  /-- Error with which `UserSchema.findOne` rejects, if it does. -/
  findOneError : Option JsError
  /-- Result of `UserSchema.findOne({ email })` when `email` is not a string. -/
  findOneOther : Store → JsVal → Except JsError (Option User)
  /-- Error with which `newUser.save()` rejects, if it does. -/
  saveError : Option JsError
  /-- Result of casting a value that is not a string to a `String` path. -/
  castOther : JsVal → Except JsError String
  /-- The `_id` given to a document created during the call. -/
  newId : String

/-- Modelled from the spec: the Credential Store's `findByEmail(email) →
record|absent`, which the source reaches through Mongoose's
`UserSchema.findOne({ email })`. A string filter selects the first document
whose `email` equals it. -/
def findOne (env : Env) (db : Store) (email : JsVal) : Except JsError (Option User) :=
  match env.findOneError with
  | some err => .error err
  | none =>
    match email with
    | .str e => .ok (db.find? (fun u => u.email == e))
    | v => env.findOneOther db v

/-- Cast of a value to a `String` schema path: a string is kept as it is. -/
def castString (env : Env) : JsVal → Except JsError String
  | .str s => .ok s
  | v => env.castOther v

/-- Modelled from the spec: the Credential Store's `insert(record)`, which the
source reaches through Mongoose's `newUser.save()`. The four paths are cast to
`String`, each is `required` (so none may be empty, as `userModel.js` declares),
and the document is appended to the collection. -/
def save (env : Env) (db : Store) (doc : NewUser) : Except JsError Store :=
  match env.saveError with
  | some err => .error err
  | none =>
    match castString env doc.name, castString env doc.email,
          castString env doc.password, castString env doc.role with
    | .ok name, .ok email, .ok password, .ok role =>
      if name = "" ∨ email = "" ∨ password = "" ∨ role = "" then
        .error ⟨"User validation failed"⟩
      else
        .ok (db ++ [⟨env.newId, name, email, password, role⟩])
    | .error err, _, _, _ => .error err
    | _, .error err, _, _ => .error err
    | _, _, .error err, _ => .error err
    | _, _, _, .error err => .error err

/-- Value of a decimal digit character. -/
def digitValue (c : Char) : Option Nat :=
  if c.isDigit then some (c.toNat - 48) else none

/-- Reads a non-empty list of decimal digits, most significant first. -/
def parseDigits : List Char → Option Nat
  | [] => none
  | cs => cs.foldl (fun acc c => acc.bind (fun n => (digitValue c).map (fun d => 10 * n + d))) (some 0)

/-- Seconds denoted by a time span such as `'1h'` (units `s`, `m`, `h`, `d`). -/
def timespan (s : String) : Option Nat :=
  match s.data.reverse with
  | 's' :: ds => parseDigits ds.reverse
  | 'm' :: ds => (parseDigits ds.reverse).map (· * 60)
  | 'h' :: ds => (parseDigits ds.reverse).map (· * 3600)
  | 'd' :: ds => (parseDigits ds.reverse).map (· * 86400)
  | _ => none

/-- Modelled from the spec: "Signed with a server-held secret; fixed validity
window (1 hour) from issuance", which the source reaches through
`jwt.sign(payload, secret, { expiresIn })` of the jsonwebtoken library. Signing
throws when the secret is unset or empty or the time span is malformed. -/
def sign (env : Env) (payload : Claims) (secret : Option String) (expiresIn : String) :
    Except JsError SessionToken :=
  match secret with
  | none => .error ⟨"secretOrPrivateKey must have a value"⟩
  | some key =>
    if key = "" then .error ⟨"secretOrPrivateKey must have a value"⟩
    else
      match timespan expiresIn with
      | none => .error ⟨"expiresIn should be a number of seconds or string representing a timespan"⟩
      | some window =>
        let body : TokenPayload :=
          ⟨payload.id, payload.email, payload.name, payload.role, env.now, env.now + window⟩
        .ok ⟨body, env.hmac key body⟩

/-- Failure of token validation. -/
structure AuthenticationError where
  message : String
  deriving DecidableEq, Repr

/-- Modelled from the spec: `ValidateToken(token) → Claims | AuthenticationError`,
"Verifies signature and expiry; fails closed (any verification error → reject)".
No validator is part of the source files; a token is rejected when its signature
is not the one the secret gives for its payload, or when the instant of
validation is after its expiry instant. -/
def validateToken (hmac : String → TokenPayload → String) (secret : String) (now : Nat)
    (token : SessionToken) : Except AuthenticationError TokenPayload :=
  if token.signature ≠ hmac secret token.payload then .error ⟨"invalid signature"⟩
  else if token.payload.exp < now then .error ⟨"token expired"⟩
  else .ok token.payload

/-! ## Responses and effects -/

/-- A value in a JSON response body: text or a serialised session token. -/
inductive Json where
  | str (s : String)
  | jwt (token : SessionToken)
  deriving DecidableEq, Repr

/-- An HTTP response: the status code and the key/value pairs of its JSON body. -/
structure Response where
  status : Nat
  body : List (String × Json)
  deriving DecidableEq, Repr

/-- What a handler did to the world, in order. -/
inductive Effect where
  | findOne (email : JsVal)
  | genSalt (rounds : Nat)
  | hash (data : JsVal) (salt : String)
  | save (doc : NewUser)
  | compare (data : JsVal) (encrypted : String)
  | sign (payload : Claims) (expiresIn : String)
  | consoleError (label : Option String) (err : JsError)
  deriving DecidableEq, Repr

/-- Result of running a handler: the collection afterwards, the response sent,
and the effects performed. -/
structure Outcome where
  store : Store
  response : Response
  effects : List Effect
  deriving DecidableEq, Repr

/-- Body of `POST /login`. -/
structure LoginBody where
  email : JsVal
  password : JsVal
  deriving DecidableEq, Repr

/-- Body of `POST /register`. -/
structure RegisterBody where
  name : JsVal
  email : JsVal
  password : JsVal
  role : JsVal
  deriving DecidableEq, Repr

/-- The array `validRoles` of `registerUser`. -/
def validRoles : List JsVal := [.str "user", .str "admin", .str "emergency_responder"]

/-- Response `res.status(500).json({ error: 'Server error' })`. -/
def serverError : Response := ⟨500, [("error", .str "Server error")]⟩

/-- Response `res.status(401).json({ error: 'Invalid email or password' })`. -/
def invalidCredentials : Response := ⟨401, [("error", .str "Invalid email or password")]⟩

/-- Response `res.status(400).json({ error: 'Email already exists' })`. -/
def emailExists : Response := ⟨400, [("error", .str "Email already exists")]⟩

/-! ## The handlers -/

/-- Handler `loginUser` of `LoginController.js`. -/
def loginUser (env : Env) (db : Store) (body : LoginBody) : Outcome :=
  if !body.email.truthy || !body.password.truthy then
    ⟨db, ⟨400, [("error", .str "Email and password are required")]⟩, []⟩
  else
    match findOne env db body.email with
    | .error err =>
      ⟨db, serverError, [.findOne body.email, .consoleError (some "Login error:") err]⟩
    | .ok none =>
      ⟨db, invalidCredentials, [.findOne body.email]⟩
    | .ok (some user) =>
      match env.compare body.password user.password with
      | .error err =>
        ⟨db, serverError,
          [.findOne body.email, .compare body.password user.password,
           .consoleError (some "Login error:") err]⟩
      | .ok false =>
        ⟨db, invalidCredentials, [.findOne body.email, .compare body.password user.password]⟩
      | .ok true =>
        let payload : Claims := ⟨user._id, user.email, user.name, user.role⟩
        match sign env payload env.JWT_SECRET "1h" with
        | .error err =>
          ⟨db, serverError,
            [.findOne body.email, .compare body.password user.password, .sign payload "1h",
             .consoleError (some "Login error:") err]⟩
        | .ok token =>
          ⟨db,
           ⟨200, [("token", .jwt token), ("id", .str user._id), ("email", .str user.email),
                  ("name", .str user.name), ("role", .str user.role),
                  ("message", .str "Login successful")]⟩,
           [.findOne body.email, .compare body.password user.password, .sign payload "1h"]⟩

/-- Handler `registerUser` of `RegisterController.js`. -/
def registerUser (env : Env) (db : Store) (body : RegisterBody) : Outcome :=
  if !body.name.truthy || !body.email.truthy || !body.password.truthy || !body.role.truthy then
    ⟨db, ⟨400, [("error", .str "Name, email, password, and role are required")]⟩, []⟩
  else if !validRoles.contains body.role then
    ⟨db, ⟨400, [("error", .str "Invalid role. Must be one of: user, admin, emergency_responder")]⟩, []⟩
  else
    match findOne env db body.email with
    | .error err =>
      ⟨db, serverError,
        [.findOne body.email, .consoleError (some "Registration error:") err,
         .consoleError none err]⟩
    | .ok (some _) =>
      ⟨db, emailExists, [.findOne body.email]⟩
    | .ok none =>
      match env.genSalt 10 with
      | .error err =>
        ⟨db, serverError,
          [.findOne body.email, .genSalt 10, .consoleError (some "Registration error:") err,
           .consoleError none err]⟩
      | .ok salt =>
        match env.hash body.password salt with
        | .error err =>
          ⟨db, serverError,
            [.findOne body.email, .genSalt 10, .hash body.password salt,
             .consoleError (some "Registration error:") err, .consoleError none err]⟩
        | .ok hashedPassword =>
          let newUser : NewUser := ⟨body.name, body.email, .str hashedPassword, body.role⟩
          match save env db newUser with
          | .error err =>
            ⟨db, serverError,
              [.findOne body.email, .genSalt 10, .hash body.password salt, .save newUser,
               .consoleError (some "Registration error:") err, .consoleError none err]⟩
          | .ok db' =>
            ⟨db', ⟨201, [("message", .str "User registered successfully")]⟩,
              [.findOne body.email, .genSalt 10, .hash body.password salt, .save newUser]⟩

/-- A call to `registerUser`: the collaborators during the call and the body. -/
structure RegisterCall where
  env : Env
  body : RegisterBody

/-- The collection after a sequence of `registerUser` calls made one after the
other, each starting from the collection the previous one left. -/
def registerAll (db : Store) : List RegisterCall → Store
  | [] => db
  | c :: cs => registerAll (registerUser c.env db c.body).store cs

/-- Whether a computation threw. -/
def threw {ε α : Type} : Except ε α → Bool
  | .error _ => true
  | .ok _ => false

/-! ## Sample collaborators -/

/-- A sample bcrypt: the hash is the salt followed by the password, and it is
defined on strings only. -/
def sampleHash : JsVal → String → Except JsError String
  | .str p, salt => .ok (salt ++ p)
  | _, _ => .error ⟨"Illegal arguments"⟩

/-- The comparison that goes with `sampleHash` under the salt `$2a$10$`. -/
def sampleCompare : JsVal → String → Except JsError Bool
  | .str p, encrypted => .ok (encrypted == "$2a$10$" ++ p)
  | _, _ => .error ⟨"Illegal arguments"⟩

/-- A sample signature: the key followed by the subject's id. -/
def sampleHmac (key : String) (p : TokenPayload) : String := key ++ p.id

/-- Collaborators that all work, with a configured secret. -/
def sampleEnv : Env where
  JWT_SECRET := some "s3cret"
  now := 1000
  hmac := sampleHmac
  genSalt := fun _ => .ok "$2a$10$"
  hash := sampleHash
  compare := sampleCompare
  findOneError := none
  findOneOther := fun _ _ => .error ⟨"Cast to string failed"⟩
  saveError := none
  castOther := fun _ => .error ⟨"Cast to string failed"⟩
  newId := "id1"

/-- The user Amit of the example, as `registerUser` stores it under `sampleEnv`. -/
def amit : User := ⟨"id1", "Amit", "a@x.com", "$2a$10$pw123", "user"⟩

/-- The registration of Amit in the example. -/
def amitBody : RegisterBody := ⟨.str "Amit", .str "a@x.com", .str "pw123", .str "user"⟩

/-- The second registration of the example: the same email, other fields. -/
def amit2Body : RegisterBody := ⟨.str "Amit2", .str "a@x.com", .str "pw456", .str "admin"⟩

/-- A registration with Amit's email and a role outside `validRoles`. -/
def badRoleBody : RegisterBody := ⟨.str "Amit2", .str "a@x.com", .str "pw456", .str "superuser"⟩

/-- A registration without a name. -/
def namelessBody : RegisterBody := ⟨.undefined, .str "a@x.com", .str "pw123", .str "user"⟩

/-- Amit logging in with the registered password. -/
def amitLogin : LoginBody := ⟨.str "a@x.com", .str "pw123"⟩

/-- Amit's email with a password that does not match. -/
def wrongPasswordLogin : LoginBody := ⟨.str "a@x.com", .str "guess"⟩

/-- A login without a password. -/
def emptyPasswordLogin : LoginBody := ⟨.str "a@x.com", .str ""⟩

/-- Collaborators during a call in which the database lookup rejects. -/
def lookupDownEnv : Env := { sampleEnv with findOneError := some ⟨"connection lost"⟩ }

/-- The token `loginUser` mints for Amit under `sampleEnv`. -/
def amitToken : SessionToken :=
  ⟨⟨"id1", "a@x.com", "Amit", "user", 1000, 4600⟩, "s3cretid1"⟩

end Pehlahath

namespace Pehlahath

/-! ## Numbers of the proximity search -/

/-- A JavaScript number as the search uses it: `NaN`, or a finite value taken as
the rational it denotes. Arithmetic on finite values is exact: the rounding and
the overflow of `+`, `-`, `*`, `/` are left out, and `x / 0` is folded into `nan`. -/
inductive JsNum where
  | nan
  | fin (q : ℚ)
  deriving DecidableEq, Repr

instance : Add JsNum where
  add a b := match a, b with
    | .fin x, .fin y => .fin (x + y)
    | _, _ => .nan

instance : Sub JsNum where
  sub a b := match a, b with
    | .fin x, .fin y => .fin (x - y)
    | _, _ => .nan

instance : Mul JsNum where
  mul a b := match a, b with
    | .fin x, .fin y => .fin (x * y)
    | _, _ => .nan

instance : Div JsNum where
  div a b := match a, b with
    | .fin x, .fin y => if y = 0 then .nan else .fin (x / y)
    | _, _ => .nan

instance : NatCast JsNum where
  natCast n := .fin n

/-- The operator `<=`: false as soon as one operand is `NaN`. -/
def JsNum.le : JsNum → JsNum → Bool
  | .fin x, .fin y => decide (x ≤ y)
  | _, _ => false

/-- The test `v > 0` that `Array.prototype.sort` applies to a comparator's result. -/
def JsNum.isPos : JsNum → Bool
  | .fin x => decide (0 < x)
  | .nan => false

/-- The members of `Math` that `calculateDistance` uses, over a number type `F`. -/
structure JsMath (F : Type) where
  PI : F
  sin : F → F
  cos : F → F
  sqrt : F → F
  atan2 : F → F → F

/-- Function `calculateDistance` of `EmergencyContacts.jsx`: the haversine
formula, written over any number type with the four operations. -/
def calculateDistance {F : Type} [Add F] [Sub F] [Mul F] [Div F] [NatCast F] (Math : JsMath F)
    (lat1 lon1 lat2 lon2 : F) : F :=
  let toRad := fun (value : F) => (value * Math.PI) / ((180 : ℕ) : F)
  let R : F := ((6371 : ℕ) : F)
  let dLat := toRad (lat2 - lat1)
  let dLon := toRad (lon2 - lon1)
  let a :=
    Math.sin (dLat / ((2 : ℕ) : F)) * Math.sin (dLat / ((2 : ℕ) : F)) +
    Math.cos (toRad lat1) * Math.cos (toRad lat2) *
    Math.sin (dLon / ((2 : ℕ) : F)) * Math.sin (dLon / ((2 : ℕ) : F))
  let c := ((2 : ℕ) : F) * Math.atan2 (Math.sqrt a) (Math.sqrt (((1 : ℕ) : F) - a))
  R * c

/-! ## The proximity search -/

/-- An element of the array the place-search provider returns. -/
structure Place where
  display_name : String
  lat : String
  lon : String
  deriving DecidableEq, Repr

/-- An element of `centers`: the provider's fields, the category label and the
distance from the origin. -/
structure Center where
  display_name : String
  lat : String
  lon : String
  type : String
  distance : JsNum
  deriving DecidableEq, Repr

/-- An element of the array `types`. -/
structure CenterType where
  amenity : String
  name : String
  deriving DecidableEq, Repr

/-- The four numbers of the `viewbox` parameter, in the order of the template. -/
structure BoundingBox where
  west : JsNum
  south : JsNum
  east : JsNum
  north : JsNum
  deriving DecidableEq, Repr

/-- A search request to the provider: what varies in the URL of `axios.get`
(`format=json`, `bounded=1` and `limit=20` are fixed). -/
structure Query where
  amenity : String
  viewbox : BoundingBox
  radius : JsNum
  deriving DecidableEq, Repr

/-- The argument `location`. -/
structure Location where
  latitude : JsNum
  longitude : JsNum
  deriving DecidableEq, Repr

/-- Collaborators of the search: `Math`, `parseFloat`, and the provider, which
answers a request with `response.data` or fails. -/
structure SearchEnv where
  Math : JsMath JsNum
  parseFloat : String → JsNum
  get : Query → Except JsError (List Place)

/-- The array `types`. -/
def types : List CenterType :=
  [⟨"hospital", "Hospital"⟩, ⟨"police", "Police Station"⟩, ⟨"fire_station", "Fire Station"⟩]

/-- The array `radii`, in metres. -/
def radii : List JsNum := [((5000 : ℕ) : JsNum), ((10000 : ℕ) : JsNum), ((15000 : ℕ) : JsNum), ((20000 : ℕ) : JsNum)]

/-- The constant `latDiff`, 0.03. -/
def latDiff : JsNum := .fin (3 / 100)

/-- The constant `lonDiff`, 0.03. -/
def lonDiff : JsNum := .fin (3 / 100)

/-- The template string `boundingBox`. -/
def boundingBox (latitude longitude : JsNum) : BoundingBox :=
  ⟨longitude - lonDiff, latitude - latDiff, longitude + lonDiff, latitude + latDiff⟩

/-- The distance the filter and the map compute for a provider element. -/
def distanceTo (env : SearchEnv) (latitude longitude : JsNum) (center : Place) : JsNum :=
  calculateDistance env.Math latitude longitude (env.parseFloat center.lat)
    (env.parseFloat center.lon)

/-- The `.filter(...).map(...)` stage: the provider elements within the radius,
tagged with the category label and their distance. -/
def survivors (env : SearchEnv) (latitude longitude : JsNum) (type : CenterType) (radius : JsNum)
    (data : List Place) : List Center :=
  (data.filter (fun center =>
      JsNum.le (distanceTo env latitude longitude center) (radius / ((1000 : ℕ) : JsNum)))).map
    (fun center =>
      ⟨center.display_name, center.lat, center.lon, type.name,
       distanceTo env latitude longitude center⟩)

/-- The order a comparator `(a, b) => a.distance - b.distance` gives to `sort`:
`a` stays before `b` unless the difference is positive. -/
def byDistance (a b : Center) : Prop := JsNum.isPos (a.distance - b.distance) = false

instance : DecidableRel byDistance := fun a b =>
  inferInstanceAs (Decidable (JsNum.isPos (a.distance - b.distance) = false))

/-- The call `.sort((a, b) => a.distance - b.distance)`: a stable sort. -/
def sortByDistance (centers : List Center) : List Center :=
  centers.insertionSort byDistance

/-- The whole chain `.filter(...).map(...).sort(...).slice(0, 2)`. -/
def rankCenters (env : SearchEnv) (latitude longitude : JsNum) (type : CenterType) (radius : JsNum)
    (data : List Place) : List Center :=
  (sortByDistance (survivors env latitude longitude type radius data)).take 2

/-- The inner loop `for (const radius of radii)` for one category: the requests
issued, and the value of `centers` after the loop or the error that left it. -/
def searchRadii (env : SearchEnv) (latitude longitude : JsNum) (viewbox : BoundingBox)
    (type : CenterType) : List JsNum → List Query × Except JsError (List Center)
  | [] => ([], .ok [])
  | radius :: rest =>
    match env.get ⟨type.amenity, viewbox, radius⟩ with
    | .error err => ([⟨type.amenity, viewbox, radius⟩], .error err)
    | .ok data =>
      let centers := rankCenters env latitude longitude type radius data
      if centers.length > 0 then
        ([⟨type.amenity, viewbox, radius⟩], .ok centers)
      else
        match searchRadii env latitude longitude viewbox type rest with
        | (queries, result) => (⟨type.amenity, viewbox, radius⟩ :: queries, result)

/-- The outer loop `for (const type of types)`, started with `allCenters`. -/
def searchTypes (env : SearchEnv) (latitude longitude : JsNum) (viewbox : BoundingBox)
    (allCenters : List Center) : List CenterType → List Query × Except JsError (List Center)
  | [] => ([], .ok allCenters)
  | type :: rest =>
    match searchRadii env latitude longitude viewbox type radii with
    | (queries, .error err) => (queries, .error err)
    | (queries, .ok centers) =>
      match searchTypes env latitude longitude viewbox (allCenters ++ centers) rest with
      | (queries', result) => (queries ++ queries', result)

/-- What a call of `fetchSpecificCenters` did: the requests it sent, and the
arguments with which it called `setCenters`, `setError` and `setLoading`, if it
called them. -/
structure SearchOutcome where
  queries : List Query
  centers : Option (List Center)
  error : Option String
  loading : Option Bool
  deriving DecidableEq, Repr

/-- Function `fetchSpecificCenters` of `EmergencyContacts.jsx` (console output
left out). -/
def fetchSpecificCenters (env : SearchEnv) (location : Option Location) : SearchOutcome :=
  match location with
  | none => ⟨[], none, none, none⟩
  | some loc =>
    let viewbox := boundingBox loc.latitude loc.longitude
    match searchTypes env loc.latitude loc.longitude viewbox [] types with
    | (queries, .ok allCenters) => ⟨queries, some (sortByDistance allCenters), none, some false⟩
    | (queries, .error _) =>
      ⟨queries, none, some "Failed to fetch nearby emergency centers.", some false⟩

/-- The value of `centers` for one category when its loop ends. -/
def categoryResult (env : SearchEnv) (loc : Location) (type : CenterType) :
    Except JsError (List Center) :=
  (searchRadii env loc.latitude loc.longitude (boundingBox loc.latitude loc.longitude) type
    radii).2

/-- The requests the loop of one category issues. -/
def categoryQueries (env : SearchEnv) (loc : Location) (type : CenterType) : List Query :=
  (searchRadii env loc.latitude loc.longitude (boundingBox loc.latitude loc.longitude) type
    radii).1

/-! ## Sample search -/

/-- A sample `Math`, chosen so that distances are rational: the point with
coordinates `(x, y)` is at distance `x * x + y * y` from the origin `(0, 0)`. -/
def sampleMath : JsMath JsNum where
  PI := ((180 : ℕ) : JsNum)
  sin := fun x => x
  cos := fun _ => ((1 : ℕ) : JsNum)
  sqrt := fun x => if JsNum.le (.fin 0) x then x else .nan
  atan2 := fun y _ => (y * ((2 : ℕ) : JsNum)) / ((6371 : ℕ) : JsNum)

/-- A sample `parseFloat` that reads unsigned decimal integers. -/
def sampleParseFloat (s : String) : JsNum :=
  match parseDigits s.data with
  | some n => ((n : ℕ) : JsNum)
  | none => .nan

/-- Three hospitals at distances 9, 2 and 4 from the origin, in the order the
provider returns them. -/
def threeHospitals : List Place :=
  [⟨"Far Hospital", "3", "0"⟩, ⟨"Near Hospital", "1", "1"⟩, ⟨"Mid Hospital", "2", "0"⟩]

/-- A provider that knows three hospitals and nothing else. -/
def sampleGet (q : Query) : Except JsError (List Place) :=
  if q.amenity = "hospital" then .ok threeHospitals else .ok []

/-- Collaborators of the sample search. -/
def sampleSearch : SearchEnv := ⟨sampleMath, sampleParseFloat, sampleGet⟩

/-- The origin of the sample search. -/
def origin : Location := ⟨.fin 0, .fin 0⟩

/-- The request for hospitals around the sample origin at the first radius. -/
def hospitalQuery : Query := ⟨"hospital", boundingBox (.fin 0) (.fin 0), .fin 5000⟩

/-- The request for police stations around the sample origin at the first radius. -/
def policeQuery : Query := ⟨"police", boundingBox (.fin 0) (.fin 0), .fin 5000⟩

/-- The nearest of the three hospitals, as the search returns it. -/
def nearHospital : Center := ⟨"Near Hospital", "1", "1", "Hospital", .fin 2⟩

/-- The second nearest of the three hospitals, as the search returns it. -/
def midHospital : Center := ⟨"Mid Hospital", "2", "0", "Hospital", .fin 4⟩

/-- The first of the two clinics, as the search returns it. -/
def clinicA : Center := ⟨"Clinic A", "0", "0", "Hospital", .fin 0⟩

/-- The second of the two clinics, as the search returns it. -/
def clinicB : Center := ⟨"Clinic B", "0", "0", "Hospital", .fin 0⟩

end Pehlahath

namespace Pehlahath

/-- The provider answers the request for `type` at `radius`, and no element of
its answer survives the distance filter of that radius. -/
def nothingWithin (env : SearchEnv) (latitude longitude : JsNum) (viewbox : BoundingBox)
    (type : CenterType) (radius : JsNum) : Prop :=
  ∃ data, env.get ⟨type.amenity, viewbox, radius⟩ = .ok data ∧
    survivors env latitude longitude type radius data = []

end Pehlahath

namespace Pehlahath

/-- Two clinics at the very coordinates of the origin: both at distance 0. -/
def twinClinics : List Place := [⟨"Clinic A", "0", "0"⟩, ⟨"Clinic B", "0", "0"⟩]

/-- A provider that answers every hospital request with the two clinics. -/
def twinGet (q : Query) : Except JsError (List Place) :=
  if q.amenity = "hospital" then .ok twinClinics else .ok []

/-- Collaborators of a search in which two candidates are equally far. -/
def twinSearch : SearchEnv := ⟨sampleMath, sampleParseFloat, twinGet⟩

/-- A provider whose police requests fail while the other categories answer. -/
def policeDownGet (q : Query) : Except JsError (List Place) :=
  if q.amenity = "police" then .error ⟨"Network Error"⟩
  else if q.amenity = "hospital" then .ok threeHospitals else .ok []

/-- Collaborators of a search during which the police requests fail. -/
def policeDown : SearchEnv := ⟨sampleMath, sampleParseFloat, policeDownGet⟩

/-! ## The haversine distance -/

/-- Following the specification, not the source: the quantity `a` of the
haversine formula for two points given in decimal degrees, `sin²(Δlat/2) +
cos(lat1)·cos(lat2)·sin²(Δlon/2)` with the angles in radians, as a real number. -/
noncomputable def haversineA (lat1 lon1 lat2 lon2 : ℝ) : ℝ :=
  Real.sin ((lat2 - lat1) * Real.pi / 180 / 2) ^ 2 +
    Real.cos (lat1 * Real.pi / 180) * Real.cos (lat2 * Real.pi / 180) *
      Real.sin ((lon2 - lon1) * Real.pi / 180 / 2) ^ 2

/-- Following the specification, not the source: the haversine great-circle
distance, in km, on a sphere of radius 6371 km, as a real number. -/
noncomputable def haversineKm (lat1 lon1 lat2 lon2 : ℝ) : ℝ :=
  2 * 6371 * Real.arcsin (Real.sqrt (haversineA lat1 lon1 lat2 lon2))

/-! ## Resource requests -/

/-- A document of the `Resource` model. Its schema is not among the source
files: the controller reads the paths `providedBy.id`, `timestamp` and `status`,
and the other paths are kept as text. -/
structure Resource where
  _id : String
  providedBy : String
  timestamp : Int
  status : String
  rest : String
  deriving DecidableEq, Repr

/-- The body of a response of the resource controller: an array of documents,
one document, or `{ message }`. -/
inductive ResourceBody where
  | list (resources : List Resource)
  | one (resource : Resource)
  | message (text : String)
  deriving DecidableEq, Repr

/-- A response of the resource controller. -/
structure ResourceResponse where
  status : Nat
  body : ResourceBody
  deriving DecidableEq, Repr

/-- What the `Resource` model does during one call. -/
structure ResourceEnv where
  /-- Error with which `Resource.find(...).sort(...)` rejects, if it does. -/
  findError : Option JsError
  /-- The document `new Resource(req.body)` holds once `save()` has validated it. -/
  construct : JsVal → Except JsError Resource
  /-- Error with which `resource.save()` rejects, if it does. -/
  saveError : Option JsError
  /-- Error with which `Resource.findByIdAndUpdate` rejects, if it does. -/
  updateError : Option JsError
  /-- Cast of the submitted `status` to the `status` path; `none` leaves it as it is. -/
  castStatus : JsVal → Except JsError (Option String)

/-- The order of `.sort({ timestamp: -1 })`: newest first. -/
def newestFirst (a b : Resource) : Prop := b.timestamp ≤ a.timestamp

instance : DecidableRel newestFirst := fun a b =>
  inferInstanceAs (Decidable (b.timestamp ≤ a.timestamp))

/-- Modelled from the spec: the Resource store's list operation "returned sorted
by recency", which the source reaches through `Resource.find(filter).sort({
timestamp: -1 })`. -/
def find (env : ResourceEnv) (db : List Resource) (filter : Resource → Bool) :
    Except JsError (List Resource) :=
  match env.findError with
  | some err => .error err
  | none => .ok ((db.filter filter).insertionSort newestFirst)

/-- Modelled from the spec: the Resource store's create operation, which the
source reaches through `new Resource(req.body)` and `resource.save()`. -/
def saveResource (env : ResourceEnv) (db : List Resource) (body : JsVal) :
    Except JsError (List Resource × Resource) :=
  match env.saveError with
  | some err => .error err
  | none =>
    match env.construct body with
    | .error err => .error err
    | .ok resource => .ok (db ++ [resource], resource)

/-- Replaces the first document with the given id. -/
def replaceById (id : String) (updated : Resource) : List Resource → List Resource
  | [] => []
  | r :: rest => if r._id == id then updated :: rest else r :: replaceById id updated rest

/-- Modelled from the spec: the Resource store's update by id, which the source
reaches through `Resource.findByIdAndUpdate(id, { status }, { new: true })`: the
updated document, or nothing when no document has the id. -/
def findByIdAndUpdate (env : ResourceEnv) (db : List Resource) (id : String) (status : JsVal) :
    Except JsError (List Resource × Option Resource) :=
  match env.updateError with
  | some err => .error err
  | none =>
    match env.castStatus status with
    | .error err => .error err
    | .ok cast =>
      match db.find? (fun r => r._id == id) with
      | none => .ok (db, none)
      | some resource =>
        let updated : Resource :=
          match cast with
          | some s => { resource with status := s }
          | none => resource
        .ok (replaceById id updated db, some updated)

/-- Handler `getAllResources` of `resourceController.js`. -/
def getAllResources (env : ResourceEnv) (db : List Resource) : ResourceResponse :=
  match find env db (fun _ => true) with
  | .ok resources => ⟨200, .list resources⟩
  | .error error => ⟨500, .message error.message⟩

/-- Handler `createResourceRequest` of `resourceController.js`: the collection
afterwards and the response. -/
def createResourceRequest (env : ResourceEnv) (db : List Resource) (body : JsVal) :
    List Resource × ResourceResponse :=
  match saveResource env db body with
  | .ok (db', newResource) => (db', ⟨201, .one newResource⟩)
  | .error error => (db, ⟨400, .message error.message⟩)

/-- Handler `updateResourceStatus` of `resourceController.js`: the collection
afterwards and the response. -/
def updateResourceStatus (env : ResourceEnv) (db : List Resource) (id : String) (status : JsVal) :
    List Resource × ResourceResponse :=
  match findByIdAndUpdate env db id status with
  | .ok (db', none) => (db', ⟨404, .message "Resource not found"⟩)
  | .ok (db', some resource) => (db', ⟨200, .one resource⟩)
  | .error error => (db, ⟨400, .message error.message⟩)

/-- Handler `getUserResourceRequests` of `resourceController.js`. -/
def getUserResourceRequests (env : ResourceEnv) (db : List Resource) (userId : String) :
    ResourceResponse :=
  match find env db (fun r => r.providedBy == userId) with
  | .ok resources => ⟨200, .list resources⟩
  | .error error => ⟨500, .message error.message⟩

/-- A `Resource` model all of whose calls reject with the given message. -/
def resourceDown (message : String) : ResourceEnv where
  findError := some ⟨message⟩
  construct := fun _ => .error ⟨message⟩
  saveError := some ⟨message⟩
  updateError := some ⟨message⟩
  castStatus := fun _ => .error ⟨message⟩

/-- Collaborators during a register call in which hashing fails with the given
message. -/
def hashDownEnv (message : String) : Env :=
  { sampleEnv with hash := fun _ _ => .error ⟨message⟩ }

end Pehlahath

namespace Pehlahath

/-! ## What the search relies on from `Math` -/

/-- What ECMAScript lays down for `Math.sin`, `Math.sqrt` and `Math.atan2`, as far
as the distance needs it: `NaN` goes through them, a square root that is a
number is not negative, and the angle of a point with a non-negative ordinate
is not negative. -/
structure JsMath.Lawful (Math : JsMath JsNum) : Prop where
  sin_nan : Math.sin .nan = .nan
  sqrt_nan : Math.sqrt .nan = .nan
  atan2_nan : ∀ x, Math.atan2 .nan x = .nan
  sqrt_nonneg : ∀ x q, Math.sqrt x = .fin q → 0 ≤ q
  atan2_nonneg : ∀ y x q, Math.atan2 (.fin y) x = .fin q → 0 ≤ y → 0 ≤ q

/-- A provider that answers every request with the same list. -/
def constantGet (data : List Place) (_ : Query) : Except JsError (List Place) := .ok data

/-- A place whose latitude does not parse. -/
def unparsablePlace : Place := ⟨"Nowhere", "north", "0"⟩

/-! ## The name of a place -/

/-- The class `[\x00-\x7F]` of the first regular expression. -/
def isAscii (c : Char) : Bool := decide (c.toNat ≤ 127)

/-- The class `\s` of the second regular expression, which is also what `trim`
removes: the white space and line terminator code points of ECMAScript. -/
def isWhiteSpace (c : Char) : Bool :=
  [9, 10, 11, 12, 13, 32, 160, 5760, 8232, 8233, 8239, 8287, 12288, 65279].contains c.toNat ||
    (decide (8192 ≤ c.toNat) && decide (c.toNat ≤ 8202))

/-- The element `parts[0]` of `displayName.split(',')`: the text before the
first comma. -/
def beforeFirstComma (cs : List Char) : List Char := cs.takeWhile (fun c => c != ',')

/-- The replacement of `/\s+/g` by a single space; `inRun` tells that the
character before was white space of a run already replaced. -/
def collapseFrom (inRun : Bool) : List Char → List Char
  | [] => []
  | c :: cs =>
    if isWhiteSpace c then
      if inRun then collapseFrom true cs else ' ' :: collapseFrom true cs
    else c :: collapseFrom false cs

/-- The call `.replace(/\s+/g, ' ')`. -/
def collapseWhiteSpace (cs : List Char) : List Char := collapseFrom false cs

/-- The call `.trim()`. -/
def trim (cs : List Char) : List Char := (cs.dropWhile isWhiteSpace).rdropWhile isWhiteSpace

/-- Function `extractEnglishName` of `EmergencyContacts.jsx`; an absent argument
(`undefined` or `null`) is `none`. -/
def extractEnglishName (displayName : Option String) : String :=
  match displayName with
  | none => "Unknown Location"
  | some s =>
    if s = "" then "Unknown Location"
    else String.mk (trim (collapseWhiteSpace ((beforeFirstComma s.data).filter isAscii)))

/-! ## The client session -/

/-- A JavaScript value on the client: a primitive, an array, or an object given
by its own properties. -/
inductive Js where
  | undefined
  | null
  | bool (b : Bool)
  | num (n : Int)
  | str (s : String)
  | array (items : List JsVal)
  | object (fields : List (String × JsVal))
  deriving DecidableEq, Repr

/-- JavaScript truthiness of a client value. -/
def Js.truthy : Js → Bool
  | .undefined => false
  | .null => false
  | .bool b => b
  | .num n => n != 0
  | .str s => s != ""
  | .array _ => true
  | .object _ => true

/-- The access `value?.key`: the own property of an object, `undefined` for
anything else. -/
def Js.prop (value : Js) (key : String) : JsVal :=
  match value with
  | .object fields => (fields.lookup key).getD .undefined
  | _ => .undefined

/-- The functions `JSON.stringify` and `JSON.parse`. -/
structure JsonCodec where
  stringify : Js → String
  parse : String → Except JsError Js

/-- What the browser holds for the session: `localStorage`, the header
`axios.defaults.headers.common['Authorization']`, and the state `user`. -/
structure SessionState where
  storage : String → Option String
  authorization : Option String
  user : Js

/-- Something the client does to the outside: a navigation, or the request for
the alerts with the token it sends as bearer. -/
inductive ClientEffect where
  | navigate (target : String)
  | alertsRequest (token : JsVal)
  deriving DecidableEq, Repr

/-- Method `localStorage.setItem`. -/
def setItem (storage : String → Option String) (key value : String) : String → Option String :=
  fun k => if k = key then some value else storage k

/-- Method `localStorage.removeItem`. -/
def removeItem (storage : String → Option String) (key : String) : String → Option String :=
  fun k => if k = key then none else storage k

/-- The session when a page has just been loaded: what `localStorage` kept, no
default header, `user` at its initial `null`. -/
def pageLoad (storage : String → Option String) : SessionState := ⟨storage, none, .null⟩

/-- The first effect of `AuthProvider`, run when the provider mounts: it restores
the session from `localStorage`. When `JSON.parse` throws, the header is set
already and `user` is left as it was. -/
def restoreSession (codec : JsonCodec) (s : SessionState) : SessionState :=
  match s.storage "token", s.storage "userData" with
  | some token, some userData =>
    if token ≠ "" ∧ userData ≠ "" then
      match codec.parse userData with
      | .ok parsed => ⟨s.storage, some ("Bearer " ++ token), parsed⟩
      | .error _ => ⟨s.storage, some ("Bearer " ++ token), s.user⟩
    else s
  | _, _ => s

/-- Function `login` of `AuthProvider`: the session afterwards and the effects. -/
def login (codec : JsonCodec) (s : SessionState) (token : String) (userData : Js) :
    SessionState × List ClientEffect :=
  (⟨setItem (setItem s.storage "token" token) "userData" (codec.stringify userData),
    some ("Bearer " ++ token), userData⟩,
   [.navigate "/"])

/-- Function `logout` of `AuthProvider`: the session afterwards and the effects. -/
def logout (s : SessionState) : SessionState × List ClientEffect :=
  (⟨removeItem (removeItem s.storage "token") "userData", none, .null⟩,
   [.navigate "/login"])

/-- A step of a session. -/
inductive SessionAction where
  | restore
  | login (token : String) (userData : Js)
  | logout

/-- The session after a sequence of steps. -/
def runSession (codec : JsonCodec) (s : SessionState) : List SessionAction → SessionState
  | [] => s
  | .restore :: rest => runSession codec (restoreSession codec s) rest
  | .login token userData :: rest => runSession codec (login codec s token userData).1 rest
  | .logout :: rest => runSession codec (logout s).1 rest

/-- The branch `if (response.data && response.data.token)` of `handleSubmit` in
`Login.jsx`: the arguments with which `login` is called, if it is called. -/
def handleSubmit (data : Js) : Option (JsVal × Js) :=
  if data.truthy && (data.prop "token").truthy then
    some (data.prop "token",
      .object [("id", data.prop "id"), ("email", data.prop "email"),
               ("name", data.prop "name"), ("role", data.prop "role")])
  else none

/-- The value given to `setAlerts`: an array, or whatever `response.data.reports`
holds. -/
inductive AlertsData where
  | items (list : List JsVal)
  | reports (value : JsVal)
  deriving DecidableEq, Repr

/-- What the alerts effect of `Dashboard` did: the effects, and the argument of
`setAlerts` if it was called. -/
structure AlertsOutcome where
  effects : List ClientEffect
  setAlerts : Option AlertsData
  deriving DecidableEq, Repr

/-- The effect of `Dashboard.jsx` that fetches the alerts, run for a value of
`user`; `get` is the answer to the request (console output left out). Reading
`reports` of a `null` or `undefined` body throws, which the `catch` absorbs. -/
def fetchAlertsEffect (user : Js) (get : Except JsError Js) : AlertsOutcome :=
  if (user.prop "token").truthy then
    match get with
    | .ok (.array items) => ⟨[.alertsRequest (user.prop "token")], some (.items items)⟩
    | .ok .null => ⟨[.alertsRequest (user.prop "token")], none⟩
    | .ok .undefined => ⟨[.alertsRequest (user.prop "token")], none⟩
    | .ok data =>
      if (data.prop "reports").truthy then
        ⟨[.alertsRequest (user.prop "token")], some (.reports (data.prop "reports"))⟩
      else ⟨[.alertsRequest (user.prop "token")], some (.items [])⟩
    | .error _ => ⟨[.alertsRequest (user.prop "token")], none⟩
  else ⟨[], none⟩

/-! ## Routes -/

/-- What a route renders: a page, inside `Layout` or not, or a `Navigate`. -/
inductive View where
  | page (name : String) (inLayout : Bool)
  | navigate (target : String)
  deriving DecidableEq, Repr

/-- Component `ProtectedRoute` of `frontend/src/App.jsx`. -/
def ProtectedRoute (user : Js) (children : View) : View :=
  if !user.truthy then .navigate "/login" else children

/-- The `Routes` of `frontend/src/App.jsx`: what is rendered for a path. -/
def frontendApp (user : Js) (path : String) : View :=
  if path = "/login" then (if !user.truthy then .page "Login" false else .navigate "/")
  else if path = "/register" then .page "Register" false
  else if path = "/" then ProtectedRoute user (.page "Dashboard" false)
  else if path = "/alerts" then ProtectedRoute user (.page "Alerts" true)
  else if path = "/chat" then ProtectedRoute user (.page "Chat" true)
  else if path = "/emergency-contacts" then ProtectedRoute user (.page "EmergencyContacts" true)
  else if path = "/report-disaster" then ProtectedRoute user (.page "ReportDisaster" true)
  else if path = "/resources" then ProtectedRoute user (.page "Resources" true)
  else if path = "/settings" then ProtectedRoute user (.page "Settings" true)
  else if path = "/volunteers" then ProtectedRoute user (.page "Volunteers" true)
  else if path = "/profile" then ProtectedRoute user (.page "Profile" true)
  else if path = "/dam-water-levels" then ProtectedRoute user (.page "DamWaterLevels" true)
  else .navigate (if user.truthy then "/" else "/login")

/-- The `Routes` of `frontend1/src/App.jsx`: what is rendered for a path. -/
def frontend1App (user : Js) (path : String) : View :=
  if path = "/login" then (if !user.truthy then .page "Login" false else .navigate "/")
  else if path = "/register" then .page "Register" false
  else if path = "/" then (if user.truthy then .page "Dashboard" true else .navigate "/login")
  else if path = "/alerts" then .page "Alerts" true
  else if path = "/chat" then .page "Chat" true
  else if path = "/emergency-contacts" then .page "EmergencyContacts" true
  else if path = "/report-disaster" then .page "ReportDisaster" true
  else if path = "/resources" then .page "Resources" true
  else if path = "/settings" then .page "Settings" true
  else if path = "/volunteers" then .page "Volunteers" true
  else .navigate (if user.truthy then "/" else "/login")

/-! ## Sample session and resources -/

/-- A sample codec: only Amit's user data is serialised and parsed. -/
def sampleCodec : JsonCodec where
  stringify := fun v => if v = .object [("id", .str "id1"), ("email", .str "a@x.com"),
    ("name", .str "Amit"), ("role", .str "user")] then "amit" else "other"
  parse := fun s => if s = "amit" then .ok (.object [("id", .str "id1"),
    ("email", .str "a@x.com"), ("name", .str "Amit"), ("role", .str "user")])
    else .error ⟨"Unexpected token"⟩

/-- The body of a successful login response for Amit. -/
def amitResponse : Js :=
  .object [("token", .str "jwt1"), ("id", .str "id1"), ("email", .str "a@x.com"),
           ("name", .str "Amit"), ("role", .str "user"), ("message", .str "Login successful")]

/-- The user data `handleSubmit` builds from Amit's login response. -/
def amitUserData : Js :=
  .object [("id", .str "id1"), ("email", .str "a@x.com"), ("name", .str "Amit"),
           ("role", .str "user")]

/-- An empty `localStorage`. -/
def emptyStorage : String → Option String := fun _ => none

/-- A `Resource` model whose calls complete. -/
def resourceUp : ResourceEnv where
  findError := none
  construct := fun _ => .error ⟨"Resource validation failed"⟩
  saveError := none
  updateError := none
  castStatus := fun _ => .ok none

/-- Two resources of user `u1` and one of user `u2`. -/
def sampleResources : List Resource :=
  [⟨"r1", "u1", 10, "pending", ""⟩, ⟨"r2", "u2", 30, "pending", ""⟩,
   ⟨"r3", "u1", 20, "fulfilled", ""⟩]

end Pehlahath

namespace Pehlahath

/-- A search whose provider answers every request with the three hospitals. -/
def constantSearch : SearchEnv := ⟨sampleMath, sampleParseFloat, constantGet threeHospitals⟩

/-- A session: the page is loaded, Amit logs in, logs out and logs in again. -/
def sampleActions : List SessionAction :=
  [.restore, .login "jwt1" amitUserData, .logout, .login "jwt2" amitUserData]

end Pehlahath

namespace Pehlahath

/-- A search whose provider knows one hospital only, 9 km away. -/
def farOnlySearch : SearchEnv :=
  ⟨sampleMath, sampleParseFloat, constantGet [⟨"Far Hospital", "3", "0"⟩]⟩

/-- The far hospital as a center of the result. -/
def farHospital : Center := ⟨"Far Hospital", "3", "0", "Hospital", .fin 9⟩

end Pehlahath

namespace Pehlahath

/-! ## The name of a place, in words -/

/-- The pieces of a text between its white space characters, empty pieces
included: what `text.split(/\s/)` gives. -/
def splitAtWhiteSpace : List Char → List (List Char)
  | [] => [[]]
  | c :: cs =>
    if isWhiteSpace c then [] :: splitAtWhiteSpace cs
    else
      match splitAtWhiteSpace cs with
      | [] => [[c]]
      | w :: rest => (c :: w) :: rest

/-- The words of a text: its maximal runs of characters that are not white
space. -/
def wordsOf (cs : List Char) : List (List Char) :=
  (splitAtWhiteSpace cs).filter (fun w => !w.isEmpty)

/-- The words put one after the other with a single space between two of them. -/
def joinWords : List (List Char) → List Char
  | [] => []
  | [w] => w
  | w :: rest => w ++ ' ' :: joinWords rest

end Pehlahath

namespace Pehlahath

/-! ## Double arithmetic -/

/-- A number of the program as `calculateDistance` meets it: `NaN`, or the finite
binary64 value `mant * 2 ^ exp`, kept with `mant` odd or with both zero. Zero
has no sign here, and infinities, overflow and subnormal numbers are left out. -/
inductive Double where
  | nan
  | fin (mant : Int) (exp : Int)
  deriving DecidableEq, Repr

/-- Number of binary digits of `n`; the first argument bounds the recursion. -/
def bitLengthFrom : Nat → Nat → Nat
  | 0, _ => 0
  | fuel + 1, n => if n = 0 then 0 else bitLengthFrom fuel (n / 2) + 1

/-- Number of binary digits of `n`. -/
def bitLength (n : Nat) : Nat := bitLengthFrom n n

/-- Number of trailing zero bits of `n`; the first argument bounds the recursion. -/
def trailingZerosFrom : Nat → Nat → Nat
  | 0, _ => 0
  | fuel + 1, n => if n % 2 = 1 then 0 else trailingZerosFrom fuel (n / 2) + 1

/-- The value `m * 2 ^ e` in the kept form: `m` odd, or both zero. -/
def Double.normalize (m e : Int) : Double :=
  if m = 0 then .fin 0 0
  else
    let t := trailingZerosFrom m.natAbs m.natAbs
    .fin (m / ((2 ^ t : Nat) : Int)) (e + (t : Int))

/-- Rounding of a natural number to 53 significant bits, to nearest and ties to
even: the pair `(q, k)` stands for `q * 2 ^ k`. -/
def roundMantissa (n : Nat) : Nat × Nat :=
  let k := bitLength n - 53
  if k = 0 then (n, 0)
  else
    let q := n / 2 ^ k
    let r := n % 2 ^ k
    let half := 2 ^ (k - 1)
    if half < r ∨ (r = half ∧ q % 2 = 1) then (q + 1, k) else (q, k)

/-- The binary64 value nearest to `m * 2 ^ e`, ties to even. -/
def Double.round (m e : Int) : Double :=
  match roundMantissa m.natAbs with
  | (q, k) => Double.normalize (if m < 0 then -(q : Int) else (q : Int)) (e + (k : Int))

/-- The exact sum of two finite values, as an integer times a power of two. -/
def alignedSum (m₁ e₁ m₂ e₂ : Int) : Int × Int :=
  let e := min e₁ e₂
  (m₁ * ((2 ^ (e₁ - e).toNat : Nat) : Int) + m₂ * ((2 ^ (e₂ - e).toNat : Nat) : Int), e)

instance : Add Double where
  add a b := match a, b with
    | .fin m₁ e₁, .fin m₂ e₂ =>
      match alignedSum m₁ e₁ m₂ e₂ with
      | (m, e) => Double.round m e
    | _, _ => .nan

instance : Sub Double where
  sub a b := match a, b with
    | .fin m₁ e₁, .fin m₂ e₂ =>
      match alignedSum m₁ e₁ (-m₂) e₂ with
      | (m, e) => Double.round m e
    | _, _ => .nan

instance : Mul Double where
  mul a b := match a, b with
    | .fin m₁ e₁, .fin m₂ e₂ => Double.round (m₁ * m₂) (e₁ + e₂)
    | _, _ => .nan

/-- Division: the quotient is taken with 64 bits and more, its last bit telling
whether anything is left over, and then rounded. A division by zero, which gives
an infinity or `NaN` in the program, is `NaN` here; `calculateDistance` divides
by 180 and by 2 only. -/
instance : Div Double where
  div a b := match a, b with
    | .fin m₁ e₁, .fin m₂ e₂ =>
      if m₂ = 0 then .nan
      else
        let shift := bitLength m₂.natAbs + 64
        let n := m₁.natAbs * 2 ^ shift
        let q := n / m₂.natAbs
        let sticky := if n % m₂.natAbs = 0 then 0 else 1
        let magnitude : Int := ((2 * q + sticky : Nat) : Int)
        Double.round (if (m₁ < 0) = (m₂ < 0) then magnitude else -magnitude)
          (e₁ - e₂ - (shift : Int) - 1)
    | _, _ => .nan

instance : NatCast Double where
  natCast n := Double.round (n : Int) 0

/-- The values of `Math` in binary64 at the arguments that
`calculateDistance(2.5, 0, -2.5, 180)` meets: `Math.PI`, the sine of half the
latitude difference and of half the longitude difference, the cosine of the two
latitudes, with the square root of a negative number and the angle of a `NaN`
as ECMAScript lays them down. At every other argument this table says `NaN`. -/
def mathAtAntipode : JsMath Double where
  PI := .fin 884279719003555 (-48)
  sin := fun x =>
    if x = .fin (-6288211335136391) (-57) then .fin (-6286216213909009) (-57)
    else if x = .fin 884279719003555 (-49) then .fin 1 0
    else .nan
  cos := fun x =>
    if x = .fin 6288211335136391 (-57) then .fin 8998626396882423 (-53)
    else if x = .fin (-6288211335136391) (-57) then .fin 8998626396882423 (-53)
    else .nan
  sqrt := fun x =>
    if x = .fin 4503599627370497 (-52) then .fin 1 0
    else .nan
  atan2 := fun _ _ => .nan

end Pehlahath

namespace Pehlahath

/-! ## Auxiliary facts -/

theorem truthy_str (s : String) : (JsVal.str s).truthy = (s != "") := rfl

theorem truthy_of_mem_validRoles {v : JsVal} (h : v ∈ validRoles) : v.truthy = true := by
  simp only [validRoles, List.mem_cons, List.mem_singleton, List.not_mem_nil, or_false] at h
  rcases h with h | h | h <;> subst h <;> decide

theorem ne_empty_of_mem_validRoles {role : String} (h : JsVal.str role ∈ validRoles) :
    role ≠ "" := by
  have := truthy_of_mem_validRoles h
  simpa [truthy_str] using this

theorem not_truthy_of_missingOrEmpty {v : JsVal} (h : v.missingOrEmpty) : v.truthy = false := by
  rcases h with h | h | h <;> subst h <;> decide

theorem findOne_str (env : Env) (db : Store) (e : String) (h : env.findOneError = none) :
    findOne env db (.str e) = .ok (db.find? (fun u => u.email == e)) := by
  simp [findOne, h]

theorem find?_email_isSome {db : Store} {e : String} (h : ∃ u ∈ db, u.email = e) :
    ∃ u, db.find? (fun u => u.email == e) = some u := by
  cases hf : db.find? (fun u => u.email == e) with
  | some u => exact ⟨u, rfl⟩
  | none =>
    obtain ⟨u, hu, hue⟩ := h
    have := List.find?_eq_none.mp hf u hu
    simp [hue] at this

theorem find?_email_none {db : Store} {e : String} (h : ∀ u ∈ db, u.email ≠ e) :
    db.find? (fun u => u.email == e) = none := by
  apply List.find?_eq_none.mpr
  intro u hu
  simpa using h u hu

theorem timespan_one_hour : timespan "1h" = some 3600 := by decide

theorem sign_ok {env : Env} {payload : Claims} {secret : Option String} {token : SessionToken}
    (h : sign env payload secret "1h" = .ok token) :
    ∃ key, secret = some key ∧ key ≠ "" ∧
      token.payload
        = ⟨payload.id, payload.email, payload.name, payload.role, env.now, env.now + 3600⟩ ∧
      token.signature = env.hmac key token.payload := by
  unfold sign at h
  cases secret with
  | none => cases h
  | some key =>
    by_cases hk : key = ""
    · simp [hk] at h
    · simp only [hk, if_false, timespan_one_hour, Except.ok.injEq] at h
      subst h
      exact ⟨key, rfl, hk, rfl, rfl⟩

theorem save_ok {env : Env} {db db' : Store} {doc : NewUser} (h : save env db doc = .ok db') :
    ∃ name email password role,
      castString env doc.name = .ok name ∧ castString env doc.email = .ok email ∧
      castString env doc.password = .ok password ∧ castString env doc.role = .ok role ∧
      db' = db ++ [⟨env.newId, name, email, password, role⟩] := by
  unfold save at h
  split at h
  · cases h
  · split at h
    · rename_i name email password role h1 h2 h3 h4
      split at h
      · cases h
      · simp only [Except.ok.injEq] at h
        exact ⟨name, email, password, role, h1, h2, h3, h4, h.symm⟩
    all_goals cases h

theorem save_str (env : Env) (db : Store) (name email password role : String)
    (hsave : env.saveError = none)
    (hname : name ≠ "") (hemail : email ≠ "") (hpassword : password ≠ "") (hrole : role ≠ "") :
    save env db ⟨.str name, .str email, .str password, .str role⟩
      = .ok (db ++ [⟨env.newId, name, email, password, role⟩]) := by
  simp [save, hsave, castString, hname, hemail, hpassword, hrole]

/-- The whole outcome of a registration that goes through. -/
theorem registerUser_created (env : Env) (db : Store) (name e role salt hashed : String)
    (password : JsVal)
    (hname : name ≠ "") (he : e ≠ "") (hpassword : password.truthy = true)
    (hrole : JsVal.str role ∈ validRoles)
    (hfresh : ∀ u ∈ db, u.email ≠ e)
    (hlookup : env.findOneError = none)
    (hsalt : env.genSalt 10 = .ok salt)
    (hhash : env.hash password salt = .ok hashed) (hhashed : hashed ≠ "")
    (hsave : env.saveError = none) :
    registerUser env db ⟨.str name, .str e, password, .str role⟩
      = ⟨db ++ [⟨env.newId, name, e, hashed, role⟩],
         ⟨201, [("message", .str "User registered successfully")]⟩,
         [.findOne (.str e), .genSalt 10, .hash password salt,
          .save ⟨.str name, .str e, .str hashed, .str role⟩]⟩ := by
  have hfind : findOne env db (.str e) = .ok none := by
    rw [findOne_str env db e hlookup, find?_email_none hfresh]
  have hr := ne_empty_of_mem_validRoles hrole
  simp [registerUser, truthy_str, hname, he, hpassword, hr, hrole, hfind, hsalt, hhash,
    save_str env db name e hashed role hsave hname he hhashed hr]

/-- Either a registration does not answer 201 and leaves the collection as it
was, or it answers 201 after a lookup that found nothing and appends one
document whose email is the cast of the submitted one. -/
theorem registerUser_store_cases (env : Env) (db : Store) (body : RegisterBody) :
    ((registerUser env db body).response.status ≠ 201 ∧ (registerUser env db body).store = db) ∨
    ((registerUser env db body).response
        = ⟨201, [("message", .str "User registered successfully")]⟩ ∧
      body.email.truthy = true ∧
      findOne env db body.email = .ok none ∧
      ∃ name email password role,
        castString env body.email = .ok email ∧
        (registerUser env db body).store
          = db ++ [⟨env.newId, name, email, password, role⟩]) := by
  unfold registerUser
  split
  · left; simp
  · rename_i hreq
    simp only [Bool.or_eq_true, Bool.not_eq_true', not_or, Bool.not_eq_false] at hreq
    split
    · left; simp
    · split
      · left; simp [serverError]
      · left; simp [emailExists]
      · rename_i hfind
        split
        · left; simp [serverError]
        · split
          · left; simp [serverError]
          · dsimp only
            split
            · left; simp [serverError]
            · rename_i db' hsave
              right
              obtain ⟨name, email, password, role, -, h2, -, -, hdb⟩ := save_ok hsave
              exact ⟨rfl, hreq.1.1.2, hfind, name, email, password, role, h2, hdb⟩

/-- One registration with a text email keeps "at most one record with email `x`". -/
theorem registerUser_count_le (env : Env) (db : Store) (body : RegisterBody) (x : String)
    (htext : body.email.truthy = true → ∃ s, body.email = .str s)
    (hx : db.countP (fun u => u.email == x) ≤ 1) :
    (registerUser env db body).store.countP (fun u => u.email == x) ≤ 1 := by
  rcases registerUser_store_cases env db body with
    ⟨-, h⟩ | ⟨-, ht, hfind, name, email, password, role, hcast, h⟩
  · rw [h]; exact hx
  · rw [h]
    obtain ⟨s, hs⟩ := htext ht
    rw [hs] at hcast hfind
    simp only [castString, Except.ok.injEq] at hcast
    subst hcast
    simp only [findOne] at hfind
    split at hfind
    · cases hfind
    · simp only [Except.ok.injEq] at hfind
      have hnone := List.find?_eq_none.mp hfind
      rw [List.countP_append]
      by_cases hsx : s = x
      · subst hsx
        have h0 : db.countP (fun u => u.email == s) = 0 := by
          rw [List.countP_eq_zero]
          intro u hu
          exact hnone u hu
        rw [h0]
        simp [List.countP_cons]
      · have : List.countP (fun u => u.email == x)
            [(⟨env.newId, name, s, password, role⟩ : User)] = 0 := by
          simp [List.countP_cons, hsx]
        rw [this]
        exact hx

theorem registerAll_count_le (calls : List RegisterCall) (db : Store) (x : String)
    (htext : ∀ c ∈ calls, c.body.email.truthy = true → ∃ s, c.body.email = .str s)
    (hx : db.countP (fun u => u.email == x) ≤ 1) :
    (registerAll db calls).countP (fun u => u.email == x) ≤ 1 := by
  induction calls generalizing db with
  | nil => exact hx
  | cons c cs ih =>
    simp only [registerAll]
    apply ih
    · intro c' hc'
      exact htext c' (List.mem_cons_of_mem _ hc')
    · exact registerUser_count_le c.env db c.body x (htext c (List.mem_cons_self _ _)) hx

/-- A response body carries a token only on the success path of `loginUser`. -/
theorem loginUser_token_signed {env : Env} {db : Store} {body : LoginBody}
    {token : SessionToken}
    (h : ("token", Json.jwt token) ∈ (loginUser env db body).response.body) :
    ∃ user, findOne env db body.email = .ok (some user) ∧
      env.compare body.password user.password = .ok true ∧
      sign env ⟨user._id, user.email, user.name, user.role⟩ env.JWT_SECRET "1h" = .ok token := by
  unfold loginUser at h
  split at h
  · simp at h
  · split at h
    · simp [serverError] at h
    · simp [invalidCredentials] at h
    · rename_i user hfind
      split at h
      · simp [serverError] at h
      · simp [invalidCredentials] at h
      · rename_i hcmp
        dsimp only at h
        split at h
        · simp [serverError] at h
        · rename_i token' hsign
          simp at h
          subst h
          exact ⟨user, hfind, hcmp, hsign⟩

end Pehlahath

namespace Pehlahath

/-! ## Login: failures, success, validation -/

/-- Claim C1: for a login request with both fields present, the response when the
lookup finds no record for the email and the response when a record is found
but the password comparison fails are the same response, status 401 with body
`{error: 'Invalid email or password'}`. -/
theorem login_failures_indistinguishable
    (env₁ env₂ : Env) (db₁ db₂ : Store) (body : LoginBody) (user : User)
    (hemail : body.email.truthy = true) (hpassword : body.password.truthy = true)
    (habsent : findOne env₁ db₁ body.email = .ok none)
    (hpresent : findOne env₂ db₂ body.email = .ok (some user))
    (hmismatch : env₂.compare body.password user.password = .ok false) :
    (loginUser env₁ db₁ body).response = (loginUser env₂ db₂ body).response ∧
    (loginUser env₁ db₁ body).response
      = ⟨401, [("error", .str "Invalid email or password")]⟩ := by
  simp [loginUser, hemail, hpassword, habsent, hpresent, hmismatch, invalidCredentials]

/-- Witness for C1: Amit's email with a wrong password, against an empty
collection and against one that holds Amit. -/
theorem login_failures_indistinguishable_witness :
    findOne sampleEnv [] wrongPasswordLogin.email = .ok none ∧
    findOne sampleEnv [amit] wrongPasswordLogin.email = .ok (some amit) ∧
    sampleEnv.compare wrongPasswordLogin.password amit.password = .ok false ∧
    (loginUser sampleEnv [] wrongPasswordLogin).response
      = (loginUser sampleEnv [amit] wrongPasswordLogin).response ∧
    (loginUser sampleEnv [] wrongPasswordLogin).response
      = ⟨401, [("error", .str "Invalid email or password")]⟩ :=
  ⟨rfl, rfl, rfl,
   login_failures_indistinguishable sampleEnv sampleEnv [] [amit] wrongPasswordLogin amit
     rfl rfl rfl rfl rfl⟩

/-- Claim C2: for a login request with both fields present whose email lookup
returns a stored record and whose password verifies against that record's hash,
`loginUser` (with a signing secret configured) responds 200 with a token whose
claims are exactly the id, email, name and role of the record, issued now and
expiring 3600 seconds later; the `id`, `email`, `name` and `role` fields of the
response are those same values and the message is 'Login successful'. For a
text email the record is a member of the collection with that email. -/
theorem login_success
    (env : Env) (db : Store) (body : LoginBody) (user : User) (key : String)
    (hemail : body.email.truthy = true) (hpassword : body.password.truthy = true)
    (hfound : findOne env db body.email = .ok (some user))
    (hmatch : env.compare body.password user.password = .ok true)
    (hsecret : env.JWT_SECRET = some key) (hkey : key ≠ "") :
    ∃ token : SessionToken,
      (loginUser env db body).response
        = ⟨200, [("token", .jwt token), ("id", .str user._id), ("email", .str user.email),
                 ("name", .str user.name), ("role", .str user.role),
                 ("message", .str "Login successful")]⟩ ∧
      token.payload = ⟨user._id, user.email, user.name, user.role, env.now, env.now + 3600⟩ ∧
      token.signature = env.hmac key token.payload ∧
      token.payload.exp = token.payload.iat + 3600 ∧
      (∀ e, body.email = .str e → user ∈ db ∧ user.email = e) := by
  refine ⟨⟨⟨user._id, user.email, user.name, user.role, env.now, env.now + 3600⟩,
    env.hmac key ⟨user._id, user.email, user.name, user.role, env.now, env.now + 3600⟩⟩,
    ?_, rfl, rfl, rfl, ?_⟩
  · simp [loginUser, hemail, hpassword, hfound, hmatch, hsecret, hkey, sign, timespan_one_hour]
  · intro e he
    rw [he] at hfound
    simp only [findOne] at hfound
    split at hfound
    · cases hfound
    · simp only [Except.ok.injEq] at hfound
      exact ⟨List.mem_of_find?_eq_some hfound, by simpa using List.find?_some hfound⟩

/-- Witness for C2: Amit logs in with the registered password. -/
theorem login_success_witness :
    findOne sampleEnv [amit] amitLogin.email = .ok (some amit) ∧
    sampleEnv.compare amitLogin.password amit.password = .ok true ∧
    ∃ token : SessionToken,
      (loginUser sampleEnv [amit] amitLogin).response
        = ⟨200, [("token", .jwt token), ("id", .str amit._id), ("email", .str amit.email),
                 ("name", .str amit.name), ("role", .str amit.role),
                 ("message", .str "Login successful")]⟩ ∧
      token.payload
        = ⟨amit._id, amit.email, amit.name, amit.role, sampleEnv.now, sampleEnv.now + 3600⟩ ∧
      token.signature = sampleEnv.hmac "s3cret" token.payload ∧
      token.payload.exp = token.payload.iat + 3600 ∧
      (∀ e, amitLogin.email = .str e → amit ∈ [amit] ∧ amit.email = e) :=
  ⟨rfl, rfl,
   login_success sampleEnv [amit] amitLogin amit "s3cret" rfl rfl rfl rfl rfl (by decide)⟩

/-- Claim C8: when the email or the password of a login request is missing or
empty, `loginUser` responds 400 with 'Email and password are required', performs
no effect at all (no lookup, no comparison, no signing) and leaves the
collection as it was. -/
theorem login_validation
    (env : Env) (db : Store) (body : LoginBody)
    (h : body.email.missingOrEmpty ∨ body.password.missingOrEmpty) :
    (loginUser env db body).response
      = ⟨400, [("error", .str "Email and password are required")]⟩ ∧
    (loginUser env db body).effects = [] ∧
    (loginUser env db body).store = db := by
  have : (!body.email.truthy || !body.password.truthy) = true := by
    rcases h with h | h <;> simp [not_truthy_of_missingOrEmpty h]
  simp [loginUser, this]

/-- Witness for C8: a login with an empty password. -/
theorem login_validation_witness :
    emptyPasswordLogin.password.missingOrEmpty ∧
    (loginUser sampleEnv [amit] emptyPasswordLogin).response
      = ⟨400, [("error", .str "Email and password are required")]⟩ ∧
    (loginUser sampleEnv [amit] emptyPasswordLogin).effects = [] ∧
    (loginUser sampleEnv [amit] emptyPasswordLogin).store = [amit] :=
  ⟨Or.inr (Or.inr rfl),
   login_validation sampleEnv [amit] emptyPasswordLogin (Or.inr (Or.inr (Or.inr rfl)))⟩

/-! ## Registration: validation, conflict, success -/

/-- Claim C5: when any of name, email, password or role of a register request is
missing or empty, or the role is not one of `validRoles`, `registerUser`
responds with status 400 and one of its two validation errors, performs no
effect at all and leaves the collection as it was. -/
theorem register_validation
    (env : Env) (db : Store) (body : RegisterBody)
    (h : body.name.missingOrEmpty ∨ body.email.missingOrEmpty ∨ body.password.missingOrEmpty ∨
         body.role.missingOrEmpty ∨ body.role ∉ validRoles) :
    (registerUser env db body).response.status = 400 ∧
    ((registerUser env db body).response.body
        = [("error", .str "Name, email, password, and role are required")] ∨
     (registerUser env db body).response.body
        = [("error", .str "Invalid role. Must be one of: user, admin, emergency_responder")]) ∧
    (registerUser env db body).store = db ∧
    (registerUser env db body).effects = [] := by
  unfold registerUser
  split
  · simp
  · rename_i hreq
    simp only [Bool.or_eq_true, Bool.not_eq_true', not_or, Bool.not_eq_false] at hreq
    obtain ⟨⟨⟨hn, he⟩, hp⟩, hr⟩ := hreq
    have hrole : body.role ∉ validRoles := by
      rcases h with h | h | h | h | h
      · rw [not_truthy_of_missingOrEmpty h] at hn; cases hn
      · rw [not_truthy_of_missingOrEmpty h] at he; cases he
      · rw [not_truthy_of_missingOrEmpty h] at hp; cases hp
      · rw [not_truthy_of_missingOrEmpty h] at hr; cases hr
      · exact h
    simp [hrole]

/-- Witness for C5: a registration without a name. -/
theorem register_validation_witness :
    namelessBody.name.missingOrEmpty ∧
    (registerUser sampleEnv [] namelessBody).response.status = 400 ∧
    ((registerUser sampleEnv [] namelessBody).response.body
        = [("error", .str "Name, email, password, and role are required")] ∨
     (registerUser sampleEnv [] namelessBody).response.body
        = [("error", .str "Invalid role. Must be one of: user, admin, emergency_responder")]) ∧
    (registerUser sampleEnv [] namelessBody).store = [] ∧
    (registerUser sampleEnv [] namelessBody).effects = [] :=
  ⟨Or.inl rfl, register_validation sampleEnv [] namelessBody (Or.inl (Or.inl rfl))⟩

/-- Counterexample to C3 as stated: a record with the request's email exists,
yet the request's role is not allowed, and `registerUser` answers with the
invalid-role validation error rather than 'Email already exists'. -/
theorem register_conflict_needs_valid_request :
    amit ∈ [amit] ∧ JsVal.str amit.email = badRoleBody.email ∧
    (registerUser sampleEnv [amit] badRoleBody).response
      = ⟨400, [("error", .str "Invalid role. Must be one of: user, admin, emergency_responder")]⟩ ∧
    (registerUser sampleEnv [amit] badRoleBody).response
      ≠ ⟨400, [("error", .str "Email already exists")]⟩ := by
  refine ⟨by simp, rfl, rfl, by decide⟩

/-- Claim C3, amended: if a record with the request's (text) email exists and the
lookup completes, `registerUser` leaves the collection unchanged; and when the
request also passes validation (name, email and password present, role in
`validRoles`) the response is the conflict response, status 400 with
'Email already exists', after the lookup as only effect. -/
theorem register_conflict
    (env : Env) (db : Store) (body : RegisterBody) (e : String)
    (hemail : body.email = .str e)
    (hexists : ∃ u ∈ db, u.email = e)
    (hlookup : env.findOneError = none) :
    (registerUser env db body).store = db ∧
    (body.name.truthy = true → e ≠ "" → body.password.truthy = true →
      body.role ∈ validRoles →
      (registerUser env db body).response = ⟨400, [("error", .str "Email already exists")]⟩ ∧
      (registerUser env db body).effects = [.findOne body.email]) := by
  obtain ⟨u, hu⟩ := find?_email_isSome hexists
  have hfind : findOne env db body.email = .ok (some u) := by
    rw [hemail, findOne_str env db e hlookup, hu]
  constructor
  · unfold registerUser
    split
    · rfl
    · split
      · rfl
      · simp [hfind]
  · intro hname he hpassword hrole
    have hr := truthy_of_mem_validRoles hrole
    have het : body.email.truthy = true := by simp [hemail, truthy_str, he]
    simp [registerUser, hname, het, hpassword, hr, hrole, hfind, emailExists]

/-- Witness for the amended C3: the second registration of the example. -/
theorem register_conflict_witness :
    (∃ u ∈ [amit], u.email = "a@x.com") ∧
    (registerUser sampleEnv [amit] amit2Body).store = [amit] ∧
    (registerUser sampleEnv [amit] amit2Body).response
      = ⟨400, [("error", .str "Email already exists")]⟩ ∧
    (registerUser sampleEnv [amit] amit2Body).effects = [.findOne amit2Body.email] :=
  have h := register_conflict sampleEnv [amit] amit2Body "a@x.com" rfl
    ⟨amit, List.mem_singleton.mpr rfl, rfl⟩ rfl
  ⟨⟨amit, List.mem_singleton.mpr rfl, rfl⟩, h.1,
   h.2 rfl (by decide) rfl (by decide)⟩

end Pehlahath

namespace Pehlahath

/-- Claim C6: for a valid register request (text name, email and role, a present
password) whose email no record uses, when the lookup, `genSalt(10)`, `hash`
and `save` complete, the one record `registerUser` persists has the submitted
name, email and role and, as password, the hash of the submitted password under
the salt of cost 10; the response is 201 with a body that holds the success
message and nothing else. -/
theorem register_persists_hashed
    (env : Env) (db : Store) (name e role salt hashed : String) (password : JsVal)
    (hname : name ≠ "") (he : e ≠ "") (hpassword : password.truthy = true)
    (hrole : JsVal.str role ∈ validRoles)
    (hfresh : ∀ u ∈ db, u.email ≠ e)
    (hlookup : env.findOneError = none)
    (hsalt : env.genSalt 10 = .ok salt)
    (hhash : env.hash password salt = .ok hashed) (hhashed : hashed ≠ "")
    (hsave : env.saveError = none) :
    (registerUser env db ⟨.str name, .str e, password, .str role⟩).store
      = db ++ [⟨env.newId, name, e, hashed, role⟩] ∧
    (registerUser env db ⟨.str name, .str e, password, .str role⟩).response
      = ⟨201, [("message", .str "User registered successfully")]⟩ ∧
    (registerUser env db ⟨.str name, .str e, password, .str role⟩).effects
      = [.findOne (.str e), .genSalt 10, .hash password salt,
         .save ⟨.str name, .str e, .str hashed, .str role⟩] := by
  rw [registerUser_created env db name e role salt hashed password hname he hpassword hrole
    hfresh hlookup hsalt hhash hhashed hsave]
  exact ⟨rfl, rfl, rfl⟩

/-- Witness for C6: Amit registers into an empty collection; the stored password
is the sample hash of `pw123`. -/
theorem register_persists_hashed_witness :
    sampleEnv.genSalt 10 = .ok "$2a$10$" ∧
    sampleEnv.hash (.str "pw123") "$2a$10$" = .ok "$2a$10$pw123" ∧
    (registerUser sampleEnv [] ⟨.str "Amit", .str "a@x.com", .str "pw123", .str "user"⟩).store
      = [] ++ [⟨sampleEnv.newId, "Amit", "a@x.com", "$2a$10$pw123", "user"⟩] ∧
    (registerUser sampleEnv [] ⟨.str "Amit", .str "a@x.com", .str "pw123", .str "user"⟩).response
      = ⟨201, [("message", .str "User registered successfully")]⟩ ∧
    (registerUser sampleEnv [] ⟨.str "Amit", .str "a@x.com", .str "pw123", .str "user"⟩).effects
      = [.findOne (.str "a@x.com"), .genSalt 10, .hash (.str "pw123") "$2a$10$",
         .save ⟨.str "Amit", .str "a@x.com", .str "$2a$10$pw123", .str "user"⟩] :=
  ⟨rfl, rfl,
   register_persists_hashed sampleEnv [] "Amit" "a@x.com" "user" "$2a$10$" "$2a$10$pw123"
     (.str "pw123") (by decide) (by decide) rfl (by decide)
     (fun _ hu => absurd hu (List.not_mem_nil _)) rfl rfl rfl (by decide) rfl⟩

/-- Claim C4: from a collection with no record for the email `e`, a first valid
registration with `e` (whose collaborators complete) succeeds with 201, and a
second registration with the same `e`, whatever its other valid fields, gets
the conflict response and changes nothing; and along any sequence of
registrations with text emails, an email that has at most one record at the
start has at most one record at the end. -/
theorem register_once_per_email
    (env₁ env₂ : Env) (db : Store) (e name role salt hashed : String) (password : JsVal)
    (name' password' role' : JsVal)
    (hname : name ≠ "") (he : e ≠ "") (hpassword : password.truthy = true)
    (hrole : JsVal.str role ∈ validRoles)
    (hname' : name'.truthy = true) (hpassword' : password'.truthy = true)
    (hrole' : role' ∈ validRoles)
    (hfresh : ∀ u ∈ db, u.email ≠ e)
    (hlookup₁ : env₁.findOneError = none)
    (hsalt : env₁.genSalt 10 = .ok salt)
    (hhash : env₁.hash password salt = .ok hashed) (hhashed : hashed ≠ "")
    (hsave : env₁.saveError = none)
    (hlookup₂ : env₂.findOneError = none) :
    (registerUser env₁ db ⟨.str name, .str e, password, .str role⟩).response.status = 201 ∧
    (registerUser env₂ (registerUser env₁ db ⟨.str name, .str e, password, .str role⟩).store
        ⟨name', .str e, password', role'⟩).response
      = ⟨400, [("error", .str "Email already exists")]⟩ ∧
    (registerUser env₂ (registerUser env₁ db ⟨.str name, .str e, password, .str role⟩).store
        ⟨name', .str e, password', role'⟩).store
      = (registerUser env₁ db ⟨.str name, .str e, password, .str role⟩).store ∧
    (∀ (calls : List RegisterCall) (x : String),
      (∀ c ∈ calls, c.body.email.truthy = true → ∃ s, c.body.email = .str s) →
      db.countP (fun u => u.email == x) ≤ 1 →
      (registerAll db calls).countP (fun u => u.email == x) ≤ 1) := by
  rw [registerUser_created env₁ db name e role salt hashed password hname he hpassword hrole
    hfresh hlookup₁ hsalt hhash hhashed hsave]
  have hfind : findOne env₂ (db ++ [⟨env₁.newId, name, e, hashed, role⟩]) (.str e)
      = .ok (some (⟨env₁.newId, name, e, hashed, role⟩ : User)) := by
    rw [findOne_str _ _ e hlookup₂, List.find?_append, find?_email_none hfresh]
    simp
  have hr' := truthy_of_mem_validRoles hrole'
  refine ⟨rfl, ?_, ?_, ?_⟩
  · simp [registerUser, truthy_str, hname', he, hpassword', hr', hrole', hfind, emailExists]
  · simp [registerUser, truthy_str, hname', he, hpassword', hr', hrole', hfind]
  · intro calls x htext hx
    exact registerAll_count_le calls db x htext hx

/-- Witness for C4: Register("Amit","a@x.com","pw123","user") and then
Register("Amit2","a@x.com","pw456","admin") on an empty collection; one record
with that email remains. -/
theorem register_once_per_email_witness :
    (registerUser sampleEnv [] ⟨.str "Amit", .str "a@x.com", .str "pw123", .str "user"⟩).response.status
      = 201 ∧
    (registerUser sampleEnv
        (registerUser sampleEnv [] ⟨.str "Amit", .str "a@x.com", .str "pw123", .str "user"⟩).store
        ⟨.str "Amit2", .str "a@x.com", .str "pw456", .str "admin"⟩).response
      = ⟨400, [("error", .str "Email already exists")]⟩ ∧
    (registerAll [] [⟨sampleEnv, amitBody⟩, ⟨sampleEnv, amit2Body⟩]).countP
      (fun u => u.email == "a@x.com") ≤ 1 :=
  have h := register_once_per_email sampleEnv sampleEnv [] "a@x.com" "Amit" "user" "$2a$10$"
    "$2a$10$pw123" (.str "pw123") (.str "Amit2") (.str "pw456") (.str "admin")
    (by decide) (by decide) rfl (by decide) rfl rfl (by decide)
    (fun _ hu => absurd hu (List.not_mem_nil _)) rfl rfl rfl (by decide) rfl rfl
  ⟨h.1, h.2.1,
   h.2.2.2 [⟨sampleEnv, amitBody⟩, ⟨sampleEnv, amit2Body⟩] "a@x.com"
     (by
       intro c hc _
       simp only [List.mem_cons, List.mem_singleton, List.not_mem_nil, or_false] at hc
       rcases hc with hc | hc <;> subst hc <;> exact ⟨"a@x.com", rfl⟩)
     (by decide)⟩

/-- Claim C7: a `registerUser` call that answers 201 leaves the collection equal
to the old one followed by exactly one new record, puts no token in its
response and makes no signing call; a call that does not answer 201 leaves the
collection as it was; `loginUser` never changes the collection; and the old
collection is always a prefix of the new one, so no existing record is changed
or removed. -/
theorem store_frame :
    (∀ (env : Env) (db : Store) (body : RegisterBody),
      (registerUser env db body).response.status = 201 →
        (∃ doc, (registerUser env db body).store = db ++ [doc]) ∧
        (∀ k v, (k, v) ∈ (registerUser env db body).response.body → ∀ t, v ≠ Json.jwt t) ∧
        (∀ p x, Effect.sign p x ∉ (registerUser env db body).effects)) ∧
    (∀ (env : Env) (db : Store) (body : RegisterBody),
      (registerUser env db body).response.status ≠ 201 →
        (registerUser env db body).store = db) ∧
    (∀ (env : Env) (db : Store) (body : LoginBody), (loginUser env db body).store = db) ∧
    (∀ (env : Env) (db : Store) (body : RegisterBody),
      db <+: (registerUser env db body).store) := by
  refine ⟨?_, ?_, ?_, ?_⟩
  · intro env db body h
    rcases registerUser_store_cases env db body with
      ⟨h', -⟩ | ⟨hresp, -, -, name, email, password, role, -, hstore⟩
    · exact absurd h h'
    · refine ⟨⟨_, hstore⟩, ?_, ?_⟩
      · intro k v hkv t
        rw [hresp] at hkv
        simp only [List.mem_singleton, Prod.mk.injEq] at hkv
        rw [hkv.2]
        exact fun h => by cases h
      · intro p x
        unfold registerUser
        repeat' first | split | (dsimp only; split)
        all_goals simp
  · intro env db body h
    rcases registerUser_store_cases env db body with ⟨-, h'⟩ | ⟨hresp, -⟩
    · exact h'
    · rw [hresp] at h; exact absurd rfl h
  · intro env db body
    unfold loginUser
    repeat' first | split | (dsimp only; split)
    all_goals rfl
  · intro env db body
    rcases registerUser_store_cases env db body with
      ⟨-, h'⟩ | ⟨-, -, -, name, email, password, role, -, hstore⟩
    · rw [h']
    · rw [hstore]; exact List.prefix_append _ _

/-- Witness for C7: Amit's registration answers 201 and appends one record. -/
theorem store_frame_witness :
    (registerUser sampleEnv [] amitBody).response.status = 201 ∧
    (∃ doc, (registerUser sampleEnv [] amitBody).store = [] ++ [doc]) ∧
    (loginUser sampleEnv [amit] amitLogin).store = [amit] :=
  ⟨rfl, (store_frame.1 sampleEnv [] amitBody rfl).1,
   store_frame.2.2.1 sampleEnv [amit] amitLogin⟩

/-! ## Session tokens -/

/-- Claim C9: a token found in a `loginUser` response was issued at the instant
of the call and expires 3600 seconds later; under the signing secret it
validates at the instant of issuance, it is rejected at every instant after its
expiry, and the validator accepts a token only if its signature is the one the
secret gives and the instant is not after its expiry. -/
theorem minted_token_window
    (env : Env) (db : Store) (body : LoginBody) (token : SessionToken)
    (hminted : ("token", Json.jwt token) ∈ (loginUser env db body).response.body) :
    ∃ key, env.JWT_SECRET = some key ∧
      token.payload.iat = env.now ∧
      token.payload.exp = env.now + 3600 ∧
      validateToken env.hmac key env.now token = .ok token.payload ∧
      (∀ t, token.payload.exp < t →
        validateToken env.hmac key t token = .error ⟨"token expired"⟩) ∧
      (∀ (other : SessionToken) (t : Nat) (claims : TokenPayload),
        validateToken env.hmac key t other = .ok claims →
          other.signature = env.hmac key other.payload ∧ t ≤ other.payload.exp ∧
          claims = other.payload) := by
  obtain ⟨user, -, -, hsign⟩ := loginUser_token_signed hminted
  obtain ⟨key, hsecret, -, hpayload, hsig⟩ := sign_ok hsign
  refine ⟨key, hsecret, by rw [hpayload], by rw [hpayload], ?_, ?_, ?_⟩
  · have : ¬ (token.payload.exp < env.now) := by rw [hpayload]; simp
    simp [validateToken, hsig, this]
  · intro t ht
    simp [validateToken, hsig, ht]
  · intro other t claims h
    unfold validateToken at h
    split at h
    · cases h
    · rename_i hs
      split at h
      · cases h
      · rename_i hexp
        simp only [Except.ok.injEq] at h
        exact ⟨not_not.mp hs, Nat.le_of_not_lt hexp, h.symm⟩

/-- Witness for C9: the token minted for Amit at second 1000 expires at 4600. -/
theorem minted_token_window_witness :
    ("token", Json.jwt amitToken) ∈ (loginUser sampleEnv [amit] amitLogin).response.body ∧
    ∃ key, sampleEnv.JWT_SECRET = some key ∧
      amitToken.payload.iat = sampleEnv.now ∧
      amitToken.payload.exp = sampleEnv.now + 3600 ∧
      validateToken sampleEnv.hmac key sampleEnv.now amitToken = .ok amitToken.payload ∧
      (∀ t, amitToken.payload.exp < t →
        validateToken sampleEnv.hmac key t amitToken = .error ⟨"token expired"⟩) ∧
      (∀ (other : SessionToken) (t : Nat) (claims : TokenPayload),
        validateToken sampleEnv.hmac key t other = .ok claims →
          other.signature = sampleEnv.hmac key other.payload ∧ t ≤ other.payload.exp ∧
          claims = other.payload) :=
  ⟨List.Mem.head _,
   minted_token_window sampleEnv [amit] amitLogin amitToken (List.Mem.head _)⟩

/-! ## Unexpected failures -/

/-- Claim C10: for a request that passes validation, when a collaborator call
that the handler reaches throws (the lookup; then the comparison or the signing
in `loginUser`; then `genSalt`, `hash` or `save` in `registerUser`), the
response is status 500 with the fixed body `{error: 'Server error'}`, which
holds no field of the record. -/
theorem handlers_server_error :
    (∀ (env : Env) (db : Store) (body : LoginBody),
      body.email.truthy = true → body.password.truthy = true →
      (threw (findOne env db body.email) = true ∨
       ∃ user, findOne env db body.email = .ok (some user) ∧
         (threw (env.compare body.password user.password) = true ∨
          (env.compare body.password user.password = .ok true ∧
           threw (sign env ⟨user._id, user.email, user.name, user.role⟩ env.JWT_SECRET "1h")
             = true))) →
      (loginUser env db body).response = ⟨500, [("error", .str "Server error")]⟩) ∧
    (∀ (env : Env) (db : Store) (body : RegisterBody),
      body.name.truthy = true → body.email.truthy = true → body.password.truthy = true →
      body.role ∈ validRoles →
      (threw (findOne env db body.email) = true ∨
       (findOne env db body.email = .ok none ∧
         (threw (env.genSalt 10) = true ∨
          ∃ salt, env.genSalt 10 = .ok salt ∧
            (threw (env.hash body.password salt) = true ∨
             ∃ hashed, env.hash body.password salt = .ok hashed ∧
               threw (save env db ⟨body.name, body.email, .str hashed, body.role⟩) = true)))) →
      (registerUser env db body).response = ⟨500, [("error", .str "Server error")]⟩) := by
  constructor
  · intro env db body hemail hpassword h
    rcases h with h | ⟨user, hfind, h | ⟨hcmp, h⟩⟩
    · cases hf : findOne env db body.email with
      | ok v => rw [hf] at h; cases h
      | error err => simp [loginUser, hemail, hpassword, hf, serverError]
    · cases hc : env.compare body.password user.password with
      | ok v => rw [hc] at h; cases h
      | error err => simp [loginUser, hemail, hpassword, hfind, hc, serverError]
    · cases hs : sign env ⟨user._id, user.email, user.name, user.role⟩ env.JWT_SECRET "1h" with
      | ok v => rw [hs] at h; cases h
      | error err => simp [loginUser, hemail, hpassword, hfind, hcmp, hs, serverError]
  · intro env db body hname hemail hpassword hrole h
    have hr := truthy_of_mem_validRoles hrole
    rcases h with h | ⟨hfind, h | ⟨salt, hsalt, h | ⟨hashed, hhash, h⟩⟩⟩
    · cases hf : findOne env db body.email with
      | ok v => rw [hf] at h; cases h
      | error err => simp [registerUser, hname, hemail, hpassword, hr, hrole, hf, serverError]
    · cases hg : env.genSalt 10 with
      | ok v => rw [hg] at h; cases h
      | error err =>
        simp [registerUser, hname, hemail, hpassword, hr, hrole, hfind, hg, serverError]
    · cases hh : env.hash body.password salt with
      | ok v => rw [hh] at h; cases h
      | error err =>
        simp [registerUser, hname, hemail, hpassword, hr, hrole, hfind, hsalt, hh, serverError]
    · cases hs : save env db ⟨body.name, body.email, .str hashed, body.role⟩ with
      | ok v => rw [hs] at h; cases h
      | error err =>
        simp [registerUser, hname, hemail, hpassword, hr, hrole, hfind, hsalt, hhash, hs,
          serverError]

/-- Witness for C10: the lookup rejects during Amit's login and during Amit's
registration; both handlers answer 500 'Server error'. -/
theorem handlers_server_error_witness :
    threw (findOne lookupDownEnv [amit] amitLogin.email) = true ∧
    (loginUser lookupDownEnv [amit] amitLogin).response
      = ⟨500, [("error", .str "Server error")]⟩ ∧
    (registerUser lookupDownEnv [] amitBody).response
      = ⟨500, [("error", .str "Server error")]⟩ :=
  ⟨rfl,
   handlers_server_error.1 lookupDownEnv [amit] amitLogin rfl rfl (Or.inl rfl),
   handlers_server_error.2 lookupDownEnv [] amitBody rfl rfl rfl (by decide) (Or.inl rfl)⟩

end Pehlahath

namespace Pehlahath

/-! ## Numbers and sorting -/

theorem JsNum.le_eq_true_iff {a b : JsNum} :
    JsNum.le a b = true ↔ ∃ x y, a = .fin x ∧ b = .fin y ∧ x ≤ y := by
  cases a <;> cases b <;> simp [JsNum.le]

theorem JsNum.fin_sub_fin (x y : ℚ) : (JsNum.fin x - JsNum.fin y : JsNum) = .fin (x - y) := rfl

theorem JsNum.fin_add_fin (x y : ℚ) : (JsNum.fin x + JsNum.fin y : JsNum) = .fin (x + y) := rfl

theorem JsNum.fin_mul_fin (x y : ℚ) : (JsNum.fin x * JsNum.fin y : JsNum) = .fin (x * y) := rfl

theorem JsNum.fin_div_fin (x y : ℚ) :
    (JsNum.fin x / JsNum.fin y : JsNum) = if y = 0 then .nan else .fin (x / y) := rfl

theorem JsNum.natCast_eq (n : ℕ) : ((n : ℕ) : JsNum) = .fin n := rfl

theorem byDistance_fin {a b : Center} {x y : ℚ} (ha : a.distance = .fin x)
    (hb : b.distance = .fin y) : byDistance a b ↔ x ≤ y := by
  simp [byDistance, ha, hb, JsNum.fin_sub_fin, JsNum.isPos]

theorem le_of_byDistance {a b : Center} {x y : ℚ} (ha : a.distance = .fin x)
    (hb : b.distance = .fin y) (h : byDistance a b) : JsNum.le a.distance b.distance = true := by
  rw [ha, hb]
  simpa [JsNum.le] using (byDistance_fin ha hb).mp h

/-- Insertion sort yields a sorted list as soon as the relation is total and
transitive on the elements of the list. -/
theorem sorted_insertionSort_on {α : Type} (r : α → α → Prop) [DecidableRel r] (P : α → Prop)
    (htotal : ∀ a b, P a → P b → r a b ∨ r b a)
    (htrans : ∀ a b c, P a → P b → P c → r a b → r b c → r a c) :
    ∀ l : List α, (∀ x ∈ l, P x) → (l.insertionSort r).Sorted r := by
  have hins : ∀ (a : α) (l : List α), P a → (∀ x ∈ l, P x) → l.Sorted r →
      (l.orderedInsert r a).Sorted r := by
    intro a l
    induction l with
    | nil => intro _ _ _; simp
    | cons b l ih =>
      intro ha hl hs
      have hb : P b := hl b (List.mem_cons_self _ _)
      have hl' : ∀ x ∈ l, P x := fun x hx => hl x (List.mem_cons_of_mem _ hx)
      rw [List.orderedInsert]
      split
      · rename_i hab
        refine List.sorted_cons.mpr ⟨?_, hs⟩
        intro x hx
        rcases List.mem_cons.mp hx with hx | hx
        · rw [hx]; exact hab
        · exact htrans a b x ha hb (hl' x hx) hab (List.rel_of_sorted_cons hs x hx)
      · rename_i hab
        have hba : r b a := (htotal a b ha hb).resolve_left hab
        refine List.sorted_cons.mpr ⟨?_, ih ha hl' hs.of_cons⟩
        intro x hx
        rcases (List.mem_orderedInsert r).mp hx with hx | hx
        · rw [hx]; exact hba
        · exact List.rel_of_sorted_cons hs x hx
  intro l
  induction l with
  | nil => intro _; simp
  | cons a l ih =>
    intro hl
    rw [List.insertionSort]
    exact hins a _ (hl a (List.mem_cons_self _ _))
      (fun x hx => hl x (List.mem_cons_of_mem _ ((List.mem_insertionSort r).mp hx)))
      (ih (fun x hx => hl x (List.mem_cons_of_mem _ hx)))

/-- Sorting centers whose distances are all numbers puts them in ascending
order of distance. -/
theorem sortByDistance_sorted (l : List Center) (hl : ∀ c ∈ l, ∃ x, c.distance = .fin x) :
    (sortByDistance l).Pairwise (fun a b => JsNum.le a.distance b.distance = true) := by
  have hs := sorted_insertionSort_on byDistance (fun c => ∃ x, c.distance = .fin x)
    (by
      rintro a b ⟨x, hx⟩ ⟨y, hy⟩
      rcases le_total x y with h | h
      · exact Or.inl ((byDistance_fin hx hy).mpr h)
      · exact Or.inr ((byDistance_fin hy hx).mpr h))
    (by
      rintro a b c ⟨x, hx⟩ ⟨y, hy⟩ ⟨z, hz⟩ hab hbc
      exact (byDistance_fin hx hz).mpr
        (le_trans ((byDistance_fin hx hy).mp hab) ((byDistance_fin hy hz).mp hbc)))
    l hl
  have hmem : ∀ c ∈ sortByDistance l, ∃ x, c.distance = .fin x := fun c hc =>
    hl c ((List.mem_insertionSort byDistance).mp hc)
  unfold List.Sorted at hs
  refine List.Pairwise.imp_of_mem ?_ hs
  intro a b ha hb hab
  obtain ⟨x, hx⟩ := hmem a ha
  obtain ⟨y, hy⟩ := hmem b hb
  exact le_of_byDistance hx hy hab

theorem sortByDistance_perm (l : List Center) : (sortByDistance l).Perm l :=
  List.perm_insertionSort byDistance l

theorem mem_survivors {env : SearchEnv} {latitude longitude : JsNum} {type : CenterType}
    {radius : JsNum} {data : List Place} {c : Center} :
    c ∈ survivors env latitude longitude type radius data ↔
      ∃ place ∈ data,
        JsNum.le (distanceTo env latitude longitude place) (radius / ((1000 : ℕ) : JsNum)) = true ∧
        c = ⟨place.display_name, place.lat, place.lon, type.name,
             distanceTo env latitude longitude place⟩ := by
  simp only [survivors, List.mem_map, List.mem_filter]
  constructor
  · rintro ⟨place, ⟨hmem, hle⟩, rfl⟩
    exact ⟨place, hmem, hle, rfl⟩
  · rintro ⟨place, hmem, hle, rfl⟩
    exact ⟨place, ⟨hmem, hle⟩, rfl⟩

theorem survivors_within {env : SearchEnv} {latitude longitude : JsNum} {type : CenterType}
    {radius : JsNum} {data : List Place} {c : Center}
    (hc : c ∈ survivors env latitude longitude type radius data) :
    JsNum.le c.distance (radius / ((1000 : ℕ) : JsNum)) = true := by
  obtain ⟨place, -, hle, rfl⟩ := mem_survivors.mp hc
  exact hle

theorem survivors_fin {env : SearchEnv} {latitude longitude : JsNum} {type : CenterType}
    {radius : JsNum} {data : List Place} {c : Center}
    (hc : c ∈ survivors env latitude longitude type radius data) :
    ∃ x, c.distance = .fin x := by
  obtain ⟨x, y, hx, -, -⟩ := JsNum.le_eq_true_iff.mp (survivors_within hc)
  exact ⟨x, hx⟩

theorem mem_rankCenters {env : SearchEnv} {latitude longitude : JsNum} {type : CenterType}
    {radius : JsNum} {data : List Place} {c : Center}
    (hc : c ∈ rankCenters env latitude longitude type radius data) :
    c ∈ survivors env latitude longitude type radius data :=
  (List.mem_insertionSort byDistance).mp (List.mem_of_mem_take hc)

end Pehlahath

namespace Pehlahath

/-! ## The loops of the search -/

theorem rankCenters_eq_nil_iff {env : SearchEnv} {latitude longitude : JsNum} {type : CenterType}
    {radius : JsNum} {data : List Place} :
    rankCenters env latitude longitude type radius data = [] ↔
      survivors env latitude longitude type radius data = [] := by
  unfold rankCenters
  constructor
  · intro h
    have hlen := congrArg List.length h
    simp only [List.length_take, List.length_nil, sortByDistance,
      List.length_insertionSort] at hlen
    have : (survivors env latitude longitude type radius data).length = 0 := by omega
    exact List.length_eq_zero.mp this
  · intro h
    simp [h, sortByDistance]

theorem rankCenters_length (env : SearchEnv) (latitude longitude : JsNum) (type : CenterType)
    (radius : JsNum) (data : List Place) :
    (rankCenters env latitude longitude type radius data).length
      = min 2 (survivors env latitude longitude type radius data).length := by
  simp [rankCenters, sortByDistance, List.length_take, List.length_insertionSort]

/-- The three ways the loop over the radii can end: at the first radius with a
survivor, after all radii without survivor, or at the first request that fails. -/
theorem searchRadii_cases (env : SearchEnv) (latitude longitude : JsNum) (viewbox : BoundingBox)
    (type : CenterType) (rs : List JsNum) :
    (∃ pre r post data, rs = pre ++ r :: post ∧
      (∀ r' ∈ pre, nothingWithin env latitude longitude viewbox type r') ∧
      env.get ⟨type.amenity, viewbox, r⟩ = .ok data ∧
      survivors env latitude longitude type r data ≠ [] ∧
      searchRadii env latitude longitude viewbox type rs
        = ((pre ++ [r]).map (fun r' => ⟨type.amenity, viewbox, r'⟩),
           .ok (rankCenters env latitude longitude type r data))) ∨
    ((∀ r' ∈ rs, nothingWithin env latitude longitude viewbox type r') ∧
      searchRadii env latitude longitude viewbox type rs
        = (rs.map (fun r' => ⟨type.amenity, viewbox, r'⟩), .ok [])) ∨
    (∃ pre r post err, rs = pre ++ r :: post ∧
      (∀ r' ∈ pre, nothingWithin env latitude longitude viewbox type r') ∧
      env.get ⟨type.amenity, viewbox, r⟩ = .error err ∧
      searchRadii env latitude longitude viewbox type rs
        = ((pre ++ [r]).map (fun r' => ⟨type.amenity, viewbox, r'⟩), .error err)) := by
  induction rs with
  | nil =>
    right; left
    exact ⟨fun _ h => absurd h (List.not_mem_nil _), rfl⟩
  | cons r rest ih =>
    cases hget : env.get ⟨type.amenity, viewbox, r⟩ with
    | error err =>
      right; right
      exact ⟨[], r, rest, err, rfl, fun _ h => absurd h (List.not_mem_nil _), hget,
        by simp [searchRadii, hget]⟩
    | ok data =>
      by_cases hpos : (rankCenters env latitude longitude type r data).length > 0
      · left
        refine ⟨[], r, rest, data, rfl, fun _ h => absurd h (List.not_mem_nil _), hget, ?_, ?_⟩
        · intro hnil
          rw [rankCenters_eq_nil_iff.mpr hnil] at hpos
          exact absurd hpos (by simp)
        · simp [searchRadii, hget, hpos]
      · have hnil : survivors env latitude longitude type r data = [] := by
          apply rankCenters_eq_nil_iff.mp
          apply List.length_eq_zero.mp
          omega
        have hhere : nothingWithin env latitude longitude viewbox type r := ⟨data, hget, hnil⟩
        have hstep : searchRadii env latitude longitude viewbox type (r :: rest)
            = (⟨type.amenity, viewbox, r⟩ ::
                (searchRadii env latitude longitude viewbox type rest).1,
               (searchRadii env latitude longitude viewbox type rest).2) := by
          simp [searchRadii, hget, hpos]
        rcases ih with ⟨pre, r₀, post, data₀, hrs, hpre, hget₀, hne, heq⟩ |
          ⟨hall, heq⟩ | ⟨pre, r₀, post, err, hrs, hpre, hget₀, heq⟩
        · left
          refine ⟨r :: pre, r₀, post, data₀, by rw [hrs]; rfl, ?_, hget₀, hne, ?_⟩
          · intro r' hr'
            rcases List.mem_cons.mp hr' with h | h
            · rw [h]; exact hhere
            · exact hpre r' h
          · rw [hstep, heq]; rfl
        · right; left
          refine ⟨?_, ?_⟩
          · intro r' hr'
            rcases List.mem_cons.mp hr' with h | h
            · rw [h]; exact hhere
            · exact hall r' h
          · rw [hstep, heq]; rfl
        · right; right
          refine ⟨r :: pre, r₀, post, err, by rw [hrs]; rfl, ?_, hget₀, ?_⟩
          · intro r' hr'
            rcases List.mem_cons.mp hr' with h | h
            · rw [h]; exact hhere
            · exact hpre r' h
          · rw [hstep, heq]; rfl

end Pehlahath

namespace Pehlahath

theorem fetchSpecificCenters_cases (env : SearchEnv) (loc : Location) :
    (∃ h p f,
      categoryResult env loc ⟨"hospital", "Hospital"⟩ = .ok h ∧
      categoryResult env loc ⟨"police", "Police Station"⟩ = .ok p ∧
      categoryResult env loc ⟨"fire_station", "Fire Station"⟩ = .ok f ∧
      fetchSpecificCenters env (some loc)
        = ⟨categoryQueries env loc ⟨"hospital", "Hospital"⟩ ++
            (categoryQueries env loc ⟨"police", "Police Station"⟩ ++
              categoryQueries env loc ⟨"fire_station", "Fire Station"⟩),
           some (sortByDistance (h ++ p ++ f)), none, some false⟩) ∨
    (∃ err,
      categoryResult env loc ⟨"hospital", "Hospital"⟩ = .error err ∧
      fetchSpecificCenters env (some loc)
        = ⟨categoryQueries env loc ⟨"hospital", "Hospital"⟩,
           none, some "Failed to fetch nearby emergency centers.", some false⟩) ∨
    (∃ h err,
      categoryResult env loc ⟨"hospital", "Hospital"⟩ = .ok h ∧
      categoryResult env loc ⟨"police", "Police Station"⟩ = .error err ∧
      fetchSpecificCenters env (some loc)
        = ⟨categoryQueries env loc ⟨"hospital", "Hospital"⟩ ++
            categoryQueries env loc ⟨"police", "Police Station"⟩,
           none, some "Failed to fetch nearby emergency centers.", some false⟩) ∨
    (∃ h p err,
      categoryResult env loc ⟨"hospital", "Hospital"⟩ = .ok h ∧
      categoryResult env loc ⟨"police", "Police Station"⟩ = .ok p ∧
      categoryResult env loc ⟨"fire_station", "Fire Station"⟩ = .error err ∧
      fetchSpecificCenters env (some loc)
        = ⟨categoryQueries env loc ⟨"hospital", "Hospital"⟩ ++
            (categoryQueries env loc ⟨"police", "Police Station"⟩ ++
              categoryQueries env loc ⟨"fire_station", "Fire Station"⟩),
           none, some "Failed to fetch nearby emergency centers.", some false⟩) := by
  unfold categoryResult categoryQueries
  simp only [fetchSpecificCenters, types, searchTypes]
  rcases searchRadii env loc.latitude loc.longitude (boundingBox loc.latitude loc.longitude)
    ⟨"hospital", "Hospital"⟩ radii with ⟨qh, rh⟩
  rcases searchRadii env loc.latitude loc.longitude (boundingBox loc.latitude loc.longitude)
    ⟨"police", "Police Station"⟩ radii with ⟨qp, rp⟩
  rcases searchRadii env loc.latitude loc.longitude (boundingBox loc.latitude loc.longitude)
    ⟨"fire_station", "Fire Station"⟩ radii with ⟨qf, rf⟩
  cases rh with
  | error err => right; left; exact ⟨err, rfl, rfl⟩
  | ok h =>
    cases rp with
    | error err => right; right; left; exact ⟨h, err, rfl, rfl, rfl⟩
    | ok p =>
      cases rf with
      | error err => right; right; right; exact ⟨h, p, err, rfl, rfl, rfl, by simp⟩
      | ok f => left; exact ⟨h, p, f, rfl, rfl, rfl, by simp⟩

theorem radius_km_le_twenty {r : JsNum} (hr : r ∈ radii) {d : JsNum}
    (hd : JsNum.le d (r / ((1000 : ℕ) : JsNum)) = true) :
    JsNum.le d ((20 : ℕ) : JsNum) = true := by
  obtain ⟨x, y, hx, hy, hxy⟩ := JsNum.le_eq_true_iff.mp hd
  simp only [radii, List.mem_cons, List.mem_singleton, List.not_mem_nil, or_false] at hr
  rw [hx]
  rcases hr with h | h | h | h <;> subst h <;>
    simp only [JsNum.natCast_eq, JsNum.fin_div_fin] at hy <;> norm_num at hy <;>
    simp only [JsNum.natCast_eq, JsNum.le, decide_eq_true_eq] <;> rw [← hy] at hxy <;>
    norm_num at hxy ⊢ <;> linarith

theorem radii_km : radii.map (fun r => r / ((1000 : ℕ) : JsNum))
    = [((5 : ℕ) : JsNum), ((10 : ℕ) : JsNum), ((15 : ℕ) : JsNum), ((20 : ℕ) : JsNum)] := by
  simp only [radii, List.map, JsNum.natCast_eq, JsNum.fin_div_fin]
  norm_num

theorem radii_nodup : radii.Nodup := by
  simp only [radii, JsNum.natCast_eq]
  decide

end Pehlahath

namespace Pehlahath

/-! ## Facts about a category's loop -/

theorem categoryResult_first_hit (env : SearchEnv) (loc : Location) (type : CenterType)
    (data : List Place)
    (hget : env.get ⟨type.amenity, boundingBox loc.latitude loc.longitude, .fin 5000⟩ = .ok data)
    (hne : rankCenters env loc.latitude loc.longitude type (.fin 5000) data ≠ []) :
    categoryResult env loc type
        = .ok (rankCenters env loc.latitude loc.longitude type (.fin 5000) data) ∧
    categoryQueries env loc type
        = [⟨type.amenity, boundingBox loc.latitude loc.longitude, .fin 5000⟩] := by
  have hpos : (rankCenters env loc.latitude loc.longitude type (.fin 5000) data).length > 0 :=
    List.length_pos.mpr hne
  have hstep : searchRadii env loc.latitude loc.longitude
      (boundingBox loc.latitude loc.longitude) type radii
      = ([⟨type.amenity, boundingBox loc.latitude loc.longitude, .fin 5000⟩],
         .ok (rankCenters env loc.latitude loc.longitude type (.fin 5000) data)) := by
    show searchRadii env loc.latitude loc.longitude (boundingBox loc.latitude loc.longitude) type
      [.fin 5000, .fin 10000, .fin 15000, .fin 20000] = _
    rw [searchRadii]
    simp only [hget, hpos, if_true]
  unfold categoryResult categoryQueries
  rw [hstep]
  exact ⟨rfl, rfl⟩

theorem categoryResult_first_error (env : SearchEnv) (loc : Location) (type : CenterType)
    (err : JsError)
    (hget : env.get ⟨type.amenity, boundingBox loc.latitude loc.longitude, .fin 5000⟩
      = .error err) :
    categoryResult env loc type = .error err ∧
    categoryQueries env loc type
        = [⟨type.amenity, boundingBox loc.latitude loc.longitude, .fin 5000⟩] := by
  have hstep : searchRadii env loc.latitude loc.longitude
      (boundingBox loc.latitude loc.longitude) type radii
      = ([⟨type.amenity, boundingBox loc.latitude loc.longitude, .fin 5000⟩], .error err) := by
    show searchRadii env loc.latitude loc.longitude (boundingBox loc.latitude loc.longitude) type
      [.fin 5000, .fin 10000, .fin 15000, .fin 20000] = _
    rw [searchRadii]
    simp only [hget]
  unfold categoryResult categoryQueries
  rw [hstep]
  exact ⟨rfl, rfl⟩

theorem categoryResult_all_empty (env : SearchEnv) (loc : Location) (type : CenterType)
    (hall : ∀ r ∈ radii,
      nothingWithin env loc.latitude loc.longitude (boundingBox loc.latitude loc.longitude)
        type r) :
    categoryResult env loc type = .ok [] ∧
    categoryQueries env loc type
      = radii.map (fun r => ⟨type.amenity, boundingBox loc.latitude loc.longitude, r⟩) := by
  unfold categoryResult categoryQueries
  rcases searchRadii_cases env loc.latitude loc.longitude
      (boundingBox loc.latitude loc.longitude) type radii with
    ⟨pre, r, post, data, hrs, -, hget, hsurv, -⟩ | ⟨-, heq⟩ | ⟨pre, r, post, err, hrs, -, hget, -⟩
  · obtain ⟨data', hget', hnil⟩ := hall r (by rw [hrs]; simp)
    rw [hget] at hget'
    simp only [Except.ok.injEq] at hget'
    subst hget'
    exact absurd hnil hsurv
  · rw [heq]
    exact ⟨rfl, rfl⟩
  · obtain ⟨data', hget', -⟩ := hall r (by rw [hrs]; simp)
    rw [hget] at hget'
    cases hget'

/-- What every center of a category's result satisfies. -/
theorem categoryResult_mem (env : SearchEnv) (loc : Location) (type : CenterType)
    (centers : List Center) (hres : categoryResult env loc type = .ok centers) :
    centers.length ≤ 2 ∧
    centers.Pairwise (fun a b => JsNum.le a.distance b.distance = true) ∧
    ∀ c ∈ centers,
      c.type = type.name ∧
      c.distance = calculateDistance env.Math loc.latitude loc.longitude
        (env.parseFloat c.lat) (env.parseFloat c.lon) ∧
      ∃ x, c.distance = .fin x := by
  unfold categoryResult at hres
  rcases searchRadii_cases env loc.latitude loc.longitude
      (boundingBox loc.latitude loc.longitude) type radii with
    ⟨pre, r, post, data, -, -, -, -, heq⟩ | ⟨-, heq⟩ | ⟨pre, r, post, err, -, -, -, heq⟩
  · rw [heq] at hres
    simp only [Except.ok.injEq] at hres
    subst hres
    refine ⟨?_, ?_, ?_⟩
    · rw [rankCenters_length]; exact min_le_left _ _
    · exact (sortByDistance_sorted _ (fun c hc => survivors_fin hc)).sublist
        (List.take_sublist _ _)
    · intro c hc
      have hs := mem_rankCenters hc
      obtain ⟨place, -, -, rfl⟩ := mem_survivors.mp hs
      exact ⟨rfl, rfl, survivors_fin hs⟩
  · rw [heq] at hres
    simp only [Except.ok.injEq] at hres
    subst hres
    exact ⟨by simp, List.Pairwise.nil, fun c hc => absurd hc (List.not_mem_nil _)⟩
  · rw [heq] at hres
    cases hres

/-- Every request of a category carries the category's amenity, the bounding
box of the origin and a radius of `radii`. -/
theorem categoryQueries_mem (env : SearchEnv) (loc : Location) (type : CenterType)
    (q : Query) (hq : q ∈ categoryQueries env loc type) :
    q.amenity = type.amenity ∧ q.viewbox = boundingBox loc.latitude loc.longitude ∧
    q.radius ∈ radii := by
  unfold categoryQueries at hq
  have key : ∀ rs' : List JsNum, (∀ r ∈ rs', r ∈ radii) →
      q ∈ rs'.map (fun r => (⟨type.amenity, boundingBox loc.latitude loc.longitude, r⟩ : Query)) →
      q.amenity = type.amenity ∧ q.viewbox = boundingBox loc.latitude loc.longitude ∧
      q.radius ∈ radii := by
    intro rs' hsub hmem
    obtain ⟨r, hr, rfl⟩ := List.mem_map.mp hmem
    exact ⟨rfl, rfl, hsub r hr⟩
  rcases searchRadii_cases env loc.latitude loc.longitude
      (boundingBox loc.latitude loc.longitude) type radii with
    ⟨pre, r, post, data, hrs, -, -, -, heq⟩ | ⟨-, heq⟩ | ⟨pre, r, post, err, hrs, -, -, heq⟩
  · rw [heq] at hq
    refine key (pre ++ [r]) ?_ hq
    intro x hx
    rw [hrs]
    simp only [List.mem_append, List.mem_singleton] at hx
    rcases hx with hx | hx
    · exact List.mem_append_left _ hx
    · rw [hx]; simp
  · rw [heq] at hq
    exact key radii (fun _ h => h) hq
  · rw [heq] at hq
    refine key (pre ++ [r]) ?_ hq
    intro x hx
    rw [hrs]
    simp only [List.mem_append, List.mem_singleton] at hx
    rcases hx with hx | hx
    · exact List.mem_append_left _ hx
    · rw [hx]; simp

/-- When a category's loop is left by an error, the failing request is the last
one the category issued. -/
theorem categoryResult_error_last (env : SearchEnv) (loc : Location) (type : CenterType)
    (err : JsError) (hres : categoryResult env loc type = .error err) :
    ∃ q, (categoryQueries env loc type).getLast? = some q ∧ env.get q = .error err := by
  unfold categoryResult at hres
  unfold categoryQueries
  rcases searchRadii_cases env loc.latitude loc.longitude
      (boundingBox loc.latitude loc.longitude) type radii with
    ⟨pre, r, post, data, -, -, -, -, heq⟩ | ⟨-, heq⟩ | ⟨pre, r, post, err', -, -, hget, heq⟩
  · rw [heq] at hres; cases hres
  · rw [heq] at hres; cases hres
  · rw [heq] at hres ⊢
    simp only [Except.error.injEq] at hres
    subst hres
    exact ⟨_, by simp, hget⟩

theorem fetchSpecificCenters_of_results (env : SearchEnv) (loc : Location)
    (h p f : List Center)
    (hh : categoryResult env loc ⟨"hospital", "Hospital"⟩ = .ok h)
    (hp : categoryResult env loc ⟨"police", "Police Station"⟩ = .ok p)
    (hf : categoryResult env loc ⟨"fire_station", "Fire Station"⟩ = .ok f) :
    fetchSpecificCenters env (some loc)
      = ⟨categoryQueries env loc ⟨"hospital", "Hospital"⟩ ++
          (categoryQueries env loc ⟨"police", "Police Station"⟩ ++
            categoryQueries env loc ⟨"fire_station", "Fire Station"⟩),
         some (sortByDistance (h ++ p ++ f)), none, some false⟩ := by
  rcases fetchSpecificCenters_cases env loc with ⟨h', p', f', hh', hp', hf', heq⟩ |
    ⟨err, hh', -⟩ | ⟨h', err, -, hp', -⟩ | ⟨h', p', err, -, -, hf', -⟩
  · rw [hh] at hh'; rw [hp] at hp'; rw [hf] at hf'
    simp only [Except.ok.injEq] at hh' hp' hf'
    subst hh' hp' hf'
    exact heq
  · rw [hh] at hh'; cases hh'
  · rw [hp] at hp'; cases hp'
  · rw [hf] at hf'; cases hf'

end Pehlahath

namespace Pehlahath

/-! ## The sample searches, evaluated -/

theorem JsNum.ofNat_eq (n : ℕ) [n.AtLeastTwo] :
    (OfNat.ofNat n : JsNum) = .fin (OfNat.ofNat n) := by
  show ((OfNat.ofNat n : ℕ) : JsNum) = _
  rw [JsNum.natCast_eq]
  simp

theorem sample_distance (x y : ℚ) :
    calculateDistance sampleMath (.fin 0) (.fin 0) (.fin x) (.fin y) = .fin (x * x + y * y) := by
  have h : (0 : ℚ) ≤ x / 2 * (x / 2) + y / 2 * (y / 2) :=
    add_nonneg (mul_self_nonneg _) (mul_self_nonneg _)
  simp [calculateDistance, sampleMath, JsNum.natCast_eq, JsNum.ofNat_eq, JsNum.fin_sub_fin,
    JsNum.fin_mul_fin, JsNum.fin_div_fin, JsNum.fin_add_fin, JsNum.le, h]
  ring

theorem sampleParseFloat_digit (s : String) (n : ℕ) (h : parseDigits s.data = some n) :
    sampleParseFloat s = .fin n := by
  simp [sampleParseFloat, h, JsNum.natCast_eq]

theorem sample_distanceTo (name lat lon : String) (x y : ℕ)
    (hx : parseDigits lat.data = some x) (hy : parseDigits lon.data = some y) :
    distanceTo sampleSearch (.fin 0) (.fin 0) ⟨name, lat, lon⟩ = .fin (x * x + y * y) := by
  simp only [distanceTo, sampleSearch, sampleParseFloat_digit lat x hx,
    sampleParseFloat_digit lon y hy, sample_distance]

theorem sample_near : distanceTo sampleSearch (.fin 0) (.fin 0) ⟨"Near Hospital", "1", "1"⟩
    = .fin 2 := by
  rw [sample_distanceTo "Near Hospital" "1" "1" 1 1 (by decide) (by decide)]
  norm_num

theorem sample_mid : distanceTo sampleSearch (.fin 0) (.fin 0) ⟨"Mid Hospital", "2", "0"⟩
    = .fin 4 := by
  rw [sample_distanceTo "Mid Hospital" "2" "0" 2 0 (by decide) (by decide)]
  norm_num

theorem sample_far : distanceTo sampleSearch (.fin 0) (.fin 0) ⟨"Far Hospital", "3", "0"⟩
    = .fin 9 := by
  rw [sample_distanceTo "Far Hospital" "3" "0" 3 0 (by decide) (by decide)]
  norm_num

theorem sample_clinic (name : String) :
    distanceTo sampleSearch (.fin 0) (.fin 0) ⟨name, "0", "0"⟩ = .fin 0 := by
  rw [sample_distanceTo name "0" "0" 0 0 (by decide) (by decide)]
  norm_num

theorem sample_survivors :
    survivors sampleSearch (.fin 0) (.fin 0) ⟨"hospital", "Hospital"⟩ (.fin 5000) threeHospitals
      = [nearHospital, midHospital] := by
  simp only [survivors, threeHospitals, List.filter, sample_near, sample_mid, sample_far,
    JsNum.natCast_eq, JsNum.fin_div_fin, JsNum.le, nearHospital, midHospital]
  norm_num
  exact ⟨sample_near, sample_mid⟩

theorem sample_sorted_survivors :
    sortByDistance (survivors sampleSearch (.fin 0) (.fin 0) ⟨"hospital", "Hospital"⟩ (.fin 5000)
      threeHospitals) = [nearHospital, midHospital] := by
  rw [sample_survivors]
  simp [sortByDistance, List.insertionSort, List.orderedInsert, byDistance, JsNum.fin_sub_fin,
    JsNum.isPos, nearHospital, midHospital]
  norm_num

theorem sample_rank :
    rankCenters sampleSearch (.fin 0) (.fin 0) ⟨"hospital", "Hospital"⟩ (.fin 5000) threeHospitals
      = [nearHospital, midHospital] := by
  rw [rankCenters, sample_sorted_survivors]
  rfl

theorem twin_survivors :
    survivors sampleSearch (.fin 0) (.fin 0) ⟨"hospital", "Hospital"⟩ (.fin 5000) twinClinics
      = [clinicA, clinicB] := by
  simp only [survivors, twinClinics, List.filter, sample_clinic, JsNum.natCast_eq,
    JsNum.fin_div_fin, JsNum.le, clinicA, clinicB]
  norm_num
  exact ⟨sample_clinic _, sample_clinic _⟩

theorem twin_rank :
    rankCenters sampleSearch (.fin 0) (.fin 0) ⟨"hospital", "Hospital"⟩ (.fin 5000) twinClinics
      = [clinicA, clinicB] := by
  rw [rankCenters, twin_survivors]
  simp [sortByDistance, List.insertionSort, List.orderedInsert, byDistance, JsNum.fin_sub_fin,
    JsNum.isPos, clinicA, clinicB]

theorem sample_hospitals :
    categoryResult sampleSearch origin ⟨"hospital", "Hospital"⟩
      = .ok [nearHospital, midHospital] ∧
    categoryQueries sampleSearch origin ⟨"hospital", "Hospital"⟩ = [hospitalQuery] := by
  have h := categoryResult_first_hit sampleSearch origin ⟨"hospital", "Hospital"⟩ threeHospitals
    rfl (by
      show rankCenters sampleSearch (.fin 0) (.fin 0) ⟨"hospital", "Hospital"⟩ (.fin 5000)
        threeHospitals ≠ []
      rw [sample_rank]; exact List.cons_ne_nil _ _)
  rw [show rankCenters sampleSearch origin.latitude origin.longitude ⟨"hospital", "Hospital"⟩
    (.fin 5000) threeHospitals = [nearHospital, midHospital] from sample_rank] at h
  exact h

theorem policeDown_hospitals :
    categoryResult policeDown origin ⟨"hospital", "Hospital"⟩
      = .ok [nearHospital, midHospital] ∧
    categoryQueries policeDown origin ⟨"hospital", "Hospital"⟩ = [hospitalQuery] := by
  have h := categoryResult_first_hit policeDown origin ⟨"hospital", "Hospital"⟩ threeHospitals
    rfl (by
      show rankCenters sampleSearch (.fin 0) (.fin 0) ⟨"hospital", "Hospital"⟩ (.fin 5000)
        threeHospitals ≠ []
      rw [sample_rank]; exact List.cons_ne_nil _ _)
  rw [show rankCenters policeDown origin.latitude origin.longitude ⟨"hospital", "Hospital"⟩
    (.fin 5000) threeHospitals = [nearHospital, midHospital] from sample_rank] at h
  exact h

theorem twin_hospitals :
    categoryResult twinSearch origin ⟨"hospital", "Hospital"⟩ = .ok [clinicA, clinicB] := by
  have h := categoryResult_first_hit twinSearch origin ⟨"hospital", "Hospital"⟩ twinClinics
    rfl (by
      show rankCenters sampleSearch (.fin 0) (.fin 0) ⟨"hospital", "Hospital"⟩ (.fin 5000)
        twinClinics ≠ []
      rw [twin_rank]; exact List.cons_ne_nil _ _)
  rw [show rankCenters twinSearch origin.latitude origin.longitude ⟨"hospital", "Hospital"⟩
    (.fin 5000) twinClinics = [clinicA, clinicB] from twin_rank] at h
  exact h.1

/-- In the sample search no police or fire station is found at any radius. -/
theorem sample_nothing (type : CenterType) (htype : type.amenity ≠ "hospital") (r : JsNum) :
    nothingWithin sampleSearch origin.latitude origin.longitude
      (boundingBox origin.latitude origin.longitude) type r := by
  refine ⟨[], ?_, rfl⟩
  simp [sampleSearch, sampleGet, htype]

theorem sample_police :
    categoryResult sampleSearch origin ⟨"police", "Police Station"⟩ = .ok [] :=
  (categoryResult_all_empty sampleSearch origin ⟨"police", "Police Station"⟩
    (fun r _ => sample_nothing _ (by decide) r)).1

theorem sample_fire :
    categoryResult sampleSearch origin ⟨"fire_station", "Fire Station"⟩ = .ok [] :=
  (categoryResult_all_empty sampleSearch origin ⟨"fire_station", "Fire Station"⟩
    (fun r _ => sample_nothing _ (by decide) r)).1

theorem sample_sorted_pair :
    sortByDistance ([nearHospital, midHospital] ++ [] ++ []) = [nearHospital, midHospital] := by
  simp [sortByDistance, List.insertionSort, List.orderedInsert, byDistance, JsNum.fin_sub_fin,
    JsNum.isPos, nearHospital, midHospital]
  norm_num

theorem sample_fetch_centers :
    (fetchSpecificCenters sampleSearch (some origin)).centers
      = some [nearHospital, midHospital] := by
  rw [fetchSpecificCenters_of_results sampleSearch origin _ _ _ sample_hospitals.1 sample_police
    sample_fire, sample_sorted_pair]

theorem policeDown_police :
    categoryResult policeDown origin ⟨"police", "Police Station"⟩
      = .error ⟨"Network Error"⟩ ∧
    categoryQueries policeDown origin ⟨"police", "Police Station"⟩ = [policeQuery] :=
  categoryResult_first_error policeDown origin ⟨"police", "Police Station"⟩ ⟨"Network Error"⟩
    rfl

theorem policeDown_fetch :
    fetchSpecificCenters policeDown (some origin)
      = ⟨[hospitalQuery, policeQuery], none, some "Failed to fetch nearby emergency centers.",
         some false⟩ := by
  rcases fetchSpecificCenters_cases policeDown origin with ⟨h, p, f, -, hp, -, -⟩ |
    ⟨err, hh, -⟩ | ⟨h, err, -, -, heq⟩ | ⟨h, p, err, -, hp, -, -⟩
  · rw [policeDown_police.1] at hp; cases hp
  · rw [policeDown_hospitals.1] at hh; cases hh
  · rw [heq, policeDown_hospitals.2, policeDown_police.2]
    rfl
  · rw [policeDown_police.1] at hp; cases hp

end Pehlahath

namespace Pehlahath

/-! ## The haversine formula -/

theorem haversineA_bounds (lat1 lon1 lat2 lon2 : ℝ) :
    0 ≤ haversineA lat1 lon1 lat2 lon2 ∧ haversineA lat1 lon1 lat2 lon2 ≤ 1 := by
  unfold haversineA
  set p1 := lat1 * Real.pi / 180 with hp1
  set p2 := lat2 * Real.pi / 180 with hp2
  set u := (lat2 - lat1) * Real.pi / 180 / 2 with hu
  set s := Real.sin ((lon2 - lon1) * Real.pi / 180 / 2) ^ 2 with hs
  have hp : p2 = p1 + 2 * u := by rw [hp1, hp2, hu]; ring
  have hs0 : 0 ≤ s := sq_nonneg _
  have hs1 : s ≤ 1 := Real.sin_sq_le_one _
  have hprod : Real.cos p1 * Real.cos p2
      = (Real.cos (2 * u) + Real.cos (p1 + p2)) / 2 := by
    have h1 : Real.cos (p1 + p2) = Real.cos p1 * Real.cos p2 - Real.sin p1 * Real.sin p2 :=
      Real.cos_add p1 p2
    have h2 : Real.cos (2 * u) = Real.cos p1 * Real.cos p2 + Real.sin p1 * Real.sin p2 := by
      have : 2 * u = p2 - p1 := by rw [hp]; ring
      rw [this, Real.cos_sub]
      ring
    rw [h1, h2]; ring
  have hdouble : Real.cos (2 * u) = 1 - 2 * Real.sin u ^ 2 := by
    rw [Real.cos_two_mul, Real.cos_sq']
    ring
  have hc1 : Real.cos (p1 + p2) ≤ 1 := Real.cos_le_one _
  have hc2 : -1 ≤ Real.cos (p1 + p2) := Real.neg_one_le_cos _
  have hu0 : 0 ≤ Real.sin u ^ 2 := sq_nonneg _
  have hu1 : Real.sin u ^ 2 ≤ 1 := Real.sin_sq_le_one _
  rw [hprod, hdouble]
  constructor
  · nlinarith
  · nlinarith

theorem haversineKm_antipode :
    haversineKm (5 / 2) 0 (-(5 / 2)) 180 = 6371 * Real.pi := by
  have ha : haversineA (5 / 2) 0 (-(5 / 2)) 180 = 1 := by
    unfold haversineA
    have h1 : (-(5 / 2 : ℝ) - 5 / 2) * Real.pi / 180 / 2 = -(Real.pi / 72) := by ring
    have h2 : (5 / 2 : ℝ) * Real.pi / 180 = Real.pi / 72 := by ring
    have h3 : (-(5 / 2 : ℝ)) * Real.pi / 180 = -(Real.pi / 72) := by ring
    have h4 : ((180 : ℝ) - 0) * Real.pi / 180 / 2 = Real.pi / 2 := by ring
    rw [h1, h2, h3, h4, Real.sin_neg, Real.cos_neg, Real.sin_pi_div_two]
    have := Real.sin_sq_add_cos_sq (Real.pi / 72)
    nlinarith
  rw [haversineKm, ha, Real.sqrt_one, Real.arcsin_one]
  ring

theorem double_mul_nan (x : Double) : x * Double.nan = Double.nan := by
  cases x <;> rfl

set_option maxRecDepth 100000 in
theorem antipode_dLat :
    (Double.fin (-5) (-1) - Double.fin 5 (-1)) * Double.fin 884279719003555 (-48)
        / ((180 : ℕ) : Double) / ((2 : ℕ) : Double)
      = Double.fin (-6288211335136391) (-57) := by decide

set_option maxRecDepth 100000 in
theorem antipode_dLon :
    (Double.fin 45 2 - Double.fin 0 0) * Double.fin 884279719003555 (-48)
        / ((180 : ℕ) : Double) / ((2 : ℕ) : Double)
      = Double.fin 884279719003555 (-49) := by decide

set_option maxRecDepth 100000 in
theorem antipode_lat1 :
    Double.fin 5 (-1) * Double.fin 884279719003555 (-48) / ((180 : ℕ) : Double)
      = Double.fin 6288211335136391 (-57) := by decide

set_option maxRecDepth 100000 in
theorem antipode_lat2 :
    Double.fin (-5) (-1) * Double.fin 884279719003555 (-48) / ((180 : ℕ) : Double)
      = Double.fin (-6288211335136391) (-57) := by decide

set_option maxRecDepth 100000 in
theorem antipode_a :
    Double.fin (-6286216213909009) (-57) * Double.fin (-6286216213909009) (-57) +
      Double.fin 8998626396882423 (-53) * Double.fin 8998626396882423 (-53) * Double.fin 1 0 *
        Double.fin 1 0
      = Double.fin 4503599627370497 (-52) := by decide

set_option maxRecDepth 100000 in
theorem antipode_one_minus_a :
    ((1 : ℕ) : Double) - Double.fin 4503599627370497 (-52) = Double.fin (-1) (-52) := by decide

/-- Claim C20: in binary64 arithmetic `calculateDistance(2.5, 0, -2.5, 180)` is
`NaN`: with the values `Math.sin` and `Math.cos` take at the arguments met, the
quantity `a` is rounded to `1 + 2⁻⁵²`, so `1 - a` is negative, its square root is
`NaN` and so is the angle; the haversine distance between the two points is
`6371 · π` km. -/
theorem calculateDistance_nan_near_antipode (Math : JsMath Double)
    (hPI : Math.PI = .fin 884279719003555 (-48))
    (hsinLat : Math.sin (.fin (-6288211335136391) (-57)) = .fin (-6286216213909009) (-57))
    (hsinLon : Math.sin (.fin 884279719003555 (-49)) = .fin 1 0)
    (hcos₁ : Math.cos (.fin 6288211335136391 (-57)) = .fin 8998626396882423 (-53))
    (hcos₂ : Math.cos (.fin (-6288211335136391) (-57)) = .fin 8998626396882423 (-53))
    (hsqrt : ∀ m e : Int, m < 0 → Math.sqrt (.fin m e) = .nan)
    (hatan2 : ∀ y, Math.atan2 y .nan = .nan) :
    calculateDistance Math (.fin 5 (-1)) (.fin 0 0) (.fin (-5) (-1)) (.fin 45 2) = .nan ∧
    Math.sin ((Double.fin (-5) (-1) - Double.fin 5 (-1)) * Math.PI
          / ((180 : ℕ) : Double) / ((2 : ℕ) : Double)) *
        Math.sin ((Double.fin (-5) (-1) - Double.fin 5 (-1)) * Math.PI
          / ((180 : ℕ) : Double) / ((2 : ℕ) : Double)) +
      Math.cos (Double.fin 5 (-1) * Math.PI / ((180 : ℕ) : Double)) *
          Math.cos (Double.fin (-5) (-1) * Math.PI / ((180 : ℕ) : Double)) *
          Math.sin ((Double.fin 45 2 - Double.fin 0 0) * Math.PI
            / ((180 : ℕ) : Double) / ((2 : ℕ) : Double)) *
        Math.sin ((Double.fin 45 2 - Double.fin 0 0) * Math.PI
          / ((180 : ℕ) : Double) / ((2 : ℕ) : Double))
      = .fin 4503599627370497 (-52) ∧
    haversineA (5 / 2) 0 (-(5 / 2)) 180 ≤ 1 ∧
    haversineKm (5 / 2) 0 (-(5 / 2)) 180 = 6371 * Real.pi := by
  have ha : Math.sin ((Double.fin (-5) (-1) - Double.fin 5 (-1)) * Math.PI
          / ((180 : ℕ) : Double) / ((2 : ℕ) : Double)) *
        Math.sin ((Double.fin (-5) (-1) - Double.fin 5 (-1)) * Math.PI
          / ((180 : ℕ) : Double) / ((2 : ℕ) : Double)) +
      Math.cos (Double.fin 5 (-1) * Math.PI / ((180 : ℕ) : Double)) *
          Math.cos (Double.fin (-5) (-1) * Math.PI / ((180 : ℕ) : Double)) *
          Math.sin ((Double.fin 45 2 - Double.fin 0 0) * Math.PI
            / ((180 : ℕ) : Double) / ((2 : ℕ) : Double)) *
        Math.sin ((Double.fin 45 2 - Double.fin 0 0) * Math.PI
          / ((180 : ℕ) : Double) / ((2 : ℕ) : Double))
      = .fin 4503599627370497 (-52) := by
    rw [hPI, antipode_dLat, antipode_dLon, antipode_lat1, antipode_lat2, hsinLat, hsinLon, hcos₁,
      hcos₂, antipode_a]
  refine ⟨?_, ha, (haversineA_bounds _ _ _ _).2, haversineKm_antipode⟩
  simp only [calculateDistance]
  rw [ha, antipode_one_minus_a, hsqrt (-1) (-52) (by decide), hatan2, double_mul_nan,
    double_mul_nan]

theorem calculateDistance_nan_near_antipode_witness :
    calculateDistance mathAtAntipode (.fin 5 (-1)) (.fin 0 0) (.fin (-5) (-1)) (.fin 45 2)
      = .nan ∧
    haversineKm (5 / 2) 0 (-(5 / 2)) 180 = 6371 * Real.pi :=
  have h := calculateDistance_nan_near_antipode mathAtAntipode rfl (by decide) (by decide)
    (by decide) (by decide)
    (fun m e hm => by
      have hne : Double.fin m e ≠ Double.fin 4503599627370497 (-52) := by
        intro heq
        injection heq with h1 _
        omega
      simp [mathAtAntipode, hne])
    (fun _ => rfl)
  ⟨h.1, h.2.2.2⟩

end Pehlahath

namespace Pehlahath

/-! ## Per-category ranking -/

/-- Claim C12: at any radius and for any provider answer, the ranking of a
category is the list of survivors of the distance filter, sorted by ascending
distance and cut to its first two elements: its length is the minimum of 2 and
the number of survivors, a single survivor is returned alone, and every survivor
left out is at least as far as every one kept. The result of a category is
empty or is this ranking at a radius of `radii` at which something survives. -/
theorem category_top_two (env : SearchEnv) (loc : Location) (type : CenterType) :
    (∀ (radius : JsNum) (data : List Place),
      rankCenters env loc.latitude loc.longitude type radius data
        = (sortByDistance (survivors env loc.latitude loc.longitude type radius data)).take 2 ∧
      (sortByDistance (survivors env loc.latitude loc.longitude type radius data)).Perm
        (survivors env loc.latitude loc.longitude type radius data) ∧
      (sortByDistance (survivors env loc.latitude loc.longitude type radius data)).Pairwise
        (fun a b => JsNum.le a.distance b.distance = true) ∧
      (rankCenters env loc.latitude loc.longitude type radius data).length
        = min 2 (survivors env loc.latitude loc.longitude type radius data).length ∧
      (∀ only, survivors env loc.latitude loc.longitude type radius data = [only] →
        rankCenters env loc.latitude loc.longitude type radius data = [only]) ∧
      (∀ kept ∈ rankCenters env loc.latitude loc.longitude type radius data,
        ∀ left ∈
          (sortByDistance (survivors env loc.latitude loc.longitude type radius data)).drop 2,
          JsNum.le kept.distance left.distance = true)) ∧
    (∀ centers, categoryResult env loc type = .ok centers →
      centers = [] ∨
      ∃ radius ∈ radii, ∃ data,
        env.get ⟨type.amenity, boundingBox loc.latitude loc.longitude, radius⟩ = .ok data ∧
        survivors env loc.latitude loc.longitude type radius data ≠ [] ∧
        centers = rankCenters env loc.latitude loc.longitude type radius data) := by
  constructor
  · intro radius data
    have hsorted := sortByDistance_sorted
      (survivors env loc.latitude loc.longitude type radius data) (fun c hc => survivors_fin hc)
    refine ⟨rfl, sortByDistance_perm _, hsorted, rankCenters_length _ _ _ _ _ _, ?_, ?_⟩
    · intro only h
      simp [rankCenters, h, sortByDistance]
    · intro kept hkept left hleft
      exact List.Sorted.rel_of_mem_take_of_mem_drop hsorted hkept hleft
  · intro centers hres
    unfold categoryResult at hres
    rcases searchRadii_cases env loc.latitude loc.longitude
        (boundingBox loc.latitude loc.longitude) type radii with
      ⟨pre, r, post, data, hrs, -, hget, hne, heq⟩ | ⟨-, heq⟩ | ⟨pre, r, post, err, -, -, -, heq⟩
    · right
      rw [heq] at hres
      simp only [Except.ok.injEq] at hres
      exact ⟨r, by rw [hrs]; simp, data, hget, hne, hres.symm⟩
    · left
      rw [heq] at hres
      simp only [Except.ok.injEq] at hres
      exact hres.symm
    · rw [heq] at hres
      cases hres

theorem searchRadii_first_survivor (env : SearchEnv) (latitude longitude : JsNum)
    (viewbox : BoundingBox) (type : CenterType) (pre : List JsNum) (r : JsNum)
    (post : List JsNum) (data : List Place)
    (hpre : ∀ r' ∈ pre, nothingWithin env latitude longitude viewbox type r')
    (hget : env.get ⟨type.amenity, viewbox, r⟩ = .ok data)
    (hne : survivors env latitude longitude type r data ≠ []) :
    searchRadii env latitude longitude viewbox type (pre ++ r :: post)
      = ((pre ++ [r]).map (fun r' => ⟨type.amenity, viewbox, r'⟩),
         .ok (rankCenters env latitude longitude type r data)) := by
  induction pre with
  | nil =>
    have hpos : (rankCenters env latitude longitude type r data).length > 0 :=
      List.length_pos.mpr (fun h => hne (rankCenters_eq_nil_iff.mp h))
    simp only [List.nil_append, searchRadii, hget, hpos, if_true, List.map_cons, List.map_nil]
  | cons p ps ih =>
    obtain ⟨data', hget', hnone⟩ := hpre p (List.mem_cons_self _ _)
    have hzero : ¬ (rankCenters env latitude longitude type p data').length > 0 := by
      rw [rankCenters_eq_nil_iff.mpr hnone]
      simp
    have hrest := ih (fun r' hr' => hpre r' (List.mem_cons_of_mem _ hr'))
    show searchRadii env latitude longitude viewbox type (p :: (ps ++ r :: post)) = _
    rw [searchRadii]
    simp only [hget', hzero, if_false, hrest]
    rfl

/-- Claim C13: for a category the requests go out for the radii of `radii` (5,
10, 15, 20 km) in that order; a non-empty result is the ranking at the first
radius at which something survives, that radius is the last one requested and
no later radius is requested; when nothing survives at any radius all four
requests are issued and the result is empty; and whenever the provider answers
the earlier radii with nothing that survives and a radius with something that
does, the result is the non-empty ranking at that radius and the requests stop
there. -/
theorem category_radius_escalation (env : SearchEnv) (loc : Location) (type : CenterType) :
    radii.map (fun r => r / ((1000 : ℕ) : JsNum))
      = [((5 : ℕ) : JsNum), ((10 : ℕ) : JsNum), ((15 : ℕ) : JsNum), ((20 : ℕ) : JsNum)] ∧
    (∃ n, categoryQueries env loc type
      = (radii.take n).map
          (fun r => ⟨type.amenity, boundingBox loc.latitude loc.longitude, r⟩)) ∧
    (∀ centers, categoryResult env loc type = .ok centers → centers ≠ [] →
      ∃ pre r post data, radii = pre ++ r :: post ∧
        (∀ r' ∈ pre,
          nothingWithin env loc.latitude loc.longitude (boundingBox loc.latitude loc.longitude)
            type r') ∧
        env.get ⟨type.amenity, boundingBox loc.latitude loc.longitude, r⟩ = .ok data ∧
        survivors env loc.latitude loc.longitude type r data ≠ [] ∧
        centers = rankCenters env loc.latitude loc.longitude type r data ∧
        categoryQueries env loc type
          = (pre ++ [r]).map
              (fun r' => ⟨type.amenity, boundingBox loc.latitude loc.longitude, r'⟩) ∧
        (∀ r' ∈ post, ∀ q ∈ categoryQueries env loc type, q.radius ≠ r')) ∧
    ((∀ r ∈ radii,
        nothingWithin env loc.latitude loc.longitude (boundingBox loc.latitude loc.longitude)
          type r) →
      categoryQueries env loc type
        = radii.map (fun r => ⟨type.amenity, boundingBox loc.latitude loc.longitude, r⟩) ∧
      (categoryQueries env loc type).length = 4 ∧
      categoryResult env loc type = .ok []) ∧
    (∀ pre r post data, radii = pre ++ r :: post →
      (∀ r' ∈ pre,
        nothingWithin env loc.latitude loc.longitude (boundingBox loc.latitude loc.longitude)
          type r') →
      env.get ⟨type.amenity, boundingBox loc.latitude loc.longitude, r⟩ = .ok data →
      survivors env loc.latitude loc.longitude type r data ≠ [] →
      categoryResult env loc type
        = .ok (rankCenters env loc.latitude loc.longitude type r data) ∧
      rankCenters env loc.latitude loc.longitude type r data ≠ [] ∧
      categoryQueries env loc type
        = (pre ++ [r]).map
            (fun r' => ⟨type.amenity, boundingBox loc.latitude loc.longitude, r'⟩)) := by
  have hcases := searchRadii_cases env loc.latitude loc.longitude
    (boundingBox loc.latitude loc.longitude) type radii
  refine ⟨radii_km, ?_, ?_, ?_, ?_⟩
  rotate_left 3
  · intro pre r post data hrs hpre hget hne
    have h := searchRadii_first_survivor env loc.latitude loc.longitude
      (boundingBox loc.latitude loc.longitude) type pre r post data hpre hget hne
    rw [← hrs] at h
    unfold categoryResult categoryQueries
    rw [h]
    exact ⟨rfl, fun hnil => hne (rankCenters_eq_nil_iff.mp hnil), rfl⟩
  · unfold categoryQueries
    rcases hcases with ⟨pre, r, post, data, hrs, -, -, -, heq⟩ | ⟨-, heq⟩ |
      ⟨pre, r, post, err, hrs, -, -, heq⟩
    · refine ⟨(pre ++ [r]).length, ?_⟩
      rw [heq, hrs]
      have : pre ++ r :: post = (pre ++ [r]) ++ post := by simp
      rw [this, List.take_left']
      rfl
    · refine ⟨radii.length, ?_⟩
      rw [heq, List.take_length]
    · refine ⟨(pre ++ [r]).length, ?_⟩
      rw [heq, hrs]
      have : pre ++ r :: post = (pre ++ [r]) ++ post := by simp
      rw [this, List.take_left']
      rfl
  · intro centers hres hne
    unfold categoryResult at hres
    unfold categoryQueries
    rcases hcases with ⟨pre, r, post, data, hrs, hpre, hget, hsurv, heq⟩ | ⟨-, heq⟩ |
      ⟨pre, r, post, err, -, -, -, heq⟩
    · rw [heq] at hres
      simp only [Except.ok.injEq] at hres
      refine ⟨pre, r, post, data, hrs, hpre, hget, hsurv, hres.symm, by rw [heq], ?_⟩
      intro r' hr' q hq
      rw [heq] at hq
      simp only [List.map_append, List.map_cons, List.map_nil, List.mem_append, List.mem_map,
        List.mem_singleton] at hq
      have hnodup := radii_nodup
      rw [hrs] at hnodup
      have hdisj := List.nodup_append.mp hnodup
      rcases hq with ⟨x, hx, rfl⟩ | rfl
      · intro h
        have hx' : x = r' := h
        subst hx'
        exact List.disjoint_left.mp hdisj.2.2 hx (List.mem_cons_of_mem _ hr')
      · intro h
        have hr : r = r' := h
        subst hr
        exact (List.nodup_cons.mp hdisj.2.1).1 hr'
    · rw [heq] at hres
      simp only [Except.ok.injEq] at hres
      exact absurd hres.symm hne
    · rw [heq] at hres
      cases hres
  · intro hall
    unfold categoryResult categoryQueries
    rcases hcases with ⟨pre, r, post, data, hrs, -, hget, hsurv, -⟩ | ⟨-, heq⟩ |
      ⟨pre, r, post, err, hrs, -, hget, -⟩
    · obtain ⟨data', hget', hnil⟩ := hall r (by rw [hrs]; simp)
      rw [hget] at hget'
      simp only [Except.ok.injEq] at hget'
      subst hget'
      exact absurd hnil hsurv
    · rw [heq]
      exact ⟨rfl, by simp [radii], rfl⟩
    · obtain ⟨data', hget', -⟩ := hall r (by rw [hrs]; simp)
      rw [hget] at hget'
      cases hget'

/-- Claim C15: every center in a category's result has a distance that is at
most the radius, in km, of the last request the category issued, hence at most
20; and every center passed to `setCenters` has a distance of at most 20. -/
theorem category_within_radius (env : SearchEnv) (loc : Location) :
    (∀ (type : CenterType) (centers : List Center),
      categoryResult env loc type = .ok centers →
      ∀ c ∈ centers,
        (∃ q, (categoryQueries env loc type).getLast? = some q ∧ q.radius ∈ radii ∧
          JsNum.le c.distance (q.radius / ((1000 : ℕ) : JsNum)) = true) ∧
        JsNum.le c.distance ((20 : ℕ) : JsNum) = true) ∧
    (∀ final, (fetchSpecificCenters env (some loc)).centers = some final →
      ∀ c ∈ final, JsNum.le c.distance ((20 : ℕ) : JsNum) = true) := by
  have hcat : ∀ (type : CenterType) (centers : List Center),
      categoryResult env loc type = .ok centers →
      ∀ c ∈ centers,
        (∃ q, (categoryQueries env loc type).getLast? = some q ∧ q.radius ∈ radii ∧
          JsNum.le c.distance (q.radius / ((1000 : ℕ) : JsNum)) = true) ∧
        JsNum.le c.distance ((20 : ℕ) : JsNum) = true := by
    intro type centers hres c hc
    unfold categoryResult at hres
    unfold categoryQueries
    rcases searchRadii_cases env loc.latitude loc.longitude
        (boundingBox loc.latitude loc.longitude) type radii with
      ⟨pre, r, post, data, hrs, -, hget, hne, heq⟩ | ⟨-, heq⟩ | ⟨pre, r, post, err, -, -, -, heq⟩
    · rw [heq] at hres ⊢
      simp only [Except.ok.injEq] at hres
      subst hres
      have hr : r ∈ radii := by rw [hrs]; simp
      have hle := survivors_within (mem_rankCenters hc)
      exact ⟨⟨⟨type.amenity, boundingBox loc.latitude loc.longitude, r⟩, by simp, hr, hle⟩,
        radius_km_le_twenty hr hle⟩
    · rw [heq] at hres
      simp only [Except.ok.injEq] at hres
      subst hres
      exact absurd hc (List.not_mem_nil _)
    · rw [heq] at hres
      cases hres
  refine ⟨hcat, ?_⟩
  intro final hfinal c hc
  rcases fetchSpecificCenters_cases env loc with ⟨h, p, f, hh, hp, hf, heq⟩ | ⟨err, -, heq⟩ |
    ⟨h, err, -, -, heq⟩ | ⟨h, p, err, -, -, -, heq⟩
  · rw [heq] at hfinal
    simp only [Option.some.injEq] at hfinal
    subst hfinal
    have hmem := (sortByDistance_perm _).mem_iff.mp hc
    simp only [List.mem_append] at hmem
    rcases hmem with (hm | hm) | hm
    · exact (hcat _ h hh c hm).2
    · exact (hcat _ p hp c hm).2
    · exact (hcat _ f hf c hm).2
  all_goals rw [heq] at hfinal; cases hfinal

end Pehlahath

namespace Pehlahath

/-- Witness for C12: of the three hospitals at distances 2, 4 and 9 the search at
the 5 km radius keeps those at 2 and 4, in that order. -/
theorem category_top_two_witness :
    categoryResult sampleSearch origin ⟨"hospital", "Hospital"⟩
      = .ok [nearHospital, midHospital] ∧
    ([nearHospital, midHospital] = [] ∨
      ∃ radius ∈ radii, ∃ data,
        sampleSearch.get ⟨"hospital", boundingBox origin.latitude origin.longitude, radius⟩
          = .ok data ∧
        survivors sampleSearch origin.latitude origin.longitude ⟨"hospital", "Hospital"⟩ radius
          data ≠ [] ∧
        [nearHospital, midHospital]
          = rankCenters sampleSearch origin.latitude origin.longitude ⟨"hospital", "Hospital"⟩
              radius data) :=
  ⟨sample_hospitals.1,
   (category_top_two sampleSearch origin ⟨"hospital", "Hospital"⟩).2 _ sample_hospitals.1⟩

theorem far_distance :
    distanceTo farOnlySearch (.fin 0) (.fin 0) ⟨"Far Hospital", "3", "0"⟩ = .fin 9 := by
  simp only [distanceTo, farOnlySearch, sampleParseFloat_digit "3" 3 (by decide),
    sampleParseFloat_digit "0" 0 (by decide), sample_distance]
  norm_num

theorem far_nothing_at_five (type : CenterType) :
    nothingWithin farOnlySearch origin.latitude origin.longitude
      (boundingBox origin.latitude origin.longitude) type ((5000 : ℕ) : JsNum) := by
  refine ⟨[⟨"Far Hospital", "3", "0"⟩], rfl, ?_⟩
  show survivors farOnlySearch (.fin 0) (.fin 0) type ((5000 : ℕ) : JsNum) _ = []
  simp only [survivors, List.filter, far_distance, JsNum.natCast_eq, JsNum.fin_div_fin, JsNum.le]
  norm_num

theorem far_survives_at_ten :
    survivors farOnlySearch origin.latitude origin.longitude ⟨"hospital", "Hospital"⟩
      ((10000 : ℕ) : JsNum) [⟨"Far Hospital", "3", "0"⟩] = [farHospital] := by
  show survivors farOnlySearch (.fin 0) (.fin 0) _ ((10000 : ℕ) : JsNum) _ = _
  simp only [survivors, List.filter, far_distance, JsNum.natCast_eq, JsNum.fin_div_fin, JsNum.le,
    farHospital]
  norm_num
  exact far_distance

theorem far_rank :
    rankCenters farOnlySearch origin.latitude origin.longitude ⟨"hospital", "Hospital"⟩
      ((10000 : ℕ) : JsNum) [⟨"Far Hospital", "3", "0"⟩] = [farHospital] := by
  rw [rankCenters, far_survives_at_ten]
  rfl

/-- Witness for C13: the only hospital is 9 km away, so the request for 5 km
finds nothing, the request for 10 km gives the result and no further request
goes out; for police stations in the sample search nothing is found and four
requests go out. -/
theorem category_radius_escalation_witness :
    categoryResult farOnlySearch origin ⟨"hospital", "Hospital"⟩ = .ok [farHospital] ∧
    categoryQueries farOnlySearch origin ⟨"hospital", "Hospital"⟩
      = [⟨"hospital", boundingBox origin.latitude origin.longitude, ((5000 : ℕ) : JsNum)⟩,
         ⟨"hospital", boundingBox origin.latitude origin.longitude, ((10000 : ℕ) : JsNum)⟩] ∧
    (categoryQueries sampleSearch origin ⟨"police", "Police Station"⟩).length = 4 ∧
    categoryResult sampleSearch origin ⟨"police", "Police Station"⟩ = .ok [] :=
  have hfar := (category_radius_escalation farOnlySearch origin ⟨"hospital", "Hospital"⟩).2.2.2.2
    [((5000 : ℕ) : JsNum)] ((10000 : ℕ) : JsNum) [((15000 : ℕ) : JsNum), ((20000 : ℕ) : JsNum)]
    [⟨"Far Hospital", "3", "0"⟩] rfl
    (fun r' hr' => by
      rw [List.mem_singleton] at hr'
      rw [hr']
      exact far_nothing_at_five _)
    rfl (by rw [far_survives_at_ten]; exact List.cons_ne_nil _ _)
  have h := (category_radius_escalation sampleSearch origin ⟨"police", "Police Station"⟩).2.2.2.1
    (fun r _ => sample_nothing _ (by decide) r)
  ⟨by rw [hfar.1, far_rank], hfar.2.2, h.2.1, h.2.2⟩

/-- Witness for C15: the nearest hospital is within 20 km. -/
theorem category_within_radius_witness :
    categoryResult sampleSearch origin ⟨"hospital", "Hospital"⟩
      = .ok [nearHospital, midHospital] ∧
    JsNum.le nearHospital.distance ((20 : ℕ) : JsNum) = true :=
  ⟨sample_hospitals.1,
   ((category_within_radius sampleSearch origin).1 ⟨"hospital", "Hospital"⟩ _
      sample_hospitals.1 nearHospital (List.mem_cons_self _ _)).2⟩

/-! ## The merged list -/

theorem countP_label_le {l : List Center} {name : String} (label : String)
    (htype : ∀ c ∈ l, c.type = name) (hlen : l.length ≤ 2) :
    l.countP (fun c => c.type == label) ≤ if name = label then 2 else 0 := by
  split
  · exact le_trans (List.countP_le_length _) hlen
  · rename_i hne
    rw [Nat.le_zero, List.countP_eq_zero]
    intro c hc
    simp [htype c hc, hne]

/-- Claim C16: the list passed to `setCenters` is a permutation of the results of
the three categories put one after the other, in ascending order of distance;
for every label it holds at most two entries of that label, and at most six
entries in all. -/
theorem merged_centers (env : SearchEnv) (loc : Location) (final : List Center)
    (hfinal : (fetchSpecificCenters env (some loc)).centers = some final) :
    ∃ h p f,
      categoryResult env loc ⟨"hospital", "Hospital"⟩ = .ok h ∧
      categoryResult env loc ⟨"police", "Police Station"⟩ = .ok p ∧
      categoryResult env loc ⟨"fire_station", "Fire Station"⟩ = .ok f ∧
      final = sortByDistance (h ++ p ++ f) ∧
      final.Perm (h ++ p ++ f) ∧
      final.Pairwise (fun a b => JsNum.le a.distance b.distance = true) ∧
      (∀ label : String, final.countP (fun c => c.type == label) ≤ 2) ∧
      final.length ≤ 6 := by
  rcases fetchSpecificCenters_cases env loc with ⟨h, p, f, hh, hp, hf, heq⟩ | ⟨err, -, heq⟩ |
    ⟨h, err, -, -, heq⟩ | ⟨h, p, err, -, -, -, heq⟩
  · rw [heq] at hfinal
    simp only [Option.some.injEq] at hfinal
    subst hfinal
    obtain ⟨hlh, -, hmh⟩ := categoryResult_mem env loc _ h hh
    obtain ⟨hlp, -, hmp⟩ := categoryResult_mem env loc _ p hp
    obtain ⟨hlf, -, hmf⟩ := categoryResult_mem env loc _ f hf
    have hperm := sortByDistance_perm (h ++ p ++ f)
    refine ⟨h, p, f, hh, hp, hf, rfl, hperm, ?_, ?_, ?_⟩
    · apply sortByDistance_sorted
      intro c hc
      simp only [List.mem_append] at hc
      rcases hc with (hc | hc) | hc
      · exact (hmh c hc).2.2
      · exact (hmp c hc).2.2
      · exact (hmf c hc).2.2
    · intro label
      rw [hperm.countP_eq, List.countP_append, List.countP_append]
      have h1 := countP_label_le label (fun c hc => (hmh c hc).1) hlh
      have h2 := countP_label_le label (fun c hc => (hmp c hc).1) hlp
      have h3 := countP_label_le label (fun c hc => (hmf c hc).1) hlf
      simp only at h1 h2 h3
      by_cases e1 : "Hospital" = label
      · subst e1
        rw [if_neg (by decide)] at h2 h3
        rw [if_pos rfl] at h1
        omega
      · rw [if_neg e1] at h1
        by_cases e2 : "Police Station" = label
        · subst e2
          rw [if_neg (by decide)] at h3
          rw [if_pos rfl] at h2
          omega
        · rw [if_neg e2] at h2
          split at h3 <;> omega
    · rw [hperm.length_eq]
      simp only [List.length_append]
      omega
  all_goals rw [heq] at hfinal; cases hfinal

/-- Witness for C16: in the sample search the merged list is the two hospitals. -/
theorem merged_centers_witness :
    (fetchSpecificCenters sampleSearch (some origin)).centers
      = some [nearHospital, midHospital] ∧
    ∃ h p f,
      categoryResult sampleSearch origin ⟨"hospital", "Hospital"⟩ = .ok h ∧
      categoryResult sampleSearch origin ⟨"police", "Police Station"⟩ = .ok p ∧
      categoryResult sampleSearch origin ⟨"fire_station", "Fire Station"⟩ = .ok f ∧
      [nearHospital, midHospital] = sortByDistance (h ++ p ++ f) ∧
      [nearHospital, midHospital].Perm (h ++ p ++ f) ∧
      [nearHospital, midHospital].Pairwise
        (fun a b => JsNum.le a.distance b.distance = true) ∧
      (∀ label : String,
        [nearHospital, midHospital].countP (fun c => c.type == label) ≤ 2) ∧
      [nearHospital, midHospital].length ≤ 6 :=
  ⟨sample_fetch_centers, merged_centers sampleSearch origin _ sample_fetch_centers⟩

/-- Counterexample to C17 as stated: the two clinics are equally far, so Clinic B
is no farther than Clinic A, yet Clinic B comes after Clinic A in the result. -/
theorem equal_distances_keep_provider_order :
    categoryResult twinSearch origin ⟨"hospital", "Hospital"⟩ = .ok [clinicA, clinicB] ∧
    [clinicA, clinicB][1]? = some clinicB ∧
    [clinicA, clinicB][0]? = some clinicA ∧
    JsNum.le clinicB.distance clinicA.distance = true ∧
    ¬ (1 ≤ 0) ∧
    ¬ (∀ (centers : List Center) (i j : ℕ) (a b : Center),
        categoryResult twinSearch origin ⟨"hospital", "Hospital"⟩ = .ok centers →
        centers[i]? = some a → centers[j]? = some b →
        JsNum.le a.distance b.distance = true → i ≤ j) := by
  have hle : JsNum.le clinicB.distance clinicA.distance = true := by
    simp [clinicA, clinicB, JsNum.le]
  refine ⟨twin_hospitals, rfl, rfl, hle, by decide, ?_⟩
  intro h
  exact absurd (h [clinicA, clinicB] 1 0 clinicB clinicA twin_hospitals rfl rfl hle) (by decide)

theorem orderedInsert_filter_distance (a : Center) (l : List Center) (d : JsNum) :
    (l.orderedInsert byDistance a).filter (fun c => decide (c.distance = d))
      = (a :: l).filter (fun c => decide (c.distance = d)) := by
  induction l with
  | nil => rfl
  | cons b l ih =>
    by_cases hab : byDistance a b
    · rw [List.orderedInsert, if_pos hab]
    · rw [List.orderedInsert, if_neg hab]
      have hne : a.distance ≠ b.distance := by
        intro heq
        apply hab
        unfold byDistance
        rw [heq]
        cases b.distance <;> simp [JsNum.isPos, JsNum.fin_sub_fin]
      by_cases had : a.distance = d
      · have hbd : ¬ b.distance = d := fun h => hne (had.trans h.symm)
        simp only [List.filter_cons, hbd, had, decide_True, decide_False, if_true] at ih ⊢
        simpa using ih
      · simp only [List.filter_cons, had, decide_False] at ih ⊢
        simp [ih]

/-- The sort is stable: the centers at one distance stay in the order they had. -/
theorem sortByDistance_stable (l : List Center) (d : JsNum) :
    (sortByDistance l).filter (fun c => decide (c.distance = d))
      = l.filter (fun c => decide (c.distance = d)) := by
  induction l with
  | nil => rfl
  | cons a l ih =>
    show ((l.insertionSort byDistance).orderedInsert byDistance a).filter _ = _
    rw [orderedInsert_filter_distance]
    simp only [List.filter_cons]
    rw [show l.insertionSort byDistance = sortByDistance l from rfl, ih]

/-- Claim C17, amended: in a category's result a center that comes no later than
another one is no farther than it, and a center that is strictly nearer than
another one comes strictly before it; centers at equal distance keep the order
in which the provider returned them: the result is the start of the sorted list
of the candidates that survive the filter at the radius of the result, and at
every distance the sorted list holds the survivors of that distance in the
order of the provider's answer. -/
theorem category_sorted_by_distance (env : SearchEnv) (loc : Location) (type : CenterType)
    (centers : List Center) (hres : categoryResult env loc type = .ok centers) :
    centers.Pairwise (fun a b => JsNum.le a.distance b.distance = true) ∧
    (∀ (i j : ℕ) (a b : Center), centers[i]? = some a → centers[j]? = some b → i ≤ j →
      JsNum.le a.distance b.distance = true) ∧
    (∀ (i j : ℕ) (a b : Center), centers[i]? = some a → centers[j]? = some b →
      JsNum.le a.distance b.distance = true → JsNum.le b.distance a.distance = false →
      i < j) ∧
    (∃ r data, r ∈ radii ∧
      env.get ⟨type.amenity, boundingBox loc.latitude loc.longitude, r⟩ = .ok data ∧
      centers = (sortByDistance (survivors env loc.latitude loc.longitude type r data)).take 2 ∧
      survivors env loc.latitude loc.longitude type r data
        = (data.filter (fun place =>
            JsNum.le (distanceTo env loc.latitude loc.longitude place)
              (r / ((1000 : ℕ) : JsNum)))).map
          (fun place => ⟨place.display_name, place.lat, place.lon, type.name,
            distanceTo env loc.latitude loc.longitude place⟩) ∧
      ∀ d : JsNum,
        (sortByDistance (survivors env loc.latitude loc.longitude type r data)).filter
            (fun c => decide (c.distance = d))
          = (survivors env loc.latitude loc.longitude type r data).filter
              (fun c => decide (c.distance = d)) ∧
        centers.filter (fun c => decide (c.distance = d))
          <+: (survivors env loc.latitude loc.longitude type r data).filter
              (fun c => decide (c.distance = d))) := by
  have hstable : ∃ r data, r ∈ radii ∧
      env.get ⟨type.amenity, boundingBox loc.latitude loc.longitude, r⟩ = .ok data ∧
      centers = (sortByDistance (survivors env loc.latitude loc.longitude type r data)).take 2 ∧
      survivors env loc.latitude loc.longitude type r data
        = (data.filter (fun place =>
            JsNum.le (distanceTo env loc.latitude loc.longitude place)
              (r / ((1000 : ℕ) : JsNum)))).map
          (fun place => ⟨place.display_name, place.lat, place.lon, type.name,
            distanceTo env loc.latitude loc.longitude place⟩) ∧
      ∀ d : JsNum,
        (sortByDistance (survivors env loc.latitude loc.longitude type r data)).filter
            (fun c => decide (c.distance = d))
          = (survivors env loc.latitude loc.longitude type r data).filter
              (fun c => decide (c.distance = d)) ∧
        centers.filter (fun c => decide (c.distance = d))
          <+: (survivors env loc.latitude loc.longitude type r data).filter
              (fun c => decide (c.distance = d)) := by
    have hkey : ∀ r data,
        centers = rankCenters env loc.latitude loc.longitude type r data →
        ∀ d : JsNum,
          (sortByDistance (survivors env loc.latitude loc.longitude type r data)).filter
              (fun c => decide (c.distance = d))
            = (survivors env loc.latitude loc.longitude type r data).filter
                (fun c => decide (c.distance = d)) ∧
          centers.filter (fun c => decide (c.distance = d))
            <+: (survivors env loc.latitude loc.longitude type r data).filter
                (fun c => decide (c.distance = d)) := by
      intro r data hc d
      refine ⟨sortByDistance_stable _ d, ?_⟩
      have htake := List.take_prefix 2
        (sortByDistance (survivors env loc.latitude loc.longitude type r data))
      have hfilter := List.IsPrefix.filter (fun c : Center => decide (c.distance = d)) htake
      rw [sortByDistance_stable] at hfilter
      rw [hc, rankCenters]
      exact hfilter
    unfold categoryResult at hres
    rcases searchRadii_cases env loc.latitude loc.longitude
        (boundingBox loc.latitude loc.longitude) type radii with
      ⟨pre, r, post, data, hrs, -, hget, -, heq⟩ | ⟨hall, heq⟩ | ⟨pre, r, post, err, -, -, -, heq⟩
    · rw [heq] at hres
      simp only [Except.ok.injEq] at hres
      exact ⟨r, data, by rw [hrs]; simp, hget, hres.symm, rfl, hkey r data hres.symm⟩
    · rw [heq] at hres
      simp only [Except.ok.injEq] at hres
      have hr : ((20000 : ℕ) : JsNum) ∈ radii := by simp [radii]
      obtain ⟨data, hget, hnone⟩ := hall _ hr
      have hc : centers = rankCenters env loc.latitude loc.longitude type
          ((20000 : ℕ) : JsNum) data := by
        rw [rankCenters_eq_nil_iff.mpr hnone, ← hres]
      exact ⟨_, data, hr, hget, hc, rfl, hkey _ data hc⟩
    · rw [heq] at hres
      cases hres
  have hres' := hres
  obtain ⟨-, hsorted, hmem⟩ := categoryResult_mem env loc type centers hres
  have hle : ∀ (i j : ℕ) (a b : Center), centers[i]? = some a → centers[j]? = some b → i ≤ j →
      JsNum.le a.distance b.distance = true := by
    intro i j a b hi hj hij
    rcases Nat.lt_or_eq_of_le hij with hlt | heq
    · obtain ⟨hi', rfl⟩ := List.getElem?_eq_some.mp hi
      obtain ⟨hj', rfl⟩ := List.getElem?_eq_some.mp hj
      exact (List.pairwise_iff_getElem.mp hsorted) i j hi' hj' hlt
    · subst heq
      rw [hi] at hj
      simp only [Option.some.injEq] at hj
      subst hj
      obtain ⟨x, hx⟩ := (hmem a (List.getElem?_mem hi)).2.2
      rw [hx]
      simp [JsNum.le]
  refine ⟨hsorted, hle, ?_, hstable⟩
  intro i j a b hi hj _ hba
  by_contra hnot
  have := hle j i b a hj hi (Nat.le_of_not_lt hnot)
  rw [this] at hba
  cases hba

/-- Witness for the amended C17: the nearer hospital comes before the farther,
and the two clinics, which are equally far, come in the order of the provider's
answer `twinClinics`. -/
theorem category_sorted_by_distance_witness :
    categoryResult sampleSearch origin ⟨"hospital", "Hospital"⟩
      = .ok [nearHospital, midHospital] ∧
    [nearHospital, midHospital].Pairwise (fun a b => JsNum.le a.distance b.distance = true) ∧
    JsNum.le nearHospital.distance midHospital.distance = true ∧
    categoryResult twinSearch origin ⟨"hospital", "Hospital"⟩ = .ok [clinicA, clinicB] ∧
    twinClinics.map (fun place => place.display_name)
      = [clinicA, clinicB].map (fun c => c.display_name) ∧
    (∃ r data, r ∈ radii ∧
      twinSearch.get ⟨"hospital", boundingBox origin.latitude origin.longitude, r⟩ = .ok data ∧
      [clinicA, clinicB]
        = (sortByDistance (survivors twinSearch origin.latitude origin.longitude
            ⟨"hospital", "Hospital"⟩ r data)).take 2 ∧
      survivors twinSearch origin.latitude origin.longitude ⟨"hospital", "Hospital"⟩ r data
        = (data.filter (fun place =>
            JsNum.le (distanceTo twinSearch origin.latitude origin.longitude place)
              (r / ((1000 : ℕ) : JsNum)))).map
          (fun place => ⟨place.display_name, place.lat, place.lon, "Hospital",
            distanceTo twinSearch origin.latitude origin.longitude place⟩) ∧
      ∀ d : JsNum,
        (sortByDistance (survivors twinSearch origin.latitude origin.longitude
            ⟨"hospital", "Hospital"⟩ r data)).filter (fun c => decide (c.distance = d))
          = (survivors twinSearch origin.latitude origin.longitude
              ⟨"hospital", "Hospital"⟩ r data).filter (fun c => decide (c.distance = d)) ∧
        [clinicA, clinicB].filter (fun c => decide (c.distance = d))
          <+: (survivors twinSearch origin.latitude origin.longitude
              ⟨"hospital", "Hospital"⟩ r data).filter (fun c => decide (c.distance = d))) :=
  have h := category_sorted_by_distance sampleSearch origin ⟨"hospital", "Hospital"⟩ _
    sample_hospitals.1
  ⟨sample_hospitals.1, h.1, h.2.1 0 1 nearHospital midHospital rfl rfl (by decide),
   twin_hospitals, rfl,
   (category_sorted_by_distance twinSearch origin ⟨"hospital", "Hospital"⟩ _
     twin_hospitals).2.2.2⟩

end Pehlahath

namespace Pehlahath

/-! ## Failures and empty categories -/

theorem getLast?_append_of_some {α : Type} (l₁ l₂ : List α) {a : α}
    (h : l₂.getLast? = some a) : (l₁ ++ l₂).getLast? = some a := by
  rw [List.getLast?_append, h]
  rfl

theorem mem_types {type : CenterType} (h : type ∈ types) :
    type = ⟨"hospital", "Hospital"⟩ ∨ type = ⟨"police", "Police Station"⟩ ∨
    type = ⟨"fire_station", "Fire Station"⟩ := by
  simpa [types] using h

/-- Counterexample to C14 as stated: the police requests fail while the hospital
category has ranked results, yet `setCenters` is not called at all, `setError`
is called, and no fire station request is issued. -/
theorem provider_failure_is_not_category_scoped :
    categoryResult policeDown origin ⟨"hospital", "Hospital"⟩
      = .ok [nearHospital, midHospital] ∧
    categoryResult policeDown origin ⟨"police", "Police Station"⟩
      = .error ⟨"Network Error"⟩ ∧
    (fetchSpecificCenters policeDown (some origin)).centers = none ∧
    (fetchSpecificCenters policeDown (some origin)).error
      = some "Failed to fetch nearby emergency centers." ∧
    (fetchSpecificCenters policeDown (some origin)).queries = [hospitalQuery, policeQuery] ∧
    (∀ q ∈ (fetchSpecificCenters policeDown (some origin)).queries,
      q.amenity ≠ "fire_station") := by
  refine ⟨policeDown_hospitals.1, policeDown_police.1, ?_, ?_, ?_, ?_⟩
  · rw [policeDown_fetch]
  · rw [policeDown_fetch]
  · rw [policeDown_fetch]
  · rw [policeDown_fetch]
    intro q hq
    simp only [List.mem_cons, List.mem_singleton, List.not_mem_nil, or_false] at hq
    rcases hq with rfl | rfl <;> decide

/-- Claim C14, amended: if the provider call fails for a category, the whole
search is given up: `setCenters` is not called, `setError` is called with
'Failed to fetch nearby emergency centers.', `setLoading(false)` is called, and
the failing request is the last request issued. -/
theorem provider_failure_aborts (env : SearchEnv) (loc : Location) (type : CenterType)
    (htype : type ∈ types) (err : JsError)
    (hfail : categoryResult env loc type = .error err) :
    (fetchSpecificCenters env (some loc)).centers = none ∧
    (fetchSpecificCenters env (some loc)).error
      = some "Failed to fetch nearby emergency centers." ∧
    (fetchSpecificCenters env (some loc)).loading = some false ∧
    ∃ q, (fetchSpecificCenters env (some loc)).queries.getLast? = some q ∧
      threw (env.get q) = true := by
  rcases fetchSpecificCenters_cases env loc with ⟨h, p, f, hh, hp, hf, -⟩ | ⟨e, hh, heq⟩ |
    ⟨h, e, -, hp, heq⟩ | ⟨h, p, e, -, -, hf, heq⟩
  · rcases mem_types htype with rfl | rfl | rfl
    · rw [hh] at hfail; cases hfail
    · rw [hp] at hfail; cases hfail
    · rw [hf] at hfail; cases hfail
  · obtain ⟨q, hq, hget⟩ := categoryResult_error_last env loc _ e hh
    rw [heq]
    exact ⟨rfl, rfl, rfl, q, hq, by rw [hget]; rfl⟩
  · obtain ⟨q, hq, hget⟩ := categoryResult_error_last env loc _ e hp
    rw [heq]
    exact ⟨rfl, rfl, rfl, q, getLast?_append_of_some _ _ hq, by rw [hget]; rfl⟩
  · obtain ⟨q, hq, hget⟩ := categoryResult_error_last env loc _ e hf
    rw [heq]
    exact ⟨rfl, rfl, rfl, q,
      getLast?_append_of_some _ _ (getLast?_append_of_some _ _ hq), by rw [hget]; rfl⟩

/-- Witness for the amended C14: the failing police request ends the search. -/
theorem provider_failure_aborts_witness :
    categoryResult policeDown origin ⟨"police", "Police Station"⟩
      = .error ⟨"Network Error"⟩ ∧
    (fetchSpecificCenters policeDown (some origin)).centers = none ∧
    (fetchSpecificCenters policeDown (some origin)).error
      = some "Failed to fetch nearby emergency centers." ∧
    (fetchSpecificCenters policeDown (some origin)).loading = some false ∧
    ∃ q, (fetchSpecificCenters policeDown (some origin)).queries.getLast? = some q ∧
      threw (policeDown.get q) = true :=
  ⟨policeDown_police.1,
   provider_failure_aborts policeDown origin ⟨"police", "Police Station"⟩ (by decide)
     ⟨"Network Error"⟩ policeDown_police.1⟩

/-- Claim C18: if for a category nothing survives the filter at any of the four
radii, and the requests of the other categories are answered, then the category
contributes the empty list after its four requests, `setError` is not called,
and `setCenters` is called with the sorted merge of the three results, which
holds no entry with the label of that category. -/
theorem empty_category_is_no_error (env : SearchEnv) (loc : Location) (type : CenterType)
    (htype : type ∈ types)
    (hnone : ∀ r ∈ radii,
      nothingWithin env loc.latitude loc.longitude (boundingBox loc.latitude loc.longitude)
        type r)
    (hothers : ∀ t ∈ types, t ≠ type → ∃ centers, categoryResult env loc t = .ok centers) :
    categoryResult env loc type = .ok [] ∧
    (categoryQueries env loc type).length = 4 ∧
    (fetchSpecificCenters env (some loc)).error = none ∧
    ∃ h p f,
      categoryResult env loc ⟨"hospital", "Hospital"⟩ = .ok h ∧
      categoryResult env loc ⟨"police", "Police Station"⟩ = .ok p ∧
      categoryResult env loc ⟨"fire_station", "Fire Station"⟩ = .ok f ∧
      (fetchSpecificCenters env (some loc)).centers = some (sortByDistance (h ++ p ++ f)) ∧
      ∀ c ∈ sortByDistance (h ++ p ++ f), c.type ≠ type.name := by
  obtain ⟨hempty, hqueries⟩ := categoryResult_all_empty env loc type hnone
  have hall : ∀ t ∈ types, ∃ centers, categoryResult env loc t = .ok centers := by
    intro t ht
    by_cases e : t = type
    · rw [e]; exact ⟨[], hempty⟩
    · exact hothers t ht e
  obtain ⟨h, hh⟩ := hall ⟨"hospital", "Hospital"⟩ (by decide)
  obtain ⟨p, hp⟩ := hall ⟨"police", "Police Station"⟩ (by decide)
  obtain ⟨f, hf⟩ := hall ⟨"fire_station", "Fire Station"⟩ (by decide)
  have hfetch := fetchSpecificCenters_of_results env loc h p f hh hp hf
  refine ⟨hempty, by rw [hqueries]; simp [radii], by rw [hfetch], h, p, f, hh, hp, hf,
    by rw [hfetch], ?_⟩
  intro c hc
  have hmem := (sortByDistance_perm _).mem_iff.mp hc
  simp only [List.mem_append] at hmem
  have hth := fun c hc => ((categoryResult_mem env loc _ h hh).2.2 c hc).1
  have htp := fun c hc => ((categoryResult_mem env loc _ p hp).2.2 c hc).1
  have htf := fun c hc => ((categoryResult_mem env loc _ f hf).2.2 c hc).1
  rcases mem_types htype with rfl | rfl | rfl
  · rw [hh] at hempty
    simp only [Except.ok.injEq] at hempty
    subst hempty
    rcases hmem with (hm | hm) | hm
    · exact absurd hm (List.not_mem_nil _)
    · rw [htp c hm]; decide
    · rw [htf c hm]; decide
  · rw [hp] at hempty
    simp only [Except.ok.injEq] at hempty
    subst hempty
    rcases hmem with (hm | hm) | hm
    · rw [hth c hm]; decide
    · exact absurd hm (List.not_mem_nil _)
    · rw [htf c hm]; decide
  · rw [hf] at hempty
    simp only [Except.ok.injEq] at hempty
    subst hempty
    rcases hmem with (hm | hm) | hm
    · rw [hth c hm]; decide
    · rw [htp c hm]; decide
    · exact absurd hm (List.not_mem_nil _)

/-- Witness for C18: in the sample search no police station is found; the two
hospitals are still delivered and no error is reported. -/
theorem empty_category_is_no_error_witness :
    categoryResult sampleSearch origin ⟨"police", "Police Station"⟩ = .ok [] ∧
    (categoryQueries sampleSearch origin ⟨"police", "Police Station"⟩).length = 4 ∧
    (fetchSpecificCenters sampleSearch (some origin)).error = none ∧
    (fetchSpecificCenters sampleSearch (some origin)).centers
      = some [nearHospital, midHospital] :=
  have h := empty_category_is_no_error sampleSearch origin ⟨"police", "Police Station"⟩
    (by decide) (fun r _ => sample_nothing _ (by decide) r)
    (by
      intro t ht _
      rcases mem_types ht with rfl | rfl | rfl
      · exact ⟨_, sample_hospitals.1⟩
      · exact ⟨_, sample_police⟩
      · exact ⟨_, sample_fire⟩)
  ⟨h.1, h.2.1, h.2.2.1, sample_fetch_centers⟩

/-! ## One origin, one distance -/

/-- Claim C19: every request carries the bounding box of half-width 0.03 around
the location; every center of a category's result carries the category's label
and, as `distance`, the value of `calculateDistance` from the location to its
parsed coordinates, which is the value that passed the filter of the last
radius requested; the same holds for every center passed to `setCenters`, and
both the category lists and the final list are in ascending order of that
value. -/
theorem distance_from_single_origin (env : SearchEnv) (loc : Location) :
    (∀ q ∈ (fetchSpecificCenters env (some loc)).queries,
      q.viewbox = ⟨loc.longitude - .fin (3 / 100), loc.latitude - .fin (3 / 100),
                   loc.longitude + .fin (3 / 100), loc.latitude + .fin (3 / 100)⟩) ∧
    (∀ (type : CenterType) (centers : List Center),
      categoryResult env loc type = .ok centers →
      (∀ c ∈ centers,
        c.type = type.name ∧
        c.distance = calculateDistance env.Math loc.latitude loc.longitude
          (env.parseFloat c.lat) (env.parseFloat c.lon) ∧
        ∃ q, (categoryQueries env loc type).getLast? = some q ∧
          JsNum.le
            (calculateDistance env.Math loc.latitude loc.longitude (env.parseFloat c.lat)
              (env.parseFloat c.lon))
            (q.radius / ((1000 : ℕ) : JsNum)) = true) ∧
      centers.Pairwise (fun a b =>
        JsNum.le
          (calculateDistance env.Math loc.latitude loc.longitude (env.parseFloat a.lat)
            (env.parseFloat a.lon))
          (calculateDistance env.Math loc.latitude loc.longitude (env.parseFloat b.lat)
            (env.parseFloat b.lon)) = true)) ∧
    (∀ final, (fetchSpecificCenters env (some loc)).centers = some final →
      (∀ c ∈ final,
        c.type ∈ types.map (fun t => t.name) ∧
        c.distance = calculateDistance env.Math loc.latitude loc.longitude
          (env.parseFloat c.lat) (env.parseFloat c.lon)) ∧
      final.Pairwise (fun a b =>
        JsNum.le
          (calculateDistance env.Math loc.latitude loc.longitude (env.parseFloat a.lat)
            (env.parseFloat a.lon))
          (calculateDistance env.Math loc.latitude loc.longitude (env.parseFloat b.lat)
            (env.parseFloat b.lon)) = true)) := by
  have hcat : ∀ (type : CenterType) (centers : List Center),
      categoryResult env loc type = .ok centers →
      ∀ c ∈ centers,
        c.type = type.name ∧
        c.distance = calculateDistance env.Math loc.latitude loc.longitude
          (env.parseFloat c.lat) (env.parseFloat c.lon) :=
    fun type centers hres c hc =>
      ⟨((categoryResult_mem env loc type centers hres).2.2 c hc).1,
       ((categoryResult_mem env loc type centers hres).2.2 c hc).2.1⟩
  refine ⟨?_, ?_, ?_⟩
  · intro q hq
    have hbox : ∀ t, q ∈ categoryQueries env loc t →
        q.viewbox = boundingBox loc.latitude loc.longitude :=
      fun t h => (categoryQueries_mem env loc t q h).2.1
    have : q.viewbox = boundingBox loc.latitude loc.longitude := by
      rcases fetchSpecificCenters_cases env loc with ⟨h, p, f, -, -, -, heq⟩ | ⟨err, -, heq⟩ |
        ⟨h, err, -, -, heq⟩ | ⟨h, p, err, -, -, -, heq⟩
      · rw [heq] at hq
        simp only [List.mem_append] at hq
        rcases hq with hq | hq | hq <;> exact hbox _ hq
      · rw [heq] at hq
        exact hbox _ hq
      · rw [heq] at hq
        simp only [List.mem_append] at hq
        rcases hq with hq | hq <;> exact hbox _ hq
      · rw [heq] at hq
        simp only [List.mem_append] at hq
        rcases hq with hq | hq | hq <;> exact hbox _ hq
    rw [this]
    rfl
  · intro type centers hres
    have hres' := hres
    unfold categoryResult at hres'
    refine ⟨?_, ?_⟩
    · intro c hc
      obtain ⟨ht, hd⟩ := hcat type centers hres c hc
      refine ⟨ht, hd, ?_⟩
      rw [← hd]
      unfold categoryQueries
      rcases searchRadii_cases env loc.latitude loc.longitude
          (boundingBox loc.latitude loc.longitude) type radii with
        ⟨pre, r, post, data, -, -, -, -, heq⟩ | ⟨-, heq⟩ | ⟨pre, r, post, err, -, -, -, heq⟩
      · rw [heq] at hres' ⊢
        simp only [Except.ok.injEq] at hres'
        subst hres'
        exact ⟨⟨type.amenity, boundingBox loc.latitude loc.longitude, r⟩, by simp,
          survivors_within (mem_rankCenters hc)⟩
      · rw [heq] at hres'
        simp only [Except.ok.injEq] at hres'
        subst hres'
        exact absurd hc (List.not_mem_nil _)
      · rw [heq] at hres'
        cases hres'
    · refine List.Pairwise.imp_of_mem ?_ (categoryResult_mem env loc type centers hres).2.1
      intro a b ha hb hab
      rw [← (hcat type centers hres a ha).2, ← (hcat type centers hres b hb).2]
      exact hab
  · intro final hfinal
    rcases fetchSpecificCenters_cases env loc with ⟨h, p, f, hh, hp, hf, heq⟩ | ⟨err, -, heq⟩ |
      ⟨h, err, -, -, heq⟩ | ⟨h, p, err, -, -, -, heq⟩
    · rw [heq] at hfinal
      simp only [Option.some.injEq] at hfinal
      subst hfinal
      have hmem : ∀ c ∈ sortByDistance (h ++ p ++ f),
          c.type ∈ types.map (fun t => t.name) ∧
          c.distance = calculateDistance env.Math loc.latitude loc.longitude
            (env.parseFloat c.lat) (env.parseFloat c.lon) ∧
          ∃ x, c.distance = .fin x := by
        intro c hc
        have hm := (sortByDistance_perm _).mem_iff.mp hc
        simp only [List.mem_append] at hm
        rcases hm with (hm | hm) | hm
        · have := (categoryResult_mem env loc _ h hh).2.2 c hm
          exact ⟨by rw [this.1]; decide, this.2⟩
        · have := (categoryResult_mem env loc _ p hp).2.2 c hm
          exact ⟨by rw [this.1]; decide, this.2⟩
        · have := (categoryResult_mem env loc _ f hf).2.2 c hm
          exact ⟨by rw [this.1]; decide, this.2⟩
      refine ⟨fun c hc => ⟨(hmem c hc).1, (hmem c hc).2.1⟩, ?_⟩
      have hsorted := sortByDistance_sorted (h ++ p ++ f) (fun c hc =>
        (hmem c ((sortByDistance_perm _).mem_iff.mpr hc)).2.2)
      refine List.Pairwise.imp_of_mem ?_ hsorted
      intro a b ha hb hab
      rw [← (hmem a ha).2.1, ← (hmem b hb).2.1]
      exact hab
    all_goals rw [heq] at hfinal; cases hfinal

/-- Witness for C19: the nearest hospital of the sample search. -/
theorem distance_from_single_origin_witness :
    categoryResult sampleSearch origin ⟨"hospital", "Hospital"⟩
      = .ok [nearHospital, midHospital] ∧
    nearHospital.type = "Hospital" ∧
    nearHospital.distance = calculateDistance sampleSearch.Math origin.latitude origin.longitude
      (sampleSearch.parseFloat nearHospital.lat) (sampleSearch.parseFloat nearHospital.lon) :=
  have h := ((distance_from_single_origin sampleSearch origin).2.1 ⟨"hospital", "Hospital"⟩ _
    sample_hospitals.1).1 nearHospital (List.mem_cons_self _ _)
  ⟨sample_hospitals.1, h.1, h.2.1⟩

end Pehlahath

namespace Pehlahath

/-! ## What a caught error does to the response -/

theorem loginUser_caught (env : Env) (db : Store) (body : LoginBody)
    (h : ∃ label err, Effect.consoleError label err ∈ (loginUser env db body).effects) :
    (loginUser env db body).response = serverError := by
  obtain ⟨label, err, h⟩ := h
  unfold loginUser at h ⊢
  split at h
  · simp at h
  · rename_i hvalid
    simp only [hvalid, if_false]
    split at h
    · rfl
    · simp at h
    · split at h
      · rfl
      · simp at h
      · dsimp only at h ⊢
        split at h
        · rfl
        · simp at h

theorem registerUser_caught (env : Env) (db : Store) (body : RegisterBody)
    (h : ∃ label err, Effect.consoleError label err ∈ (registerUser env db body).effects) :
    (registerUser env db body).response = serverError := by
  obtain ⟨label, err, h⟩ := h
  unfold registerUser at h ⊢
  split at h
  · simp at h
  · rename_i hvalid
    simp only [hvalid, if_false]
    split at h
    · simp at h
    · rename_i hrole
      simp only [hrole, if_false]
      split at h
      · rfl
      · simp at h
      · split at h
        · rfl
        · split at h
          · rfl
          · dsimp only at h ⊢
            split at h
            · rfl
            · simp at h

/-- Counterexample to C11 as stated: two runs of `getAllResources` that differ
only in the message of the error thrown by the query answer with different
bodies, each holding that message; the same holds for `getUserResourceRequests`,
and `createResourceRequest` and `updateResourceStatus` answer a thrown error
with status 400, not 500. -/
theorem resource_errors_reach_the_client :
    getAllResources (resourceDown "pool destroyed") [] = ⟨500, .message "pool destroyed"⟩ ∧
    getAllResources (resourceDown "ECONNREFUSED 10.0.0.5") []
      = ⟨500, .message "ECONNREFUSED 10.0.0.5"⟩ ∧
    getAllResources (resourceDown "pool destroyed") []
      ≠ getAllResources (resourceDown "ECONNREFUSED 10.0.0.5") [] ∧
    getUserResourceRequests (resourceDown "pool destroyed") [] "u1"
      ≠ getUserResourceRequests (resourceDown "ECONNREFUSED 10.0.0.5") [] "u1" ∧
    (createResourceRequest (resourceDown "pool destroyed") [] (.obj "[]")).2
      = ⟨400, .message "pool destroyed"⟩ ∧
    (updateResourceStatus (resourceDown "pool destroyed") [] "r1" (.str "fulfilled")).2
      = ⟨400, .message "pool destroyed"⟩ := by
  refine ⟨rfl, rfl, by decide, by decide, rfl, rfl⟩

/-- Claim C11, amended: whenever `loginUser` or `registerUser` catches an error,
the response is the fixed 500 `{error: 'Server error'}`, so two runs that catch
different errors send the same response; and when the database call of a
resource handler throws, `getAllResources` and `getUserResourceRequests` answer
with status 500, `createResourceRequest` and `updateResourceStatus` with status
400 and the collection unchanged. -/
theorem caught_errors :
    (∀ (env : Env) (db : Store) (body : LoginBody),
      (∃ label err, Effect.consoleError label err ∈ (loginUser env db body).effects) →
      (loginUser env db body).response = ⟨500, [("error", .str "Server error")]⟩) ∧
    (∀ (env : Env) (db : Store) (body : RegisterBody),
      (∃ label err, Effect.consoleError label err ∈ (registerUser env db body).effects) →
      (registerUser env db body).response = ⟨500, [("error", .str "Server error")]⟩) ∧
    (∀ (env₁ env₂ : Env) (db₁ db₂ : Store) (body₁ body₂ : LoginBody),
      (∃ label err, Effect.consoleError label err ∈ (loginUser env₁ db₁ body₁).effects) →
      (∃ label err, Effect.consoleError label err ∈ (loginUser env₂ db₂ body₂).effects) →
      (loginUser env₁ db₁ body₁).response = (loginUser env₂ db₂ body₂).response) ∧
    (∀ (env₁ env₂ : Env) (db₁ db₂ : Store) (body₁ body₂ : RegisterBody),
      (∃ label err, Effect.consoleError label err ∈ (registerUser env₁ db₁ body₁).effects) →
      (∃ label err, Effect.consoleError label err ∈ (registerUser env₂ db₂ body₂).effects) →
      (registerUser env₁ db₁ body₁).response = (registerUser env₂ db₂ body₂).response) ∧
    (∀ (env : ResourceEnv) (db : List Resource) (filter : Resource → Bool),
      threw (find env db filter) = true →
      (getAllResources env db).status = 500 ∧
      ∀ userId, (getUserResourceRequests env db userId).status = 500) ∧
    (∀ (env : ResourceEnv) (db : List Resource) (body : JsVal),
      threw (saveResource env db body) = true →
      (createResourceRequest env db body).2.status = 400 ∧
      (createResourceRequest env db body).1 = db) ∧
    (∀ (env : ResourceEnv) (db : List Resource) (id : String) (status : JsVal),
      threw (findByIdAndUpdate env db id status) = true →
      (updateResourceStatus env db id status).2.status = 400 ∧
      (updateResourceStatus env db id status).1 = db) := by
  refine ⟨loginUser_caught, registerUser_caught, ?_, ?_, ?_, ?_, ?_⟩
  · intro env₁ env₂ db₁ db₂ body₁ body₂ h₁ h₂
    rw [loginUser_caught _ _ _ h₁, loginUser_caught _ _ _ h₂]
  · intro env₁ env₂ db₁ db₂ body₁ body₂ h₁ h₂
    rw [registerUser_caught _ _ _ h₁, registerUser_caught _ _ _ h₂]
  · intro env db filter h
    have herr : ∃ err, env.findError = some err := by
      unfold find at h
      cases hfe : env.findError with
      | none => rw [hfe] at h; cases h
      | some err => exact ⟨err, rfl⟩
    obtain ⟨err, herr⟩ := herr
    refine ⟨by simp [getAllResources, find, herr], fun userId => ?_⟩
    simp [getUserResourceRequests, find, herr]
  · intro env db body h
    unfold createResourceRequest
    cases hs : saveResource env db body with
    | ok v => rw [hs] at h; cases h
    | error err => exact ⟨rfl, rfl⟩
  · intro env db id status h
    unfold updateResourceStatus
    cases hs : findByIdAndUpdate env db id status with
    | ok v => rw [hs] at h; cases h
    | error err => exact ⟨rfl, rfl⟩

/-- Witness for the amended C11: hashing fails with two different messages during
Amit's registration, and the two responses are the same 500. -/
theorem caught_errors_witness :
    (∃ label err, Effect.consoleError label err
        ∈ (registerUser (hashDownEnv "Illegal arguments") [] amitBody).effects) ∧
    (∃ label err, Effect.consoleError label err
        ∈ (registerUser (hashDownEnv "out of memory") [] amitBody).effects) ∧
    (registerUser (hashDownEnv "Illegal arguments") [] amitBody).response
      = (registerUser (hashDownEnv "out of memory") [] amitBody).response ∧
    (registerUser (hashDownEnv "Illegal arguments") [] amitBody).response
      = ⟨500, [("error", .str "Server error")]⟩ ∧
    (getAllResources (resourceDown "pool destroyed") []).status = 500 :=
  have h₁ : ∃ label err, Effect.consoleError label err
      ∈ (registerUser (hashDownEnv "Illegal arguments") [] amitBody).effects :=
    ⟨none, ⟨"Illegal arguments"⟩, by decide⟩
  have h₂ : ∃ label err, Effect.consoleError label err
      ∈ (registerUser (hashDownEnv "out of memory") [] amitBody).effects :=
    ⟨none, ⟨"out of memory"⟩, by decide⟩
  ⟨h₁, h₂,
   caught_errors.2.2.2.1 (hashDownEnv "Illegal arguments") (hashDownEnv "out of memory") [] []
     amitBody amitBody h₁ h₂,
   caught_errors.2.1 (hashDownEnv "Illegal arguments") [] amitBody h₁,
   (caught_errors.2.2.2.2.1 (resourceDown "pool destroyed") [] (fun _ => true) rfl).1⟩

end Pehlahath

namespace Pehlahath

/-! ## The client session: login and logout -/

/-- Claim C21: after `login(token, userData)` the default `Authorization` header
is `Bearer ` followed by the token, `localStorage` holds the token under `token`
and the serialised user data under `userData`, and the current user is
`userData`; the only effect is the navigation to `/`. -/
theorem login_establishes_session (codec : JsonCodec) (s : SessionState) (token : String)
    (userData : Js) :
    (login codec s token userData).1.authorization = some ("Bearer " ++ token) ∧
    (login codec s token userData).1.storage "token" = some token ∧
    (login codec s token userData).1.storage "userData" = some (codec.stringify userData) ∧
    (login codec s token userData).1.user = userData ∧
    (login codec s token userData).2 = [.navigate "/"] := by
  refine ⟨rfl, ?_, ?_, rfl, rfl⟩
  · simp [login, setItem]
  · simp [login, setItem]

/-- Claim C22: from any session state `logout()` leaves the current user `null`,
neither `token` nor `userData` in `localStorage` and no default `Authorization`
header; it issues no request, its only effect is the navigation to `/login`. -/
theorem logout_discards_session (s : SessionState) :
    (logout s).1.user = .null ∧
    (logout s).1.storage "token" = none ∧
    (logout s).1.storage "userData" = none ∧
    (logout s).1.authorization = none ∧
    (logout s).2 = [.navigate "/login"] := by
  refine ⟨rfl, ?_, ?_, rfl, rfl⟩
  · simp [logout, removeItem]
  · simp [logout, removeItem]

/-! ## Routes -/

/-- In `frontend/src/App.jsx` the session gates the routes: without a user every
path but `/login` and `/register` is a redirect to `/login`, and with a user
`/login` is a redirect to `/`. -/
theorem frontendApp_gated (user : Js) (path : String) :
    (user.truthy = false → path ≠ "/login" → path ≠ "/register" →
      frontendApp user path = .navigate "/login") ∧
    (user.truthy = true → frontendApp user "/login" = .navigate "/") := by
  constructor
  · intro hu h1 h2
    simp only [frontendApp, ProtectedRoute, hu, if_neg h1, if_neg h2, Bool.not_false,
      if_true, ite_self, Bool.false_eq_true, if_false]
  · intro hu
    simp only [frontendApp, hu, if_true, Bool.not_true, Bool.false_eq_true, if_false]

/-- In `frontend1/src/App.jsx` the dashboard, `/login` and the unknown paths are
gated in the same way. -/
theorem frontend1App_gated (user : Js) :
    (user.truthy = false → frontend1App user "/" = .navigate "/login") ∧
    (user.truthy = false → frontend1App user "/no-such-page" = .navigate "/login") ∧
    (user.truthy = true → frontend1App user "/login" = .navigate "/") := by
  refine ⟨?_, ?_, ?_⟩ <;> intro hu <;> simp only [frontend1App, hu] <;> decide

/-- Claim C23: in `frontend1/src/App.jsx` the pages under `Layout` have no guard;
with no user the path `/alerts` renders the alerts page, where the routes of
`frontend/src/App.jsx` redirect to `/login`. -/
theorem frontend1_layout_pages_unguarded :
    frontend1App .null "/alerts" = .page "Alerts" true ∧
    frontendApp .null "/alerts" = .navigate "/login" := by
  constructor <;> decide

/-! ## Listing resources -/

theorem newestFirst_sorted (l : List Resource) :
    (l.insertionSort newestFirst).Sorted newestFirst := by
  refine sorted_insertionSort_on newestFirst (fun _ => True) ?_ ?_ l (fun _ _ => trivial)
  · intro a b _ _
    exact le_total _ _
  · intro a b c _ _ _ hab hbc
    exact le_trans hbc hab

theorem find_ok (env : ResourceEnv) (db : List Resource) (filter : Resource → Bool)
    (h : env.findError = none) :
    find env db filter = .ok ((db.filter filter).insertionSort newestFirst) := by
  simp [find, h]

end Pehlahath

namespace Pehlahath

/-- Claim C24: when the query completes, `getAllResources` answers 200 with
every stored resource and `getUserResourceRequests` answers 200 with exactly the
resources whose `providedBy.id` is the given user, each resource as often as it
is stored, and in both lists each item is at least as recent as the next one. -/
theorem resources_listed_newest_first (env : ResourceEnv) (db : List Resource)
    (userId : String) (h : env.findError = none) :
    (∃ everything, getAllResources env db = ⟨200, .list everything⟩ ∧
      everything.Perm db ∧
      everything.Chain' (fun earlier later => later.timestamp ≤ earlier.timestamp)) ∧
    (∃ mine, getUserResourceRequests env db userId = ⟨200, .list mine⟩ ∧
      mine.Perm (db.filter (fun r => r.providedBy == userId)) ∧
      (∀ r, r ∈ mine ↔ r ∈ db ∧ r.providedBy = userId) ∧
      mine.Chain' (fun earlier later => later.timestamp ≤ earlier.timestamp)) := by
  constructor
  · refine ⟨(db.filter (fun _ => true)).insertionSort newestFirst, ?_, ?_, ?_⟩
    · simp [getAllResources, find_ok env db _ h]
    · have hp := List.perm_insertionSort newestFirst (db.filter (fun _ => true))
      simpa using hp
    · exact (newestFirst_sorted _).chain'
  · refine ⟨(db.filter (fun r => r.providedBy == userId)).insertionSort newestFirst,
      ?_, ?_, ?_, ?_⟩
    · simp [getUserResourceRequests, find_ok env db _ h]
    · exact List.perm_insertionSort newestFirst _
    · intro r
      rw [(List.perm_insertionSort newestFirst _).mem_iff]
      simp
    · exact (newestFirst_sorted _).chain'

theorem resources_listed_newest_first_witness :
    resourceUp.findError = none ∧
    getAllResources resourceUp sampleResources = ⟨200, .list
      [⟨"r2", "u2", 30, "pending", ""⟩, ⟨"r3", "u1", 20, "fulfilled", ""⟩,
       ⟨"r1", "u1", 10, "pending", ""⟩]⟩ ∧
    getUserResourceRequests resourceUp sampleResources "u1" = ⟨200, .list
      [⟨"r3", "u1", 20, "fulfilled", ""⟩, ⟨"r1", "u1", 10, "pending", ""⟩]⟩ ∧
    ((∃ everything, getAllResources resourceUp sampleResources = ⟨200, .list everything⟩ ∧
      everything.Perm sampleResources ∧
      everything.Chain' (fun earlier later => later.timestamp ≤ earlier.timestamp)) ∧
    (∃ mine, getUserResourceRequests resourceUp sampleResources "u1" = ⟨200, .list mine⟩ ∧
      mine.Perm (sampleResources.filter (fun r => r.providedBy == "u1")) ∧
      (∀ r, r ∈ mine ↔ r ∈ sampleResources ∧ r.providedBy = "u1") ∧
      mine.Chain' (fun earlier later => later.timestamp ≤ earlier.timestamp))) :=
  ⟨rfl, by decide, by decide, resources_listed_newest_first resourceUp sampleResources "u1" rfl⟩

end Pehlahath

namespace Pehlahath

/-! ## The name of a place -/

theorem isWhiteSpace_space : isWhiteSpace ' ' = true := by decide

theorem isAscii_space : isAscii ' ' = true := by decide

theorem mem_collapseFrom (inRun : Bool) (cs : List Char) (c : Char)
    (h : c ∈ collapseFrom inRun cs) : c = ' ' ∨ c ∈ cs := by
  induction cs generalizing inRun with
  | nil => simp [collapseFrom] at h
  | cons d ds ih =>
    simp only [collapseFrom] at h
    split at h
    · split at h
      · rcases ih _ h with h | h
        · exact Or.inl h
        · exact Or.inr (List.mem_cons_of_mem _ h)
      · rcases List.mem_cons.mp h with h | h
        · exact Or.inl h
        · rcases ih _ h with h | h
          · exact Or.inl h
          · exact Or.inr (List.mem_cons_of_mem _ h)
    · rcases List.mem_cons.mp h with h | h
      · exact Or.inr (h ▸ List.mem_cons_self _ _)
      · rcases ih _ h with h | h
        · exact Or.inl h
        · exact Or.inr (List.mem_cons_of_mem _ h)

theorem collapseFrom_chain (inRun : Bool) (cs : List Char) :
    (collapseFrom inRun cs).Chain' (fun a b => ¬ (isWhiteSpace a = true ∧ isWhiteSpace b = true)) ∧
    (inRun = true → ∀ c ∈ (collapseFrom inRun cs).head?, isWhiteSpace c = false) := by
  induction cs generalizing inRun with
  | nil => simp [collapseFrom]
  | cons d ds ih =>
    simp only [collapseFrom]
    by_cases hd : isWhiteSpace d = true
    · simp only [hd, if_true]
      cases inRun with
      | true => simpa using ih true
      | false =>
        simp only [Bool.false_eq_true, if_false, List.chain'_cons', false_implies, and_true]
        refine ⟨?_, (ih true).1⟩
        intro y hy hboth
        have := (ih true).2 rfl y hy
        simp [this] at hboth
    · have hd' : isWhiteSpace d = false := by simpa using hd
      simp only [hd', Bool.false_eq_true, if_false, List.chain'_cons']
      refine ⟨⟨?_, (ih false).1⟩, ?_⟩
      · intro y _ hboth
        exact absurd hboth.1 (by simp)
      · intro _ c hc
        simp only [List.head?_cons, Option.mem_def, Option.some.injEq] at hc
        subst hc
        exact hd'

theorem collapseFrom_filter (inRun : Bool) (cs : List Char) :
    (collapseFrom inRun cs).filter (fun c => !isWhiteSpace c) =
      cs.filter (fun c => !isWhiteSpace c) := by
  induction cs generalizing inRun with
  | nil => rfl
  | cons d ds ih =>
    simp only [collapseFrom]
    by_cases hd : isWhiteSpace d = true
    · cases inRun <;> simp [hd, ih, isWhiteSpace_space]
    · simp [hd, ih]

theorem dropWhile_filter_not (p : Char → Bool) (cs : List Char) :
    (cs.dropWhile p).filter (fun c => !p c) = cs.filter (fun c => !p c) := by
  induction cs with
  | nil => rfl
  | cons d ds ih =>
    by_cases hd : p d = true
    · simp [List.dropWhile, hd, ih]
    · simp [List.dropWhile, hd]

theorem trim_filter (cs : List Char) :
    (trim cs).filter (fun c => !isWhiteSpace c) = cs.filter (fun c => !isWhiteSpace c) := by
  have h : ∀ l : List Char, (l.rdropWhile isWhiteSpace).filter (fun c => !isWhiteSpace c) =
      l.filter (fun c => !isWhiteSpace c) := by
    intro l
    rw [List.rdropWhile, List.filter_reverse, dropWhile_filter_not, ← List.filter_reverse,
      List.reverse_reverse]
  rw [trim, h, dropWhile_filter_not]

theorem trim_within (cs : List Char) : trim cs <:+: cs := by
  have h1 := List.rdropWhile_prefix isWhiteSpace (cs.dropWhile isWhiteSpace)
  have h2 : cs.dropWhile isWhiteSpace <:+ cs := List.dropWhile_suffix _
  have h3 := List.IsPrefix.isInfix h1
  have h4 := List.IsSuffix.isInfix h2
  exact List.IsInfix.trans h3 h4

theorem trim_head (cs : List Char) : ∀ c ∈ (trim cs).head?, isWhiteSpace c = false := by
  intro c hc
  obtain ⟨t, ht⟩ := List.rdropWhile_prefix isWhiteSpace (cs.dropWhile isWhiteSpace)
  have hne : trim cs ≠ [] := by
    intro h
    simp [h] at hc
  have hhead : (cs.dropWhile isWhiteSpace).head? = some c := by
    rw [← ht]
    cases hl : (cs.dropWhile isWhiteSpace).rdropWhile isWhiteSpace with
    | nil => exact absurd hl hne
    | cons a as =>
      have : (trim cs).head? = some a := by simp [trim, hl]
      rw [this] at hc
      simp only [Option.mem_def, Option.some.injEq] at hc
      simp [hc]
  have := List.head?_dropWhile_not isWhiteSpace cs
  rw [hhead] at this
  simpa using this

theorem trim_last (cs : List Char) : ∀ c ∈ (trim cs).getLast?, isWhiteSpace c = false := by
  intro c hc
  have hne : trim cs ≠ [] := by
    intro h
    simp [h] at hc
  have h := List.rdropWhile_last_not isWhiteSpace (cs.dropWhile isWhiteSpace) hne
  rw [List.getLast?_eq_getLast _ hne] at hc
  simp only [Option.mem_def, Option.some.injEq] at hc
  rw [← hc]
  simpa [trim] using h

theorem not_comma_of_mem_beforeFirstComma (cs : List Char) (c : Char)
    (h : c ∈ beforeFirstComma cs) : c ≠ ',' := by
  have := List.mem_takeWhile_imp h
  simpa using this

end Pehlahath

namespace Pehlahath

theorem splitAtWhiteSpace_ne_nil (cs : List Char) : splitAtWhiteSpace cs ≠ [] := by
  cases cs with
  | nil => simp [splitAtWhiteSpace]
  | cons c cs =>
    simp only [splitAtWhiteSpace]
    split
    · simp
    · split <;> simp

theorem joinWords_cons (w : List Char) (rest : List (List Char)) :
    joinWords (w :: rest) = w ++ (if rest = [] then [] else ' ' :: joinWords rest) := by
  cases rest with
  | nil => simp [joinWords]
  | cons v vs => simp [joinWords]

theorem joinWords_eq_nil (ws : List (List Char)) (h : ∀ w ∈ ws, w ≠ []) :
    joinWords ws = [] ↔ ws = [] := by
  cases ws with
  | nil => simp [joinWords]
  | cons w rest =>
    rw [joinWords_cons]
    have := h w (List.mem_cons_self _ _)
    simp [this]

theorem mem_wordsOf_ne_nil (cs : List Char) : ∀ w ∈ wordsOf cs, w ≠ [] := by
  intro w hw
  have := (List.mem_filter.mp hw).2
  intro h
  simp [h] at this

theorem dropWhile_concat (p : Char → Bool) (xs : List Char) (c : Char) :
    (xs ++ [c]).dropWhile p
      = if xs.dropWhile p = [] then (if p c then [] else [c]) else xs.dropWhile p ++ [c] := by
  induction xs with
  | nil => by_cases hc : p c <;> simp [List.dropWhile, hc]
  | cons x xs ih =>
    by_cases hx : p x
    · simp only [List.cons_append, List.dropWhile_cons, hx, if_true]
      exact ih
    · simp [List.dropWhile_cons, hx]

theorem rdropWhile_cons (p : Char → Bool) (c : Char) (l : List Char) :
    (c :: l).rdropWhile p
      = if l.rdropWhile p = [] then (if p c then [] else [c]) else c :: l.rdropWhile p := by
  simp only [List.rdropWhile, List.reverse_cons, dropWhile_concat, List.reverse_eq_nil_iff]
  split
  · split <;> simp
  · simp

theorem dropWhile_collapseFrom (cs : List Char) :
    (collapseFrom false cs).dropWhile isWhiteSpace = collapseFrom true cs := by
  cases cs with
  | nil => rfl
  | cons c cs =>
    by_cases hc : isWhiteSpace c = true
    · simp only [collapseFrom, hc, if_true, Bool.false_eq_true, if_false, List.dropWhile_cons,
        isWhiteSpace_space]
      have hhead := (collapseFrom_chain true cs).2 rfl
      cases hl : collapseFrom true cs with
      | nil => rfl
      | cons d ds =>
        have := hhead d (by simp [hl])
        simp [List.dropWhile_cons, this]
    · have hc' : isWhiteSpace c = false := by simpa using hc
      simp [collapseFrom, hc', List.dropWhile_cons]

theorem collapseFrom_words (cs : List Char) :
    (collapseFrom true cs).rdropWhile isWhiteSpace = joinWords (wordsOf cs) ∧
    ∃ w rest, splitAtWhiteSpace cs = w :: rest ∧
      (collapseFrom false cs).rdropWhile isWhiteSpace
        = w ++ (if rest.filter (fun w => !w.isEmpty) = [] then []
                else ' ' :: joinWords (rest.filter (fun w => !w.isEmpty))) := by
  induction cs with
  | nil =>
    refine ⟨by simp [collapseFrom, wordsOf, splitAtWhiteSpace, joinWords], [], [], rfl, ?_⟩
    simp [collapseFrom]
  | cons c cs ih =>
    obtain ⟨htrue, w, rest, hsplit, hfalse⟩ := ih
    by_cases hc : isWhiteSpace c = true
    · have hwords : wordsOf (c :: cs) = wordsOf cs := by
        simp [wordsOf, splitAtWhiteSpace, hc]
      refine ⟨?_, [], splitAtWhiteSpace cs, by simp [splitAtWhiteSpace, hc], ?_⟩
      · simp only [collapseFrom, hc, if_true, hwords]
        exact htrue
      · simp only [collapseFrom, hc, if_true, Bool.false_eq_true, if_false, rdropWhile_cons,
          htrue, isWhiteSpace_space, List.nil_append]
        have hnil := joinWords_eq_nil (wordsOf cs) (mem_wordsOf_ne_nil cs)
        by_cases hw : wordsOf cs = []
        · have hw' : List.filter (fun w => !w.isEmpty) (splitAtWhiteSpace cs) = [] := hw
          simp [hw, hw', joinWords]
        · have hw' : ¬ List.filter (fun w => !w.isEmpty) (splitAtWhiteSpace cs) = [] := hw
          have hj : ¬ joinWords (wordsOf cs) = [] := fun h => hw (hnil.mp h)
          simp only [hj, hw', if_false]
          rfl
    · have hc' : isWhiteSpace c = false := by simpa using hc
      have hsplit' : splitAtWhiteSpace (c :: cs) = (c :: w) :: rest := by
        simp [splitAtWhiteSpace, hc', hsplit]
      have hboth : ∀ b, (collapseFrom b (c :: cs)).rdropWhile isWhiteSpace
          = (c :: w) ++ (if rest.filter (fun w => !w.isEmpty) = [] then []
              else ' ' :: joinWords (rest.filter (fun w => !w.isEmpty))) := by
        intro b
        simp only [collapseFrom, hc', Bool.false_eq_true, if_false, rdropWhile_cons, hfalse]
        split <;> simp_all
      refine ⟨?_, c :: w, rest, hsplit', hboth false⟩
      rw [hboth true, wordsOf, hsplit']
      simp only [List.filter_cons, List.isEmpty_cons, Bool.not_false, if_true]
      rw [joinWords_cons]

theorem trim_collapse_words (cs : List Char) :
    trim (collapseWhiteSpace cs) = joinWords (wordsOf cs) := by
  rw [trim, collapseWhiteSpace, dropWhile_collapseFrom]
  exact (collapseFrom_words cs).1

theorem splitAtWhiteSpace_clean (cs : List Char) :
    ∀ w ∈ splitAtWhiteSpace cs, ∀ c ∈ w, isWhiteSpace c = false := by
  induction cs with
  | nil => simp [splitAtWhiteSpace]
  | cons d ds ih =>
    by_cases hd : isWhiteSpace d = true
    · simp only [splitAtWhiteSpace, hd, if_true, List.mem_cons]
      rintro w (rfl | hw) c hc
      · cases hc
      · exact ih w hw c hc
    · have hd' : isWhiteSpace d = false := by simpa using hd
      simp only [splitAtWhiteSpace, hd', Bool.false_eq_true, if_false]
      cases hs : splitAtWhiteSpace ds with
      | nil => exact absurd hs (splitAtWhiteSpace_ne_nil ds)
      | cons v vs =>
        rw [hs] at ih
        simp only [List.mem_cons]
        rintro w (rfl | hw) c hc
        · rcases List.mem_cons.mp hc with rfl | hc
          · exact hd'
          · exact ih v (List.mem_cons_self _ _) c hc
        · exact ih w (List.mem_cons_of_mem _ hw) c hc

theorem splitAtWhiteSpace_join (cs : List Char) :
    (splitAtWhiteSpace cs).flatten = cs.filter (fun c => !isWhiteSpace c) := by
  induction cs with
  | nil => rfl
  | cons d ds ih =>
    by_cases hd : isWhiteSpace d = true
    · simp [splitAtWhiteSpace, hd, ih]
    · have hd' : isWhiteSpace d = false := by simpa using hd
      simp only [splitAtWhiteSpace, hd', Bool.false_eq_true, if_false]
      cases hs : splitAtWhiteSpace ds with
      | nil => exact absurd hs (splitAtWhiteSpace_ne_nil ds)
      | cons v vs =>
        rw [hs] at ih
        simp only [List.flatten_cons] at ih
        simp [List.filter_cons, hd', ← ih]

theorem wordsOf_join (cs : List Char) :
    (wordsOf cs).flatten = cs.filter (fun c => !isWhiteSpace c) := by
  rw [← splitAtWhiteSpace_join, wordsOf]
  induction splitAtWhiteSpace cs with
  | nil => rfl
  | cons w ws ih =>
    cases w with
    | nil => simpa using ih
    | cons c w => simp [List.filter_cons, ih]

theorem extractEnglishName_some (s : String) (h : s ≠ "") :
    (extractEnglishName (some s)).data =
      trim (collapseWhiteSpace ((beforeFirstComma s.data).filter isAscii)) := by
  simp [extractEnglishName, h]

theorem mem_cleaned (cs : List Char) (c : Char)
    (h : c ∈ trim (collapseWhiteSpace ((beforeFirstComma cs).filter isAscii))) :
    isAscii c = true ∧ c ≠ ',' := by
  have h1 := (trim_within _).subset h
  rcases mem_collapseFrom _ _ _ h1 with h2 | h2
  · subst h2
    exact ⟨isAscii_space, by decide⟩
  · rw [List.mem_filter] at h2
    exact ⟨h2.2, not_comma_of_mem_beforeFirstComma cs c h2.1⟩

/-- Claim C25: `extractEnglishName` returns `Unknown Location` for an absent or
empty input; for any other input the result is made of the words of the ASCII
characters before the first comma, in their order, with exactly one space
between two words and nothing before the first or after the last, where the
words are the non-empty runs without white space that together hold every
character that is not white space; and every result contains only ASCII
characters, no comma, no two adjacent white space characters, and neither starts
nor ends with white space. -/
theorem extractEnglishName_clean (displayName : Option String) :
    extractEnglishName none = "Unknown Location" ∧
    extractEnglishName (some "") = "Unknown Location" ∧
    (∀ s, displayName = some s → s ≠ "" →
      (extractEnglishName displayName).data
        = joinWords (wordsOf ((beforeFirstComma s.data).filter isAscii)) ∧
      (∀ w ∈ wordsOf ((beforeFirstComma s.data).filter isAscii),
        w ≠ [] ∧ ∀ c ∈ w, isWhiteSpace c = false) ∧
      (wordsOf ((beforeFirstComma s.data).filter isAscii)).flatten
        = ((beforeFirstComma s.data).filter isAscii).filter (fun c => !isWhiteSpace c) ∧
      (extractEnglishName displayName).data.filter (fun c => !isWhiteSpace c) =
        ((beforeFirstComma s.data).filter isAscii).filter (fun c => !isWhiteSpace c)) ∧
    (∀ c ∈ (extractEnglishName displayName).data, isAscii c = true) ∧
    ',' ∉ (extractEnglishName displayName).data ∧
    (extractEnglishName displayName).data.Chain'
      (fun a b => ¬ (isWhiteSpace a = true ∧ isWhiteSpace b = true)) ∧
    (∀ c ∈ (extractEnglishName displayName).data.head?, isWhiteSpace c = false) ∧
    (∀ c ∈ (extractEnglishName displayName).data.getLast?, isWhiteSpace c = false) := by
  refine ⟨rfl, rfl, ?_, ?_⟩
  · intro s hs hne
    subst hs
    refine ⟨?_, ?_, wordsOf_join _, ?_⟩
    · rw [extractEnglishName_some s hne, trim_collapse_words]
    · intro w hw
      exact ⟨mem_wordsOf_ne_nil _ w hw,
        splitAtWhiteSpace_clean _ w (List.mem_filter.mp hw).1⟩
    · rw [extractEnglishName_some s hne, trim_filter, collapseWhiteSpace, collapseFrom_filter]
  · have hform : ∃ cs, (extractEnglishName displayName).data =
        trim (collapseWhiteSpace ((beforeFirstComma cs).filter isAscii)) := by
      have hunknown : "Unknown Location".data =
          trim (collapseWhiteSpace ((beforeFirstComma "Unknown Location".data).filter isAscii)) := by
        decide
      cases displayName with
      | none => exact ⟨_, hunknown⟩
      | some s =>
        by_cases hne : s = ""
        · subst hne
          exact ⟨_, hunknown⟩
        · exact ⟨_, extractEnglishName_some s hne⟩
    obtain ⟨cs, hcs⟩ := hform
    rw [hcs]
    refine ⟨fun c hc => (mem_cleaned _ c hc).1, fun hc => (mem_cleaned _ _ hc).2 rfl, ?_,
      trim_head _, trim_last _⟩
    exact List.Chain'.infix (collapseFrom_chain false _).1 (trim_within _)

theorem extractEnglishName_clean_witness :
    extractEnglishName (some "  General   Hospital\tAnnexe , Kochi, Kerala") =
      "General Hospital Annexe" ∧
    wordsOf ((beforeFirstComma "  General   Hospital\tAnnexe , Kochi, Kerala".data).filter
      isAscii) = ["General".data, "Hospital".data, "Annexe".data] ∧
    (extractEnglishName (some "  General   Hospital\tAnnexe , Kochi, Kerala")).data
      = joinWords (wordsOf
          ((beforeFirstComma "  General   Hospital\tAnnexe , Kochi, Kerala".data).filter
            isAscii)) ∧
    (extractEnglishName (some "  General   Hospital\tAnnexe , Kochi, Kerala")).data.Chain'
      (fun a b => ¬ (isWhiteSpace a = true ∧ isWhiteSpace b = true)) :=
  ⟨by decide, by decide,
   ((extractEnglishName_clean (some "  General   Hospital\tAnnexe , Kochi, Kerala")).2.2.1
      _ rfl (by decide)).1,
   (extractEnglishName_clean (some "  General   Hospital\tAnnexe , Kochi, Kerala")).2.2.2.2.2.1⟩

end Pehlahath

namespace Pehlahath

/-! ## The nearest candidate under a constant provider answer -/

theorem radius_km_fin {r : JsNum} (hr : r ∈ radii) :
    ∃ ρ : ℚ, r / ((1000 : ℕ) : JsNum) = .fin ρ ∧ ρ ≤ 20 := by
  simp only [radii, List.mem_cons, List.mem_singleton, List.not_mem_nil, or_false] at hr
  rcases hr with h | h | h | h <;> subst h
  · exact ⟨5, by simp only [JsNum.natCast_eq, JsNum.fin_div_fin]; norm_num, by norm_num⟩
  · exact ⟨10, by simp only [JsNum.natCast_eq, JsNum.fin_div_fin]; norm_num, by norm_num⟩
  · exact ⟨15, by simp only [JsNum.natCast_eq, JsNum.fin_div_fin]; norm_num, by norm_num⟩
  · exact ⟨20, by simp only [JsNum.natCast_eq, JsNum.fin_div_fin]; norm_num, by norm_num⟩

theorem twenty_km : ((20000 : ℕ) : JsNum) / ((1000 : ℕ) : JsNum) = ((20 : ℕ) : JsNum) := by
  simp only [JsNum.natCast_eq, JsNum.fin_div_fin]
  norm_num

theorem head_rankCenters_le {env : SearchEnv} {latitude longitude : JsNum} {type : CenterType}
    {radius : JsNum} {data : List Place} {first c : Center}
    (hfirst : (rankCenters env latitude longitude type radius data).head? = some first)
    (hc : c ∈ survivors env latitude longitude type radius data) :
    JsNum.le first.distance c.distance = true := by
  have hsorted := sortByDistance_sorted (survivors env latitude longitude type radius data)
    (fun c hc => survivors_fin hc)
  have hmem : c ∈ sortByDistance (survivors env latitude longitude type radius data) :=
    (sortByDistance_perm _).mem_iff.mpr hc
  rw [rankCenters] at hfirst
  cases hl : sortByDistance (survivors env latitude longitude type radius data) with
  | nil => rw [hl] at hmem; cases hmem
  | cons a as =>
    rw [hl] at hfirst hmem hsorted
    simp only [List.take_succ_cons, List.head?_cons, Option.some.injEq] at hfirst
    subst hfirst
    rcases List.mem_cons.mp hmem with h | h
    · subst h
      obtain ⟨x, hx⟩ := survivors_fin hc
      simp [hx, JsNum.le]
    · exact (List.pairwise_cons.mp hsorted).1 c h

end Pehlahath

namespace Pehlahath

/-- Claim C27: when the provider answers the requests of a category with the
same list at every radius, the result of the category is non-empty exactly when
some candidate of the list has a distance that is a number of at most 20 km, and
the first element of the result is then at most as far as every such candidate. -/
theorem constant_answer_nearest_first (env : SearchEnv) (loc : Location) (type : CenterType)
    (data : List Place)
    (hsame : ∀ r ∈ radii,
      env.get ⟨type.amenity, boundingBox loc.latitude loc.longitude, r⟩ = .ok data) :
    ∃ centers, categoryResult env loc type = .ok centers ∧
      (centers ≠ [] ↔ ∃ place ∈ data,
        JsNum.le (distanceTo env loc.latitude loc.longitude place) ((20 : ℕ) : JsNum) = true) ∧
      ∀ first, centers.head? = some first → ∀ place ∈ data,
        JsNum.le (distanceTo env loc.latitude loc.longitude place) ((20 : ℕ) : JsNum) = true →
        JsNum.le first.distance (distanceTo env loc.latitude loc.longitude place) = true := by
  rcases searchRadii_cases env loc.latitude loc.longitude
    (boundingBox loc.latitude loc.longitude) type radii with
    ⟨pre, r, post, data', hrs, _, hget, hne, hres⟩ | ⟨hall, hres⟩ | ⟨pre, r, post, err, hrs, _, hget, _⟩
  · have hr : r ∈ radii := by rw [hrs]; simp
    have hdata : data' = data := by
      have := hsame r hr
      rw [hget] at this
      exact Except.ok.inj this
    subst hdata
    refine ⟨rankCenters env loc.latitude loc.longitude type r data', ?_, ?_, ?_⟩
    · simp [categoryResult, hres]
    · constructor
      · intro _
        obtain ⟨c, hc⟩ := List.exists_mem_of_ne_nil _ hne
        obtain ⟨place, hplace, hwithin, _⟩ := mem_survivors.mp hc
        exact ⟨place, hplace, radius_km_le_twenty hr hwithin⟩
      · intro _ h
        exact hne (rankCenters_eq_nil_iff.mp h)
    · intro first hfirst place hplace hwithin
      obtain ⟨ρ, hρ, _⟩ := radius_km_fin hr
      obtain ⟨d, t, hd, _, _⟩ := JsNum.le_eq_true_iff.mp hwithin
      by_cases hnear : d ≤ ρ
      · have hc : (⟨place.display_name, place.lat, place.lon, type.name,
            distanceTo env loc.latitude loc.longitude place⟩ : Center) ∈
            survivors env loc.latitude loc.longitude type r data' :=
          mem_survivors.mpr ⟨place, hplace, by rw [hρ, hd]; simp [JsNum.le, hnear], rfl⟩
        exact head_rankCenters_le hfirst hc
      · have hfirstmem : first ∈ rankCenters env loc.latitude loc.longitude type r data' :=
          List.mem_of_mem_head? hfirst
        have hle := survivors_within (mem_rankCenters hfirstmem)
        obtain ⟨x, y, hx, hy, hxy⟩ := JsNum.le_eq_true_iff.mp hle
        rw [hρ] at hy
        cases hy
        rw [hx, hd]
        simp only [JsNum.le, decide_eq_true_eq]
        linarith [not_le.mp hnear]
  · refine ⟨[], ?_, ?_, ?_⟩
    · simp [categoryResult, hres]
    · constructor
      · intro h
        exact absurd rfl h
      · rintro ⟨place, hplace, hwithin⟩
        have hr : ((20000 : ℕ) : JsNum) ∈ radii := by simp [radii]
        obtain ⟨data', hget, hnone⟩ := hall _ hr
        have hdata : data' = data := by
          have := hsame _ hr
          rw [hget] at this
          exact Except.ok.inj this
        subst hdata
        have hc : (⟨place.display_name, place.lat, place.lon, type.name,
            distanceTo env loc.latitude loc.longitude place⟩ : Center) ∈
            survivors env loc.latitude loc.longitude type ((20000 : ℕ) : JsNum) data' :=
          mem_survivors.mpr ⟨place, hplace, by rw [twenty_km]; exact hwithin, rfl⟩
        rw [hnone] at hc
        cases hc
    · intro first hfirst
      cases hfirst
  · have hr : r ∈ radii := by rw [hrs]; simp
    have := hsame r hr
    rw [hget] at this
    cases this

end Pehlahath

namespace Pehlahath

/-! ## Distances that are numbers -/

theorem JsNum.nan_add (x : JsNum) : (JsNum.nan + x : JsNum) = .nan := rfl

theorem JsNum.add_nan (x : JsNum) : (x + JsNum.nan : JsNum) = .nan := by cases x <;> rfl

theorem JsNum.nan_sub (x : JsNum) : (JsNum.nan - x : JsNum) = .nan := rfl

theorem JsNum.sub_nan (x : JsNum) : (x - JsNum.nan : JsNum) = .nan := by cases x <;> rfl

theorem JsNum.nan_mul (x : JsNum) : (JsNum.nan * x : JsNum) = .nan := rfl

theorem JsNum.mul_nan (x : JsNum) : (x * JsNum.nan : JsNum) = .nan := by cases x <;> rfl

theorem JsNum.nan_div (x : JsNum) : (JsNum.nan / x : JsNum) = .nan := rfl

theorem JsNum.mul_eq_fin {a b : JsNum} {q : ℚ} (h : a * b = .fin q) :
    ∃ x y, a = .fin x ∧ b = .fin y ∧ q = x * y := by
  cases a with
  | nan => cases h
  | fin x =>
    cases b with
    | nan => cases h
    | fin y =>
      rw [JsNum.fin_mul_fin] at h
      exact ⟨x, y, rfl, rfl, (JsNum.fin.inj h).symm⟩

theorem calculateDistance_nan_lat (Math : JsMath JsNum) (hlaw : Math.Lawful)
    (lat1 lon1 lon2 : JsNum) : calculateDistance Math lat1 lon1 .nan lon2 = .nan := by
  simp only [calculateDistance, JsNum.nan_sub, JsNum.nan_mul, JsNum.nan_div, hlaw.sin_nan,
    JsNum.nan_add, hlaw.sqrt_nan, hlaw.atan2_nan, JsNum.mul_nan]

theorem calculateDistance_nan_lon (Math : JsMath JsNum) (hlaw : Math.Lawful)
    (lat1 lon1 lat2 : JsNum) : calculateDistance Math lat1 lon1 lat2 .nan = .nan := by
  simp only [calculateDistance, JsNum.nan_sub, JsNum.nan_mul, JsNum.nan_div, hlaw.sin_nan,
    JsNum.add_nan, hlaw.sqrt_nan, hlaw.atan2_nan, JsNum.mul_nan]

theorem calculateDistance_nonneg (Math : JsMath JsNum) (hlaw : Math.Lawful)
    (lat1 lon1 lat2 lon2 : JsNum) (q : ℚ)
    (h : calculateDistance Math lat1 lon1 lat2 lon2 = .fin q) : 0 ≤ q := by
  simp only [calculateDistance] at h
  obtain ⟨R, c, hR, hc, hq⟩ := JsNum.mul_eq_fin h
  obtain ⟨two, t, htwo, ht, hct⟩ := JsNum.mul_eq_fin hc
  rw [JsNum.natCast_eq] at hR htwo
  cases hR
  cases htwo
  have ht0 : 0 ≤ t := by
    cases hs : Math.sqrt (Math.sin ((lat2 - lat1) * Math.PI / ((180 : ℕ) : JsNum) / ((2 : ℕ) : JsNum)) *
        Math.sin ((lat2 - lat1) * Math.PI / ((180 : ℕ) : JsNum) / ((2 : ℕ) : JsNum)) +
        Math.cos (lat1 * Math.PI / ((180 : ℕ) : JsNum)) *
        Math.cos (lat2 * Math.PI / ((180 : ℕ) : JsNum)) *
        Math.sin ((lon2 - lon1) * Math.PI / ((180 : ℕ) : JsNum) / ((2 : ℕ) : JsNum)) *
        Math.sin ((lon2 - lon1) * Math.PI / ((180 : ℕ) : JsNum) / ((2 : ℕ) : JsNum))) with
    | nan =>
      rw [hs, hlaw.atan2_nan] at ht
      cases ht
    | fin y =>
      rw [hs] at ht
      exact hlaw.atan2_nonneg y _ t ht (hlaw.sqrt_nonneg _ y hs)
  rw [hq, hct]
  have h1 : (0 : ℚ) ≤ ((6371 : ℕ) : ℚ) := by norm_num
  have h2 : (0 : ℚ) ≤ ((2 : ℕ) : ℚ) := by norm_num
  exact mul_nonneg h1 (mul_nonneg h2 ht0)

end Pehlahath

namespace Pehlahath

theorem sampleMath_lawful : sampleMath.Lawful where
  sin_nan := rfl
  sqrt_nan := rfl
  atan2_nan := fun _ => rfl
  sqrt_nonneg := by
    intro x q h
    cases x with
    | nan => cases h
    | fin y =>
      simp only [sampleMath, JsNum.le] at h
      by_cases hy : (0 : ℚ) ≤ y
      · simp only [hy, decide_True, if_true] at h
        cases h
        exact hy
      · simp [hy] at h
  atan2_nonneg := by
    intro y x q h hy
    simp only [sampleMath, JsNum.natCast_eq, JsNum.fin_mul_fin, JsNum.fin_div_fin] at h
    norm_num at h
    cases h
    positivity

theorem center_distance_number (env : SearchEnv) (hlaw : env.Math.Lawful)
    (latitude longitude : JsNum) (c : Center)
    (hd : c.distance = calculateDistance env.Math latitude longitude (env.parseFloat c.lat)
      (env.parseFloat c.lon))
    (hfin : ∃ x, c.distance = .fin x) :
    (∃ q : ℚ, c.distance = .fin q ∧ 0 ≤ q) ∧
    env.parseFloat c.lat ≠ .nan ∧ env.parseFloat c.lon ≠ .nan := by
  obtain ⟨x, hx⟩ := hfin
  refine ⟨⟨x, hx, ?_⟩, ?_, ?_⟩
  · rw [hd] at hx
    exact calculateDistance_nonneg env.Math hlaw _ _ _ _ x hx
  · intro hnan
    rw [hd, hnan, calculateDistance_nan_lat env.Math hlaw] at hx
    cases hx
  · intro hnan
    rw [hd, hnan, calculateDistance_nan_lon env.Math hlaw] at hx
    cases hx

/-- Claim C30: with `Math` as ECMAScript lays it down, every candidate that
passes the filter of a radius, and so every candidate of the list given to
`setCenters`, has a distance that is a number and is not negative, and its `lat`
and `lon` parse to numbers; a provider candidate whose `lat` or `lon` does not
parse passes the filter of no radius. -/
theorem returned_distances_are_numbers (env : SearchEnv) (loc : Location)
    (hlaw : env.Math.Lawful) :
    (∀ type radius data, ∀ c ∈ rankCenters env loc.latitude loc.longitude type radius data,
      (∃ q : ℚ, c.distance = .fin q ∧ 0 ≤ q) ∧
      env.parseFloat c.lat ≠ .nan ∧ env.parseFloat c.lon ≠ .nan) ∧
    (∀ type radius (place : Place),
      env.parseFloat place.lat = .nan ∨ env.parseFloat place.lon = .nan →
      survivors env loc.latitude loc.longitude type radius [place] = []) ∧
    (∀ final, (fetchSpecificCenters env (some loc)).centers = some final → ∀ c ∈ final,
      (∃ q : ℚ, c.distance = .fin q ∧ 0 ≤ q) ∧
      env.parseFloat c.lat ≠ .nan ∧ env.parseFloat c.lon ≠ .nan) := by
  have hsurv : ∀ type radius data, ∀ c ∈ survivors env loc.latitude loc.longitude type radius data,
      (∃ q : ℚ, c.distance = .fin q ∧ 0 ≤ q) ∧
      env.parseFloat c.lat ≠ .nan ∧ env.parseFloat c.lon ≠ .nan := by
    intro type radius data c hc
    refine center_distance_number env hlaw loc.latitude loc.longitude c ?_ (survivors_fin hc)
    obtain ⟨place, _, _, hc'⟩ := mem_survivors.mp hc
    rw [hc']
    rfl
  refine ⟨fun type radius data c hc => hsurv type radius data c (mem_rankCenters hc), ?_, ?_⟩
  · intro type radius place hnan
    by_contra hne
    obtain ⟨c, hc⟩ := List.exists_mem_of_ne_nil _ hne
    have hgood := hsurv type radius [place] c hc
    obtain ⟨p, hp, _, hc'⟩ := mem_survivors.mp hc
    have hp' : p = place := by simpa using hp
    subst hp'
    rw [hc'] at hgood
    rcases hnan with h | h
    · exact hgood.2.1 h
    · exact hgood.2.2 h
  · intro final hfinal c hc
    rcases fetchSpecificCenters_cases env loc with
      ⟨h, p, f, hh, hp, hf, hres⟩ | ⟨err, _, hres⟩ | ⟨h, err, _, _, hres⟩ |
      ⟨h, p, err, _, _, _, hres⟩
    · rw [hres] at hfinal
      simp only [Option.some.injEq] at hfinal
      subst hfinal
      have hmem : c ∈ h ++ p ++ f := (sortByDistance_perm _).mem_iff.mp hc
      simp only [List.mem_append] at hmem
      rcases hmem with (hm | hm) | hm
      · obtain ⟨_, hd, hfin⟩ := (categoryResult_mem env loc _ h hh).2.2 c hm
        exact center_distance_number env hlaw _ _ c hd hfin
      · obtain ⟨_, hd, hfin⟩ := (categoryResult_mem env loc _ p hp).2.2 c hm
        exact center_distance_number env hlaw _ _ c hd hfin
      · obtain ⟨_, hd, hfin⟩ := (categoryResult_mem env loc _ f hf).2.2 c hm
        exact center_distance_number env hlaw _ _ c hd hfin
    · rw [hres] at hfinal
      cases hfinal
    · rw [hres] at hfinal
      cases hfinal
    · rw [hres] at hfinal
      cases hfinal

theorem returned_distances_are_numbers_witness :
    sampleSearch.Math.Lawful ∧
    sampleSearch.parseFloat unparsablePlace.lat = .nan ∧
    ((∀ type radius data,
      ∀ c ∈ rankCenters sampleSearch origin.latitude origin.longitude type radius data,
      (∃ q : ℚ, c.distance = .fin q ∧ 0 ≤ q) ∧
      sampleSearch.parseFloat c.lat ≠ .nan ∧ sampleSearch.parseFloat c.lon ≠ .nan) ∧
    (∀ type radius (place : Place),
      sampleSearch.parseFloat place.lat = .nan ∨ sampleSearch.parseFloat place.lon = .nan →
      survivors sampleSearch origin.latitude origin.longitude type radius [place] = []) ∧
    (∀ final, (fetchSpecificCenters sampleSearch (some origin)).centers = some final →
      ∀ c ∈ final,
      (∃ q : ℚ, c.distance = .fin q ∧ 0 ≤ q) ∧
      sampleSearch.parseFloat c.lat ≠ .nan ∧ sampleSearch.parseFloat c.lon ≠ .nan)) :=
  ⟨sampleMath_lawful, by decide,
   returned_distances_are_numbers sampleSearch origin sampleMath_lawful⟩

end Pehlahath

namespace Pehlahath

theorem constant_answer_nearest_first_witness :
    (∀ r ∈ radii, constantSearch.get
      ⟨"hospital", boundingBox origin.latitude origin.longitude, r⟩ = .ok threeHospitals) ∧
    ∃ centers, categoryResult constantSearch origin ⟨"hospital", "Hospital"⟩ = .ok centers ∧
      (centers ≠ [] ↔ ∃ place ∈ threeHospitals,
        JsNum.le (distanceTo constantSearch origin.latitude origin.longitude place)
          ((20 : ℕ) : JsNum) = true) ∧
      ∀ first, centers.head? = some first → ∀ place ∈ threeHospitals,
        JsNum.le (distanceTo constantSearch origin.latitude origin.longitude place)
          ((20 : ℕ) : JsNum) = true →
        JsNum.le first.distance
          (distanceTo constantSearch origin.latitude origin.longitude place) = true :=
  ⟨fun _ _ => rfl,
   constant_answer_nearest_first constantSearch origin ⟨"hospital", "Hospital"⟩ threeHospitals
     (fun _ _ => rfl)⟩

/-! ## Register, then log in -/

theorem findOne_registered (env : Env) (db : Store) (user : User)
    (hfresh : ∀ u ∈ db, u.email ≠ user.email) (hlookup : env.findOneError = none) :
    findOne env (db ++ [user]) (.str user.email) = .ok (some user) := by
  rw [findOne_str env _ _ hlookup, List.find?_append, find?_email_none hfresh]
  simp

/-- Claim C26: when a registration with an email that has no record succeeds,
a login with that email and the registered password, which the comparison
accepts against the stored hash, answers 200 with the registered name, email and
role, and a login with a password the comparison rejects answers 401. -/
theorem register_then_login (env₁ env₂ : Env) (db : Store) (name e role salt hashed key : String)
    (password wrong : JsVal)
    (hname : name ≠ "") (he : e ≠ "") (hpassword : password.truthy = true)
    (hrole : JsVal.str role ∈ validRoles)
    (hfresh : ∀ u ∈ db, u.email ≠ e)
    (hlookup₁ : env₁.findOneError = none)
    (hsalt : env₁.genSalt 10 = .ok salt)
    (hhash : env₁.hash password salt = .ok hashed) (hhashed : hashed ≠ "")
    (hsave : env₁.saveError = none)
    (hlookup₂ : env₂.findOneError = none)
    (hsecret : env₂.JWT_SECRET = some key) (hkey : key ≠ "")
    (haccept : env₂.compare password hashed = .ok true)
    (hwrong : wrong.truthy = true)
    (hreject : env₂.compare wrong hashed = .ok false) :
    (registerUser env₁ db ⟨.str name, .str e, password, .str role⟩).response.status = 201 ∧
    (∃ token : SessionToken,
      (loginUser env₂ (registerUser env₁ db ⟨.str name, .str e, password, .str role⟩).store
          ⟨.str e, password⟩).response
        = ⟨200, [("token", .jwt token), ("id", .str env₁.newId), ("email", .str e),
                 ("name", .str name), ("role", .str role),
                 ("message", .str "Login successful")]⟩) ∧
    (loginUser env₂ (registerUser env₁ db ⟨.str name, .str e, password, .str role⟩).store
        ⟨.str e, wrong⟩).response = invalidCredentials := by
  rw [registerUser_created env₁ db name e role salt hashed password hname he hpassword hrole
    hfresh hlookup₁ hsalt hhash hhashed hsave]
  have hfound := findOne_registered env₂ db ⟨env₁.newId, name, e, hashed, role⟩ hfresh hlookup₂
  have hemail : (JsVal.str e).truthy = true := by simp [truthy_str, he]
  refine ⟨rfl, ⟨⟨⟨env₁.newId, e, name, role, env₂.now, env₂.now + 3600⟩,
    env₂.hmac key ⟨env₁.newId, e, name, role, env₂.now, env₂.now + 3600⟩⟩, ?_⟩, ?_⟩
  · simp [loginUser, hemail, hpassword, hfound, haccept, hsecret, hkey, sign, timespan_one_hour]
  · simp [loginUser, hemail, hwrong, hfound, hreject]

theorem register_then_login_witness :
    sampleEnv.compare (.str "pw123") "$2a$10$pw123" = .ok true ∧
    sampleEnv.compare (.str "guess") "$2a$10$pw123" = .ok false ∧
    (registerUser sampleEnv [] ⟨.str "Amit", .str "a@x.com", .str "pw123", .str "user"⟩).store
      = [amit] ∧
    ((registerUser sampleEnv [] ⟨.str "Amit", .str "a@x.com", .str "pw123",
        .str "user"⟩).response.status = 201 ∧
    (∃ token : SessionToken,
      (loginUser sampleEnv (registerUser sampleEnv [] ⟨.str "Amit", .str "a@x.com",
          .str "pw123", .str "user"⟩).store ⟨.str "a@x.com", .str "pw123"⟩).response
        = ⟨200, [("token", .jwt token), ("id", .str sampleEnv.newId), ("email", .str "a@x.com"),
                 ("name", .str "Amit"), ("role", .str "user"),
                 ("message", .str "Login successful")]⟩) ∧
    (loginUser sampleEnv (registerUser sampleEnv [] ⟨.str "Amit", .str "a@x.com",
        .str "pw123", .str "user"⟩).store ⟨.str "a@x.com", .str "guess"⟩).response
      = invalidCredentials) :=
  ⟨rfl, rfl, rfl,
   register_then_login sampleEnv sampleEnv [] "Amit" "a@x.com" "user" "$2a$10$" "$2a$10$pw123"
     "s3cret" (.str "pw123") (.str "guess") (by decide) (by decide) rfl (by decide)
     (by simp) rfl rfl rfl (by decide) rfl rfl rfl (by decide) rfl rfl rfl⟩

end Pehlahath

namespace Pehlahath

/-! ## The session invariant -/

/-- The invariant of the session: the current user is `null`, or a token is
stored and the default header is `Bearer ` followed by that token. -/
theorem restoreSession_keeps (codec : JsonCodec) (s : SessionState)
    (h : s.user ≠ .null → ∃ t, s.storage "token" = some t ∧
      s.authorization = some ("Bearer " ++ t)) :
    (restoreSession codec s).user ≠ .null →
      ∃ t, (restoreSession codec s).storage "token" = some t ∧
        (restoreSession codec s).authorization = some ("Bearer " ++ t) := by
  unfold restoreSession
  split
  · rename_i token userData htoken _
    split
    · split
      · intro _
        exact ⟨token, htoken, rfl⟩
      · intro _
        exact ⟨token, htoken, rfl⟩
    · exact h
  · exact h

theorem runSession_keeps (codec : JsonCodec) (actions : List SessionAction) :
    ∀ s : SessionState,
      (s.user ≠ .null → ∃ t, s.storage "token" = some t ∧
        s.authorization = some ("Bearer " ++ t)) →
      (runSession codec s actions).user ≠ .null →
        ∃ t, (runSession codec s actions).storage "token" = some t ∧
          (runSession codec s actions).authorization = some ("Bearer " ++ t) := by
  induction actions with
  | nil => intro s h; exact h
  | cons a rest ih =>
    intro s h
    cases a with
    | restore => exact ih _ (restoreSession_keeps codec s h)
    | login token userData =>
      refine ih _ ?_
      intro _
      exact ⟨token, by simp [login, setItem], rfl⟩
    | logout =>
      refine ih _ ?_
      intro hne
      exact absurd rfl hne

theorem restoreSession_user (codec : JsonCodec) (storage : String → Option String)
    (h : (restoreSession codec (pageLoad storage)).user ≠ .null) :
    ∃ token userData, storage "token" = some token ∧ storage "userData" = some userData ∧
      token ≠ "" ∧ userData ≠ "" ∧
      codec.parse userData = .ok (restoreSession codec (pageLoad storage)).user := by
  unfold restoreSession at h ⊢
  simp only [pageLoad] at h ⊢
  split at h
  · rename_i token userData htoken huserData
    rw [htoken, huserData]
    split at h
    · rename_i hboth
      rw [if_pos hboth]
      split at h
      · rename_i parsed hparsed
        exact ⟨token, userData, rfl, rfl, hboth.1, hboth.2, hparsed⟩
      · exact absurd rfl h
    · exact absurd rfl h
  · exact absurd rfl h

end Pehlahath

namespace Pehlahath

/-- Claim C28: in every state reached from a page load through restore, login
and logout, the current user is non-null only if a token is stored and the
default header is `Bearer ` followed by that token; a restore after
`login(token, userData)` with a non-empty token gives the user that `JSON.parse`
reads back from the serialised `userData`; and a restore leaves the user `null`
unless both `token` and `userData` are stored. -/
theorem session_invariant (codec : JsonCodec) (storage : String → Option String)
    (actions : List SessionAction) (s : SessionState) (token : String) (userData parsed : Js)
    (htoken : token ≠ "") (hstored : codec.stringify userData ≠ "")
    (hparse : codec.parse (codec.stringify userData) = .ok parsed) :
    ((runSession codec (pageLoad storage) actions).user ≠ .null →
      ∃ t, (runSession codec (pageLoad storage) actions).storage "token" = some t ∧
        (runSession codec (pageLoad storage) actions).authorization = some ("Bearer " ++ t)) ∧
    (restoreSession codec (pageLoad (login codec s token userData).1.storage)).user = parsed ∧
    (restoreSession codec (pageLoad (login codec s token userData).1.storage)).authorization
      = some ("Bearer " ++ token) ∧
    ((restoreSession codec (pageLoad storage)).user ≠ .null →
      ∃ t u, storage "token" = some t ∧ storage "userData" = some u) := by
  refine ⟨?_, ?_, ?_, ?_⟩
  · exact runSession_keeps codec actions (pageLoad storage) (fun h => absurd rfl h)
  · simp [restoreSession, pageLoad, login, setItem, htoken, hstored, hparse]
  · simp [restoreSession, pageLoad, login, setItem, htoken, hstored, hparse]
  · intro h
    obtain ⟨t, u, ht, hu, _⟩ := restoreSession_user codec storage h
    exact ⟨t, u, ht, hu⟩

theorem session_invariant_witness :
    (runSession sampleCodec (pageLoad emptyStorage) sampleActions).user = amitUserData ∧
    (runSession sampleCodec (pageLoad emptyStorage) sampleActions).authorization
      = some "Bearer jwt2" ∧
    (((runSession sampleCodec (pageLoad emptyStorage) sampleActions).user ≠ .null →
      ∃ t, (runSession sampleCodec (pageLoad emptyStorage) sampleActions).storage "token"
          = some t ∧
        (runSession sampleCodec (pageLoad emptyStorage) sampleActions).authorization
          = some ("Bearer " ++ t)) ∧
    (restoreSession sampleCodec (pageLoad
      (login sampleCodec (pageLoad emptyStorage) "jwt1" amitUserData).1.storage)).user
      = amitUserData ∧
    (restoreSession sampleCodec (pageLoad
      (login sampleCodec (pageLoad emptyStorage) "jwt1" amitUserData).1.storage)).authorization
      = some ("Bearer " ++ "jwt1") ∧
    ((restoreSession sampleCodec (pageLoad emptyStorage)).user ≠ .null →
      ∃ t u, emptyStorage "token" = some t ∧ emptyStorage "userData" = some u)) :=
  ⟨rfl, rfl,
   session_invariant sampleCodec emptyStorage sampleActions (pageLoad emptyStorage) "jwt1"
     amitUserData amitUserData (by decide) (by decide) rfl⟩

/-! ## The session user and the alerts -/

theorem userData_prop_token (id email name role : JsVal) :
    (Js.object [("id", id), ("email", email), ("name", name), ("role", role)]).prop "token"
      = .undefined := by
  simp [Js.prop, List.lookup]

/-- Claim C29: when `handleSubmit` calls `login`, the user data it passes has
exactly the properties `id`, `email`, `name` and `role` of the response and no
`token`; that object becomes the session user, for which the guard on
`user?.token` of `Dashboard` is false, so the alerts effect sends no request and
does not call `setAlerts`. -/
theorem session_user_has_no_token (codec : JsonCodec) (s : SessionState) (data : Js)
    (token : JsVal) (userData : Js) (bearer : String) (get : Except JsError Js)
    (h : handleSubmit data = some (token, userData)) :
    token = data.prop "token" ∧ token.truthy = true ∧
    userData = .object [("id", data.prop "id"), ("email", data.prop "email"),
      ("name", data.prop "name"), ("role", data.prop "role")] ∧
    userData.prop "token" = .undefined ∧
    (login codec s bearer userData).1.user = userData ∧
    (userData.prop "token").truthy = false ∧
    fetchAlertsEffect (login codec s bearer userData).1.user get = ⟨[], none⟩ := by
  simp only [handleSubmit] at h
  split at h
  · rename_i hcond
    simp only [Option.some.injEq, Prod.mk.injEq] at h
    obtain ⟨htoken, hdata⟩ := h
    subst htoken
    subst hdata
    simp only [Bool.and_eq_true] at hcond
    have hnone := userData_prop_token (data.prop "id") (data.prop "email") (data.prop "name")
      (data.prop "role")
    refine ⟨rfl, hcond.2, rfl, hnone, rfl, by rw [hnone]; rfl, ?_⟩
    simp only [login, fetchAlertsEffect, hnone]
    rfl
  · cases h

theorem session_user_has_no_token_witness :
    handleSubmit amitResponse = some (.str "jwt1", amitUserData) ∧
    (JsVal.str "jwt1" = amitResponse.prop "token" ∧ (JsVal.str "jwt1").truthy = true ∧
    amitUserData = .object [("id", amitResponse.prop "id"), ("email", amitResponse.prop "email"),
      ("name", amitResponse.prop "name"), ("role", amitResponse.prop "role")] ∧
    amitUserData.prop "token" = .undefined ∧
    (login sampleCodec (pageLoad emptyStorage) "jwt1" amitUserData).1.user = amitUserData ∧
    (amitUserData.prop "token").truthy = false ∧
    fetchAlertsEffect (login sampleCodec (pageLoad emptyStorage) "jwt1" amitUserData).1.user
      (.ok (.array [.obj "alert"])) = ⟨[], none⟩) :=
  ⟨rfl,
   session_user_has_no_token sampleCodec (pageLoad emptyStorage) amitResponse (.str "jwt1")
     amitUserData "jwt1" (.ok (.array [.obj "alert"])) rfl⟩

end Pehlahath
